import Mathlib

/-!
Verification of the streaming XML parsing engine (Src/OSF/LIBXML/parser.c) of
the OpenPapyrus tree, against its natural-language specification.

Shallow-embedding conventions, used uniformly below:

* Bytes are `Nat`; a string of the C code (`xmlChar *`) is a byte list `Str`.
  Interned dictionary strings (`xmlDictLookup`) compare by content, so pointer
  comparisons of the C code become value equality of byte lists.
* The parser context `Ctxt` carries the fields of `xmlParserCtxt` that the
  embedded functions read or write.  The input stream is modelled as the single,
  fully buffered frame `Ctxt.input` holding the not-yet-consumed bytes
  (`input->cur` onward); `consumedTotal` is `input->consumed + (cur - base)`.
  The I/O layer (`GROW`, `xmlParserInputGrow`, input pushing/popping) is outside
  the specified core (spec section 6) and is the identity here, and the parser
  state never becomes `XML_PARSER_EOF` inside the embedded functions.
* `__xmlRaiseError` (error.c, not part of the sources) stores the code of every
  raised diagnostic in `ctxt->lastError` and hands it to the diagnostics sink;
  this is modelled by the `lastError` field and the `raised` list.
* C `while` loops that consume input become recursive helper functions; loops
  whose progress depends on called sub-parsers take an explicit `fuel` argument
  (exhaustion sets the `fuelOut` flag, distinguishable from every real outcome).
* Memory allocation always succeeds; buffer capacities are tracked exactly where
  the code makes decisions based on them (`growBuffer` in entity decoding).
-/

set_option maxRecDepth 100000

namespace LibXML

/-- A byte string (`xmlChar *`). -/
abbrev Str := List Nat

/-- Byte list of an ASCII string literal. -/
def bytes (s : String) : Str := s.data.map Char.toNat

/-- The error codes (`xmlParserErrors`) reachable from the embedded functions. -/
inductive XmlErr where
  | ok
  | entityLoop
  | nameTooLong
  | invalidHexCharRef
  | invalidDecCharRef
  | invalidCharRef
  | invalidChar
  | undeclaredEntity
  | warUndeclaredEntity
  | attributeRedefined
  | nsAttributeRedefined
  | nsUndefinedNamespace
  | nsQName
  | nsXmlNamespace
  | warNsUri
  | warNsUriRelative
  | spaceRequired
  | attributeNotStarted
  | attributeNotFinished
  | attributeWithoutValue
  | ltInAttribute
  | entityIsExternal
  | entityIsParameter
  | unparsedEntity
  | nameRequired
  | entityRefSemicolMissing
  | internalError
  | gtRequired
  | warLangValue
  | warSpaceValue
  | dtdStandaloneDefaulted
  | noMemory
  deriving DecidableEq, Repr

/-- Diagnostic severities (`xmlErrorLevel`). -/
inductive Severity where
  | warning
  | error
  | fatal
  deriving DecidableEq, Repr

/-- The `xmlParserInputState` values the embedded functions distinguish. -/
inductive InState where
  | content
  | attributeValue
  | eof
  | other
  deriving DecidableEq, Repr

/-- Entity kinds (`xmlEntityType`). -/
inductive EntityType where
  | internalGeneral
  | externalParsed
  | externalUnparsed
  | internalParameter
  | externalParameter
  | internalPredefined
  deriving DecidableEq, Repr

/-- An entity descriptor (`xmlEntity`): name, kind, replacement text, the cached
`checked` cost estimate and the `owner` flag. -/
structure Entity where
  name : Str
  etype : EntityType
  content : Option Str
  checked : Nat := 0
  owner : Nat := 0
  deriving DecidableEq, Repr

/-- Structural events handed to the SAX consumer, as far as the embedded
functions emit them. -/
inductive Ev where
  | startElementNs (localname : Str) (pfx : Option Str) (uri : Option Str)
      (ns : List (Option Str × Str)) (nbatts : Nat) (nbdef : Nat)
      (atts : List (Str × Option Str × Option Str × Str))
  | reference (name : Str)
  deriving DecidableEq, Repr

/-- The parser context (`xmlParserCtxt`), restricted to the fields the embedded
functions use.  `uriParseOk`/`uriHasScheme` stand for the external URI parser
(`xmlParseURI`, uri.c, not among the sources): whether a string parses as a URI
and whether it carries a scheme. -/
structure Ctxt where
  input : Str := []
  consumedTotal : Nat := 0
  optHuge : Bool := false
  optOld10 : Bool := false
  optOldSax : Bool := false
  optNsClean : Bool := false
  pedantic : Bool := false
  replaceEntities : Bool := false
  recovery : Bool := false
  standalone : Int := 0
  hasExternalSubset : Bool := false
  hasPErefs : Bool := false
  inSubset : Nat := 0
  depth : Nat := 0
  nbentities : Nat := 0
  sizeentities : Nat := 0
  entities : List Entity := []
  paramEntities : List Entity := []
  attsSpecial : List ((Option Str × Str × Option Str × Str) × Nat) := []
  attsDefault : List ((Str × Option Str) × List (Str × Option Str × Str × Bool)) := []
  nsTab : List (Option Str × Str) := []
  space : List Int := [0]
  uriParseOk : Str → Bool := fun _ => true
  uriHasScheme : Str → Bool := fun _ => false
  instate : InState := .content
  errNo : XmlErr := .ok
  lastError : XmlErr := .ok
  raised : List (Severity × XmlErr) := []
  wellFormed : Bool := true
  nsWellFormed : Bool := true
  valid : Bool := true
  disableSAX : Bool := false
  events : List Ev := []
  fuelOut : Bool := false

/-- The interned string `"xml"` (`ctxt->str_xml`). -/
def strXml : Str := bytes "xml"

/-- The interned string `"xmlns"` (`ctxt->str_xmlns`). -/
def strXmlns : Str := bytes "xmlns"

/-- The interned XML namespace URI (`ctxt->str_xml_ns`). -/
def strXmlNs : Str := bytes "http://www.w3.org/XML/1998/namespace"

/-- The reserved namespace-declaration URI checked against at parser.c:8206. -/
def strXmlnsNs : Str := bytes "http://www.w3.org/2000/xmlns/"

/-- `XML_PARSER_NON_LINEAR` (parser.c:73). -/
def XML_PARSER_NON_LINEAR : Nat := 10

/-- `XML_PARSER_BIG_ENTITY` (parser.c:64). -/
def XML_PARSER_BIG_ENTITY : Nat := 1000

/-- `XML_PARSER_BIG_BUFFER_SIZE` (parser.c:176). -/
def XML_PARSER_BIG_BUFFER_SIZE : Nat := 300

/-- `XML_PARSER_BUFFER_SIZE` (parser.c:177). -/
def XML_PARSER_BUFFER_SIZE : Nat := 100

/-- `XML_PARSER_CHUNK_SIZE` (parser.c:189). -/
def XML_PARSER_CHUNK_SIZE : Nat := 100

/-- Modelled from the spec: `XML_MAX_TEXT_LENGTH`, the large-text threshold of
the amplification guard, is defined in parserInternals.h which is not among the
sources; the upstream value is used. -/
def XML_MAX_TEXT_LENGTH : Nat := 10000000

/-- Modelled from the spec: `XML_MAX_NAME_LENGTH`, the fixed maximum name
length, is defined in parserInternals.h which is not among the sources; the
upstream value is used. -/
def XML_MAX_NAME_LENGTH : Nat := 50000

/-- Modelled from the spec: `XML_MAX_NAMELEN` (stack buffer size of the string
tokenizers), from parserInternals.h which is not among the sources. -/
def XML_MAX_NAMELEN : Nat := 100

namespace Ctxt

/-- `RAW` / `CUR`: the current input byte, `0` at end of buffer. -/
def RAW (c : Ctxt) : Nat := c.input.headD 0

/-- `NXT(i)`: lookahead byte, `0` beyond the end of buffer. -/
def NXT (c : Ctxt) (i : Nat) : Nat := c.input.getD i 0

/-- Advance the input cursor by `n` bytes (`SKIP`/`NEXT`/`NEXTL`; the
line/column bookkeeping and the no-op `GROW` of the macros are dropped). -/
def advance (c : Ctxt) (n : Nat) : Ctxt :=
  { c with input := c.input.drop n, consumedTotal := c.consumedTotal + n }

end Ctxt

/-- `xmlFatalErr` (parser.c:252): record the error, clear `wellFormed`, and
disable SAX unless recovering. -/
def xmlFatalErr (c : Ctxt) (e : XmlErr) : Ctxt :=
  if c.disableSAX && c.instate == .eof then c
  else { c with
          errNo := e,
          lastError := e,
          raised := c.raised ++ [(.fatal, e)],
          wellFormed := false,
          disableSAX := if c.recovery then c.disableSAX else true }

/-- `xmlFatalErrMsg` / `xmlFatalErrMsgStr` / `xmlFatalErrMsgInt` /
`xmlFatalErrMsgStrIntStr` (parser.c:342,422,446,468): same state effect as
`xmlFatalErr`. -/
def xmlFatalErrMsg (c : Ctxt) (e : XmlErr) : Ctxt := xmlFatalErr c e

/-- `xmlErrMsgStr` (parser.c:490): a non-fatal parser error; records the code
but leaves `wellFormed` and `disableSAX` alone. -/
def xmlErrMsgStr (c : Ctxt) (e : XmlErr) : Ctxt :=
  if c.disableSAX && c.instate == .eof then c
  else { c with errNo := e, lastError := e, raised := c.raised ++ [(.error, e)] }

/-- `xmlWarningMsg` (parser.c:365): a warning; no `errNo` update. -/
def xmlWarningMsg (c : Ctxt) (e : XmlErr) : Ctxt :=
  if c.disableSAX && c.instate == .eof then c
  else { c with lastError := e, raised := c.raised ++ [(.warning, e)] }

/-- `xmlNsErr` (parser.c:508): a namespace error; severity `XML_ERR_ERROR`,
clears only `nsWellFormed`. -/
def xmlNsErr (c : Ctxt) (e : XmlErr) : Ctxt :=
  if c.disableSAX && c.instate == .eof then c
  else { c with
          errNo := e,
          lastError := e,
          raised := c.raised ++ [(.error, e)],
          nsWellFormed := false }

/-- `xmlNsWarn` (parser.c:528): a namespace warning. -/
def xmlNsWarn (c : Ctxt) (e : XmlErr) : Ctxt :=
  if c.disableSAX && c.instate == .eof then c
  else { c with lastError := e, raised := c.raised ++ [(.warning, e)] }

/-- `xmlValidityError` (parser.c:393): severity error, clears `valid`. -/
def xmlValidityError (c : Ctxt) (e : XmlErr) : Ctxt :=
  if c.disableSAX && c.instate == .eof then c
  else { c with
          errNo := e,
          lastError := e,
          raised := c.raised ++ [(.error, e)],
          valid := false }

/-- `xmlErrAttributeDup` (parser.c:226): the fatal attribute-redefinition
error. -/
def xmlErrAttributeDup (c : Ctxt) : Ctxt :=
  if c.disableSAX && c.instate == .eof then c
  else { c with
          errNo := .attributeRedefined,
          lastError := .attributeRedefined,
          raised := c.raised ++ [(.fatal, .attributeRedefined)],
          wellFormed := false,
          disableSAX := if c.recovery then c.disableSAX else true }

/-- `IS_BLANK_CH`: space, tab, CR, LF. -/
def isBlankCh (b : Nat) : Bool := b == 0x20 || b == 0x9 || b == 0xA || b == 0xD

/-- Modelled from the spec: `IS_CHAR` (the XML `Char` production test,
parserInternals.h, not among the sources): tab, LF, CR, and the non-surrogate,
non-FFFE/FFFF planes up to U+10FFFF. -/
def isChar (c : Nat) : Bool :=
  c == 0x9 || c == 0xA || c == 0xD || (0x20 ≤ c && c ≤ 0xD7FF) ||
  (0xE000 ≤ c && c ≤ 0xFFFD) || (0x10000 ≤ c && c ≤ 0x10FFFF)

/-- Modelled from the spec: `IS_BYTE_CHAR` (parserInternals.h): the single-byte
`Char` test. -/
def isByteChar (b : Nat) : Bool :=
  b == 0x9 || b == 0xA || b == 0xD || (0x20 ≤ b && b ≤ 0xFF)

/-- `IsLetterASCII`. -/
def IsLetterASCII (c : Nat) : Bool :=
  (0x41 ≤ c && c ≤ 0x5A) || (0x61 ≤ c && c ≤ 0x7A)

/-- `isdec`: an ASCII decimal digit. -/
def isdec (c : Nat) : Bool := 0x30 ≤ c && c ≤ 0x39

/-- Modelled from the spec: the legacy (`XML_PARSE_OLD10`) `Letter` class.  The
legacy Unicode tables live in chvalid.c, which is not among the sources; the
spec describes the legacy rule set only as "the simple
Letter/Digit/underscore/colon/combining/extender test", and every claim is
stated over the current rule table, so the legacy classes are modelled on their
ASCII subsets. -/
def IS_LETTER (c : Nat) : Bool := IsLetterASCII c

/-- Modelled from the spec: legacy `Digit` class (see `IS_LETTER`). -/
def IS_DIGIT (c : Nat) : Bool := isdec c

/-- Modelled from the spec: legacy `CombiningChar` class (see `IS_LETTER`). -/
def IS_COMBINING (_c : Nat) : Bool := false

/-- Modelled from the spec: legacy `Extender` class (see `IS_LETTER`). -/
def IS_EXTENDER (c : Nat) : Bool := c == 0xB7

/-- `xmlIsNameStartChar` (parser.c:2696). -/
def xmlIsNameStartChar (c : Ctxt) (ch : Nat) : Bool :=
  if !c.optOld10 then
    (ch != 0x20 && ch != 0x3E && ch != 0x2F &&
     (IsLetterASCII ch || ch == 0x5F || ch == 0x3A ||
      (0xC0 ≤ ch && ch ≤ 0xD6) || (0xD8 ≤ ch && ch ≤ 0xF6) ||
      (0xF8 ≤ ch && ch ≤ 0x2FF) || (0x370 ≤ ch && ch ≤ 0x37D) ||
      (0x37F ≤ ch && ch ≤ 0x1FFF) || (0x200C ≤ ch && ch ≤ 0x200D) ||
      (0x2070 ≤ ch && ch ≤ 0x218F) || (0x2C00 ≤ ch && ch ≤ 0x2FEF) ||
      (0x3001 ≤ ch && ch ≤ 0xD7FF) || (0xF900 ≤ ch && ch ≤ 0xFDCF) ||
      (0xFDF0 ≤ ch && ch ≤ 0xFFFD) || (0x10000 ≤ ch && ch ≤ 0xEFFFF)))
  else
    (IS_LETTER ch || ch == 0x5F || ch == 0x3A)

/-- The full-range name-continuation test of the current rule table, shared by
`xmlIsNameChar` and the loop of `xmlParseNameComplex`. -/
def nameChar11 (ch : Nat) : Bool :=
  IsLetterASCII ch || isdec ch || ch == 0x5F || ch == 0x3A || ch == 0x2D ||
  ch == 0x2E || ch == 0xB7 ||
  (0xC0 ≤ ch && ch ≤ 0xD6) || (0xD8 ≤ ch && ch ≤ 0xF6) ||
  (0xF8 ≤ ch && ch ≤ 0x2FF) || (0x300 ≤ ch && ch ≤ 0x36F) ||
  (0x370 ≤ ch && ch ≤ 0x37D) || (0x37F ≤ ch && ch ≤ 0x1FFF) ||
  (0x200C ≤ ch && ch ≤ 0x200D) || (0x203F ≤ ch && ch ≤ 0x2040) ||
  (0x2070 ≤ ch && ch ≤ 0x218F) || (0x2C00 ≤ ch && ch ≤ 0x2FEF) ||
  (0x3001 ≤ ch && ch ≤ 0xD7FF) || (0xF900 ≤ ch && ch ≤ 0xFDCF) ||
  (0xFDF0 ≤ ch && ch ≤ 0xFFFD) || (0x10000 ≤ ch && ch ≤ 0xEFFFF)

/-- `xmlIsNameChar` (parser.c:2716). -/
def xmlIsNameChar (c : Ctxt) (ch : Nat) : Bool :=
  if !c.optOld10 then
    (ch != 0x20 && ch != 0x3E && ch != 0x2F && nameChar11 ch)
  else
    (IS_LETTER ch || IS_DIGIT ch || ch == 0x2E || ch == 0x2D || ch == 0x5F ||
     ch == 0x3A || IS_COMBINING ch || IS_EXTENDER ch)

/-- `nsPush` (parser.c:1228): push a (prefix, URI) binding; with `XML_PARSE_NSCLEAN`
a binding identical to the in-scope one for the same prefix is dropped
(return -2).  Returns the new number of stack slots (two per binding), and the
updated context. -/
def nsPush (c : Ctxt) (pfx : Option Str) (url : Str) : Int × Ctxt :=
  let inScopeDup :=
    c.optNsClean &&
      (match c.nsTab.reverse.find? (fun b => b.1 == pfx) with
       | some b => b.2 == url
       | none => false)
  if inScopeDup then (-2, c)
  else
    let c := { c with nsTab := c.nsTab ++ [(pfx, url)] }
    ((2 * c.nsTab.length : Nat), c)

/-- `nsPop` (parser.c:1276): pop `nr` stack slots (two per binding), clamped to
the stack size. -/
def nsPop (c : Ctxt) (nr : Nat) : Ctxt :=
  let nr := min nr (2 * c.nsTab.length)
  { c with nsTab := c.nsTab.take (c.nsTab.length - nr / 2) }

/-- `xmlGetNamespace` (parser.c:7648): innermost binding for `pfx`; the `xml`
prefix is hard-bound to the XML namespace URI, and an empty-URI binding of the
default (null) prefix reads back as unbound. -/
def xmlGetNamespace (c : Ctxt) (pfx : Option Str) : Option Str :=
  if pfx == some strXml then some strXmlNs
  else
    match c.nsTab.reverse.find? (fun b => b.1 == pfx) with
    | some b => if pfx == none && b.2.isEmpty then none else some b.2
    | none => none

/-- Modelled from the spec: `xmlGetPredefinedEntity` (entities.c, not among the
sources); the spec names the five predefined entities. -/
def xmlGetPredefinedEntity (name : Str) : Option Entity :=
  if name == bytes "lt" then
    some { name := name, etype := .internalPredefined, content := some (bytes "<") }
  else if name == bytes "gt" then
    some { name := name, etype := .internalPredefined, content := some (bytes ">") }
  else if name == bytes "amp" then
    some { name := name, etype := .internalPredefined, content := some (bytes "&") }
  else if name == bytes "apos" then
    some { name := name, etype := .internalPredefined, content := some (bytes "'") }
  else if name == bytes "quot" then
    some { name := name, etype := .internalPredefined, content := some (bytes "\x22") }
  else none

/-- The general-entity lookup (`sax->getEntity` resolving, per spec section 6,
in the document's name-keyed entity table shared by re-entrant invocations). -/
def lookupEntity (c : Ctxt) (name : Str) : Option Entity :=
  c.entities.find? (fun e => e.name == name)

/-- The parameter-entity lookup (`sax->getParameterEntity`). -/
def lookupPEntity (c : Ctxt) (name : Str) : Option Entity :=
  c.paramEntities.find? (fun e => e.name == name)

/-- Write the `checked` field of the named entity in the shared table
(`ent->checked = ...`). -/
def setChecked (c : Ctxt) (name : Str) (v : Nat) : Ctxt :=
  { c with entities :=
      c.entities.map (fun e => if e.name == name then { e with checked := v } else e) }

/-- A reference to an entity as returned by the reference parsers: either one
of the static predefined descriptors or a pointer into the shared table,
through which later `checked` updates remain visible. -/
inductive EntRef where
  | pre (e : Entity)
  | tbl (name : Str)
  | ptbl (name : Str)
  deriving DecidableEq, Repr

/-- Dereference an `EntRef` against the current table state. -/
def EntRef.deref (c : Ctxt) : EntRef → Option Entity
  | .pre e => some e
  | .tbl n => lookupEntity c n
  | .ptbl n => lookupPEntity c n

/-- Modelled from the spec: `CUR_SCHAR`/`xmlStringCurrentChar` and
`xmlCurrentChar` (parserInternals.c, not among the sources).  The spec (section
4.1) specifies `currentChar() -> codepoint`; this is plain UTF-8 decoding,
returning the code point and its byte length, and the raw byte with length one
on a malformed or truncated sequence (as the original does after raising an
encoding diagnostic), and `(0, 1)` at the end of the buffer. -/
def curSchar (s : Str) : Nat × Nat :=
  match s with
  | [] => (0, 1)
  | b :: rest =>
    if b < 0x80 then (b, 1)
    else if 0xC0 ≤ b && b ≤ 0xDF then
      match rest with
      | c1 :: _ =>
        if 0x80 ≤ c1 && c1 ≤ 0xBF then ((b - 0xC0) * 0x40 + (c1 - 0x80), 2)
        else (b, 1)
      | _ => (b, 1)
    else if 0xE0 ≤ b && b ≤ 0xEF then
      match rest with
      | c1 :: c2 :: _ =>
        if 0x80 ≤ c1 && c1 ≤ 0xBF && 0x80 ≤ c2 && c2 ≤ 0xBF then
          (((b - 0xE0) * 0x40 + (c1 - 0x80)) * 0x40 + (c2 - 0x80), 3)
        else (b, 1)
      | _ => (b, 1)
    else if 0xF0 ≤ b && b ≤ 0xF7 then
      match rest with
      | c1 :: c2 :: c3 :: _ =>
        if 0x80 ≤ c1 && c1 ≤ 0xBF && 0x80 ≤ c2 && c2 ≤ 0xBF && 0x80 ≤ c3 && c3 ≤ 0xBF then
          ((((b - 0xF0) * 0x40 + (c1 - 0x80)) * 0x40 + (c2 - 0x80)) * 0x40 + (c3 - 0x80), 4)
        else (b, 1)
      | _ => (b, 1)
    else (b, 1)

/-- Modelled from the spec: `xmlCopyCharMultiByte` (parserInternals.c, not among
the sources): UTF-8 encoding of a code point. -/
def utf8Encode (v : Nat) : Str :=
  if v < 0x80 then [v]
  else if v < 0x800 then [0xC0 + v / 0x40, 0x80 + v % 0x40]
  else if v < 0x10000 then
    [0xE0 + v / 0x1000, 0x80 + v / 0x40 % 0x40, 0x80 + v % 0x40]
  else
    [0xF0 + v / 0x40000, 0x80 + v / 0x1000 % 0x40, 0x80 + v / 0x40 % 0x40,
     0x80 + v % 0x40]

/-- `COPY_BUF(l, b, i, v)` (parser.c:1690): append `v` as a raw byte when the
source length `l` is one, else UTF-8 encoded. -/
def copyBuf (l : Nat) (buf : Str) (v : Nat) : Str :=
  if l == 1 then buf ++ [v % 256] else buf ++ utf8Encode v

/-- `SKIP_BLANKS`/`xmlSkipBlankChars` (parser.c:1701) on the single buffered
input frame: drop the leading blank bytes. -/
def skipBlanks (c : Ctxt) : Ctxt :=
  let n := (c.input.takeWhile isBlankCh).length
  c.advance n

/-- The big-name continuation of `xmlParseStringName` (parser.c:3090-3121),
entered when the stack buffer would overflow: tracks the allocation capacity
`mx`, because the length ceiling is tested only when the buffer must grow. -/
def stringNameBigLoop (fuel : Nat) (c : Ctxt) (cur : Str) (buf : Str) (mx : Nat) :
    Option Str × Str × Ctxt :=
  if fuel = 0 then (none, cur, { c with fuelOut := true })
  else
    let (ch, l) := curSchar cur
    if xmlIsNameChar c ch then
      if buf.length + 10 > mx then
        if buf.length > XML_MAX_NAME_LENGTH && !c.optHuge then
          (none, cur, xmlFatalErr c .nameTooLong)
        else
          stringNameBigLoop (fuel - 1) c (cur.drop l) (copyBuf l buf ch) (mx * 2)
      else
        stringNameBigLoop (fuel - 1) c (cur.drop l) (copyBuf l buf ch) mx
    else (some buf, cur, c)

/-- The first scanning loop of `xmlParseStringName` (parser.c:3081-3122); the
`Bool` of a successful result records whether the big-buffer path (which skips
the final length check) produced it. -/
def stringNameSmallLoop (fuel : Nat) (c : Ctxt) (cur : Str) (buf : Str) :
    Option (Str × Bool) × Str × Ctxt :=
  if fuel = 0 then (none, cur, { c with fuelOut := true })
  else
    let (ch, l) := curSchar cur
    if xmlIsNameChar c ch then
      let buf' := copyBuf l buf ch
      let cur' := cur.drop l
      if buf'.length ≥ XML_MAX_NAMELEN then
        match stringNameBigLoop (fuel - 1) c cur' buf' (buf'.length * 2) with
        | (some b, s', c') => (some (b, true), s', c')
        | (none, s', c') => (none, s', c')
      else
        stringNameSmallLoop (fuel - 1) c cur' buf'
    else (some (buf, false), cur, c)

/-- `xmlParseStringName` (parser.c:3065): parse a name out of a string; returns
the name, the rest of the string (unchanged on failure, as the original only
writes `*str` on success), and the context. -/
def xmlParseStringName (fuel : Nat) (c : Ctxt) (s : Str) : Option Str × Str × Ctxt :=
  let (ch, l) := curSchar s
  if !xmlIsNameStartChar c ch then (none, s, c)
  else
    match stringNameSmallLoop (fuel - 1) c (s.drop l) (copyBuf l [] ch) with
    | (some (buf, fromBig), s', c') =>
      if fromBig then (some buf, s', c')
      else if buf.length > XML_MAX_NAME_LENGTH && !c'.optHuge then
        (none, s, xmlFatalErr c' .nameTooLong)
      else (some buf, s', c')
    | (none, _, c') => (none, s, c')

/-- The hexadecimal accumulation loop of `xmlParseStringCharRef`
(parser.c:1935-1952): 32-bit unsigned accumulation with the out-of-range
latch.  Returns the value, the latch, the rest, and the context. -/
def stringCharRefHexLoop (fuel : Nat) (c : Ctxt) (s : Str) (val orng : Nat) :
    Nat × Nat × Str × Ctxt :=
  if fuel = 0 then (val, orng, s, { c with fuelOut := true })
  else
    let cur := s.headD 0
    if cur == 0x3B then (val, orng, s, c)
    else
      let d : Option Nat :=
        if 0x30 ≤ cur && cur ≤ 0x39 then some (cur - 0x30)
        else if 0x61 ≤ cur && cur ≤ 0x66 then some (cur - 0x61 + 10)
        else if 0x41 ≤ cur && cur ≤ 0x46 then some (cur - 0x41 + 10)
        else none
      match d with
      | none => (0, orng, s, xmlFatalErr c .invalidHexCharRef)
      | some d =>
        let val := (val * 16 + d) % 2 ^ 32
        let orng := if val > 0x10FFFF then val else orng
        stringCharRefHexLoop (fuel - 1) c (s.drop 1) val orng

/-- The decimal accumulation loop of `xmlParseStringCharRef`
(parser.c:1959-1972). -/
def stringCharRefDecLoop (fuel : Nat) (c : Ctxt) (s : Str) (val orng : Nat) :
    Nat × Nat × Str × Ctxt :=
  if fuel = 0 then (val, orng, s, { c with fuelOut := true })
  else
    let cur := s.headD 0
    if cur == 0x3B then (val, orng, s, c)
    else
      if 0x30 ≤ cur && cur ≤ 0x39 then
        let val := (val * 10 + (cur - 0x30)) % 2 ^ 32
        let orng := if val > 0x10FFFF then val else orng
        stringCharRefDecLoop (fuel - 1) c (s.drop 1) val orng
      else (0, orng, s, xmlFatalErr c .invalidDecCharRef)

/-- `xmlParseStringCharRef` (parser.c:1922): parse a character reference out of
a string; returns the value (0 on error), the rest, and the context. -/
def xmlParseStringCharRef (fuel : Nat) (c : Ctxt) (s : Str) : Nat × Str × Ctxt :=
  let finish (val orng : Nat) (s : Str) (c : Ctxt) : Nat × Str × Ctxt :=
    let (s, c') :=
      (if s.headD 0 == 0x3B then s.drop 1 else s, c)
    if isChar val && orng == 0 then (val, s, c')
    else (0, s, xmlFatalErr c' .invalidChar)
  if s.headD 0 == 0x26 && s.getD 1 0 == 0x23 && s.getD 2 0 == 0x78 then
    let (val, orng, s', c') := stringCharRefHexLoop (fuel - 1) c (s.drop 3) 0 0
    finish val orng s' c'
  else if s.headD 0 == 0x26 && s.getD 1 0 == 0x23 then
    let (val, orng, s', c') := stringCharRefDecLoop (fuel - 1) c (s.drop 2) 0 0
    finish val orng s' c'
  else (0, s, xmlFatalErr c .invalidCharRef)

/-- Extend an `EntRef` table write to both entity tables. -/
def setCheckedRef (c : Ctxt) (er : EntRef) (v : Nat) : Ctxt :=
  match er with
  | .pre _ => c
  | .tbl n => setChecked c n v
  | .ptbl n =>
    { c with paramEntities :=
        c.paramEntities.map (fun e => if e.name == n then { e with checked := v } else e) }

/-- `XML_SUBSTITUTE_REF`. -/
def XML_SUBSTITUTE_REF : Nat := 1

/-- `XML_SUBSTITUTE_PEREF`. -/
def XML_SUBSTITUTE_PEREF : Nat := 2

mutual

/-- `xmlParserEntityCheck` (parser.c:84): the amplification guard.  Returns
`0` (allow) or `1` (deny), and the updated context.  The first dereference of
an unchecked entity eagerly decodes it once to compute and cache its `checked`
cost (parser.c:95-106). -/
def xmlParserEntityCheck (fuel : Nat) (c : Ctxt) (size : Nat) (ent : Option EntRef)
    (replacement : Nat) : Nat × Ctxt :=
  if fuel = 0 then (1, { c with fuelOut := true })
  else
    if c.optHuge then (0, c)
    else if c.lastError == XmlErr.entityLoop then (1, c)
    else
      let c :=
        match ent with
        | some er =>
          match er.deref c with
          | some e =>
            if e.etype != EntityType.internalPredefined && e.content.isSome &&
                e.checked == 0 then
              let oldnb := c.nbentities
              let c := setCheckedRef c er 1
              let ct := e.content.getD []
              let (rep, c) :=
                xmlStringLenDecodeEntities (fuel - 1) c ct ct.length XML_SUBSTITUTE_REF 0 0 0
              let chk := (c.nbentities - oldnb + 1) * 2
              let chk :=
                match rep with
                | some r => if r.contains 0x3C then chk ||| 1 else chk
                | none => chk
              setCheckedRef c er chk
            else c
          | none => c
        | none => c
      if replacement != 0 then
        if replacement < XML_MAX_TEXT_LENGTH then (0, c)
        else
          let consumed := c.consumedTotal + c.sizeentities
          if replacement < XML_PARSER_NON_LINEAR * consumed then (0, c)
          else (1, xmlFatalErr c .entityLoop)
      else if size != 0 then
        if size < XML_PARSER_BIG_ENTITY then (0, c)
        else
          let consumed := c.consumedTotal + c.sizeentities
          if size < XML_PARSER_NON_LINEAR * consumed &&
              c.nbentities * 3 < XML_PARSER_NON_LINEAR * consumed then (0, c)
          else (1, xmlFatalErr c .entityLoop)
      else
        match ent with
        | some er =>
          let sz := (match er.deref c with | some e => e.checked | none => 0) / 2
          let consumed := c.consumedTotal + c.sizeentities
          if sz * 3 < consumed * XML_PARSER_NON_LINEAR then (0, c)
          else (1, xmlFatalErr c .entityLoop)
        | none =>
          if !(c.lastError == XmlErr.undeclaredEntity ||
               c.lastError == XmlErr.warUndeclaredEntity) || c.nbentities ≤ 10000 then
            (0, c)
          else (1, xmlFatalErr c .entityLoop)
termination_by fuel
decreasing_by all_goals omega

/-- `xmlParseStringEntityRef` (parser.c:6800): parse `&Name;` out of a string,
resolve it (predefined entities first unless `XML_PARSE_OLDSAX`, then the
document entity table standing for `sax->getEntity`), and apply the
undeclared/unparsed/external/parameter checks.  Returns the reference, the rest
of the string, and the context. -/
def xmlParseStringEntityRef (fuel : Nat) (c : Ctxt) (s : Str) :
    Option EntRef × Str × Ctxt :=
  if fuel = 0 then (none, s, { c with fuelOut := true })
  else
    if s.headD 0 != 0x26 then (none, s, c)
    else
      let ptr := s.drop 1
      match xmlParseStringName (fuel - 1) c ptr with
      | (none, _, c') => (none, ptr, xmlFatalErrMsg c' .nameRequired)
      | (some name, ptr', c') =>
        if ptr'.headD 0 != 0x3B then
          (none, ptr', xmlFatalErr c' .entityRefSemicolMissing)
        else
          let ptr2 := ptr'.drop 1
          let predef := if !c'.optOldSax then xmlGetPredefinedEntity name else none
          match predef with
          | some e => (some (.pre e), ptr2, c')
          | none =>
            let c1 := { c' with nbentities := c'.nbentities + 1 }
            let entPair : Option (EntRef × Entity) :=
              match lookupEntity c1 name with
              | some e => some (.tbl name, e)
              | none =>
                if c1.optOldSax then
                  (xmlGetPredefinedEntity name).map (fun e => (.pre e, e))
                else none
            match entPair with
            | none =>
              let c2 :=
                if c1.standalone == 1 || (!c1.hasExternalSubset && !c1.hasPErefs) then
                  xmlFatalErrMsg c1 .undeclaredEntity
                else xmlErrMsgStr c1 .warUndeclaredEntity
              let (_, c3) := xmlParserEntityCheck (fuel - 1) c2 0 none 0
              (none, ptr2, c3)
            | some (er, e) =>
              if e.etype == EntityType.externalUnparsed then
                (some er, ptr2, xmlFatalErrMsg c1 .unparsedEntity)
              else if c1.instate == InState.attributeValue &&
                  e.etype == EntityType.externalParsed then
                (some er, ptr2, xmlFatalErrMsg c1 .entityIsExternal)
              else if c1.instate == InState.attributeValue && e.content.isSome &&
                  e.etype != EntityType.internalPredefined &&
                  (e.content.getD []).contains 0x3C then
                (some er, ptr2, xmlFatalErrMsg c1 .ltInAttribute)
              else if e.etype == EntityType.internalParameter ||
                  e.etype == EntityType.externalParameter then
                (some er, ptr2, xmlFatalErrMsg c1 .entityIsParameter)
              else (some er, ptr2, c1)
termination_by fuel
decreasing_by all_goals omega

/-- `xmlParseStringPEReference` (parser.c:7143): parse `%Name;` out of a
string and resolve it in the parameter-entity table. -/
def xmlParseStringPEReference (fuel : Nat) (c : Ctxt) (s : Str) :
    Option EntRef × Str × Ctxt :=
  if fuel = 0 then (none, s, { c with fuelOut := true })
  else
    if s.headD 0 != 0x25 then (none, s, c)
    else
      let ptr := s.drop 1
      match xmlParseStringName (fuel - 1) c ptr with
      | (none, _, c') => (none, ptr, xmlFatalErrMsg c' .nameRequired)
      | (some name, ptr', c') =>
        if ptr'.headD 0 != 0x3B then
          (none, ptr', xmlFatalErr c' .entityRefSemicolMissing)
        else
          let ptr2 := ptr'.drop 1
          let c1 := { c' with nbentities := c'.nbentities + 1 }
          match lookupPEntity c1 name with
          | none =>
            let c2 :=
              if c1.standalone == 1 || (!c1.hasExternalSubset && !c1.hasPErefs) then
                xmlFatalErrMsg c1 .undeclaredEntity
              else
                let cw := xmlWarningMsg c1 .warUndeclaredEntity
                { cw with valid := false }
            let (_, c3) := xmlParserEntityCheck (fuel - 1) c2 0 none 0
            (none, ptr2, { c3 with hasPErefs := true })
          | some e =>
            let c2 :=
              if e.etype != EntityType.internalParameter &&
                  e.etype != EntityType.externalParameter then
                xmlWarningMsg c1 .warUndeclaredEntity
              else c1
            (some (.ptbl name), ptr2, { c2 with hasPErefs := true })
termination_by fuel
decreasing_by all_goals omega

/-- `xmlStringLenDecodeEntities` (parser.c:2268): the recursion-depth guard
(parser.c:2282-2285) followed by the substitution loop. -/
def xmlStringLenDecodeEntities (fuel : Nat) (c : Ctxt) (str : Str) (len : Nat)
    (what e1 e2 e3 : Nat) : Option Str × Ctxt :=
  if fuel = 0 then (none, { c with fuelOut := true })
  else
    if (c.depth > 40 && !c.optHuge) || c.depth > 1024 then
      (none, xmlFatalErr c .entityLoop)
    else
      decodeLoop (fuel - 1) c (str.take len) [] XML_PARSER_BIG_BUFFER_SIZE what e1 e2 e3
termination_by fuel
decreasing_by all_goals omega

/-- The substitution loop of `xmlStringLenDecodeEntities` (parser.c:2297-2405):
`buf` is the output buffer, `bufSize` its tracked capacity (`growBuffer`
doubles it plus the requested amount). -/
def decodeLoop (fuel : Nat) (c : Ctxt) (s : Str) (buf : Str) (bufSize : Nat)
    (what e1 e2 e3 : Nat) : Option Str × Ctxt :=
  if fuel = 0 then (none, { c with fuelOut := true })
  else
    let (ch, l) := if s.isEmpty then (0, 1) else curSchar s
    if ch == 0 || ch == e1 || ch == e2 || ch == e3 then (some buf, c)
    else if ch == 0x26 && s.getD 1 0 == 0x23 then
      let (val, s', c') := xmlParseStringCharRef (fuel - 1) c s
      let buf' := if val != 0 then copyBuf 0 buf val else buf
      let bufSize' :=
        if buf'.length + XML_PARSER_BUFFER_SIZE > bufSize then
          bufSize * 2 + XML_PARSER_BUFFER_SIZE
        else bufSize
      decodeLoop (fuel - 1) c' s' buf' bufSize' what e1 e2 e3
    else if ch == 0x26 && what &&& XML_SUBSTITUTE_REF != 0 then
      let (ent, s', c') := xmlParseStringEntityRef (fuel - 1) c s
      if c'.lastError == XmlErr.entityLoop || c'.lastError == XmlErr.internalError then
        (none, c')
      else
        let (_, c2) := xmlParserEntityCheck (fuel - 1) c' 0 ent 0
        let c3 :=
          match ent with
          | some er =>
            { c2 with nbentities :=
                c2.nbentities +
                  (match er.deref c2 with | some e => e.checked | none => 0) / 2 }
          | none => c2
        match ent.bind (fun er => (er.deref c3).map (fun e => (er, e))) with
        | some (er, e) =>
          if e.etype == EntityType.internalPredefined then
            match e.content with
            | some content =>
              let buf' := copyBuf 0 buf (content.headD 0)
              let bufSize' :=
                if buf'.length + XML_PARSER_BUFFER_SIZE > bufSize then
                  bufSize * 2 + XML_PARSER_BUFFER_SIZE
                else bufSize
              decodeLoop (fuel - 1) c3 s' buf' bufSize' what e1 e2 e3
            | none =>
              decodeLoop (fuel - 1) (xmlFatalErrMsg c3 .internalError) s' buf bufSize
                what e1 e2 e3
          else
            match e.content with
            | some content =>
              let c4 := { c3 with depth := c3.depth + 1 }
              let (rep, c5) :=
                xmlStringLenDecodeEntities (fuel - 1) c4 content content.length what 0 0 0
              let c6 := { c5 with depth := c5.depth - 1 }
              match rep with
              | some r =>
                match appendRep (fuel - 1) c6 er r buf bufSize with
                | (some (buf', bufSize'), c7) =>
                  decodeLoop (fuel - 1) c7 s' buf' bufSize' what e1 e2 e3
                | (none, c7) => (none, c7)
              | none => decodeLoop (fuel - 1) c6 s' buf bufSize what e1 e2 e3
            | none =>
              let buf1 := buf ++ [0x26]
              let i := e.name.length
              let bufSize' :=
                if buf1.length + i + XML_PARSER_BUFFER_SIZE > bufSize then
                  bufSize * 2 + (i + XML_PARSER_BUFFER_SIZE)
                else bufSize
              decodeLoop (fuel - 1) c3 s' (buf1 ++ e.name ++ [0x3B]) bufSize' what e1 e2 e3
        | none => decodeLoop (fuel - 1) c3 s' buf bufSize what e1 e2 e3
    else if ch == 0x25 && what &&& XML_SUBSTITUTE_PEREF != 0 then
      let (ent, s', c') := xmlParseStringPEReference (fuel - 1) c s
      if c'.lastError == XmlErr.entityLoop then (none, c')
      else
        let (_, c2) := xmlParserEntityCheck (fuel - 1) c' 0 ent 0
        let c3 :=
          match ent with
          | some er =>
            { c2 with nbentities :=
                c2.nbentities +
                  (match er.deref c2 with | some e => e.checked | none => 0) / 2 }
          | none => c2
        match ent.bind (fun er => (er.deref c3).map (fun e => (er, e))) with
        | some (er, e) =>
          let c4 := { c3 with depth := c3.depth + 1 }
          let (rep, c5) :=
            match e.content with
            | some content =>
              xmlStringLenDecodeEntities (fuel - 1) c4 content content.length what 0 0 0
            | none => (none, c4)
          let c6 := { c5 with depth := c5.depth - 1 }
          match rep with
          | some r =>
            match appendRep (fuel - 1) c6 er r buf bufSize with
            | (some (buf', bufSize'), c7) =>
              decodeLoop (fuel - 1) c7 s' buf' bufSize' what e1 e2 e3
            | (none, c7) => (none, c7)
          | none => decodeLoop (fuel - 1) c6 s' buf bufSize what e1 e2 e3
        | none => decodeLoop (fuel - 1) c3 s' buf bufSize what e1 e2 e3
    else
      let buf' := copyBuf l buf ch
      let bufSize' :=
        if buf'.length + XML_PARSER_BUFFER_SIZE > bufSize then
          bufSize * 2 + XML_PARSER_BUFFER_SIZE
        else bufSize
      decodeLoop (fuel - 1) c (s.drop l) buf' bufSize' what e1 e2 e3
termination_by fuel
decreasing_by all_goals omega

/-- The expansion-append loop of `xmlStringLenDecodeEntities`
(parser.c:2339-2346 and 2379-2387): append the decoded replacement byte by
byte, re-running the amplification guard whenever the buffer must grow; a
denial aborts the whole decode (`goto int_error`). -/
def appendRep (fuel : Nat) (c : Ctxt) (er : EntRef) (rep : Str) (buf : Str)
    (bufSize : Nat) : Option (Str × Nat) × Ctxt :=
  if fuel = 0 then (none, { c with fuelOut := true })
  else
    match rep with
    | [] => (some (buf, bufSize), c)
    | b :: rest =>
      let buf' := buf ++ [b]
      if buf'.length + XML_PARSER_BUFFER_SIZE > bufSize then
        let (r, c') := xmlParserEntityCheck (fuel - 1) c buf'.length (some er) 0
        if r != 0 then (none, c')
        else appendRep (fuel - 1) c' er rest buf' (bufSize * 2 + XML_PARSER_BUFFER_SIZE)
      else appendRep (fuel - 1) c er rest buf' bufSize
termination_by fuel
decreasing_by all_goals omega

end

/-- `xmlStringDecodeEntities` (parser.c:2432): the whole-string wrapper, a
no-op on a null string. -/
def xmlStringDecodeEntities (fuel : Nat) (c : Ctxt) (str : Option Str)
    (what e1 e2 e3 : Nat) : Option Str × Ctxt :=
  match str with
  | none => (none, c)
  | some s => xmlStringLenDecodeEntities fuel c s s.length what e1 e2 e3

/-- The hexadecimal loop of `xmlParseCharRef` (parser.c:1825-1848): 32-bit
accumulation with the out-of-range latch, and the digit counter that is
incremented both at the top and at the bottom of each iteration and gates the
`a`-`f`/`A`-`F` branches by `count < 20`. -/
def charRefHexLoop (fuel : Nat) (c : Ctxt) (val orng count : Nat) :
    Nat × Nat × Ctxt :=
  if fuel = 0 then (val, orng, { c with fuelOut := true })
  else
    if c.RAW == 0x3B then (val, orng, c)
    else
      let count1 := if count > 20 then 0 else count + 1
      let b := c.RAW
      let d : Option Nat :=
        if 0x30 ≤ b && b ≤ 0x39 then some (b - 0x30)
        else if 0x61 ≤ b && b ≤ 0x66 && count1 < 20 then some (b - 0x61 + 10)
        else if 0x41 ≤ b && b ≤ 0x46 && count1 < 20 then some (b - 0x41 + 10)
        else none
      match d with
      | none => (0, orng, xmlFatalErr c .invalidHexCharRef)
      | some d =>
        let val := (val * 16 + d) % 2 ^ 32
        let orng := if val > 0x10FFFF then val else orng
        charRefHexLoop (fuel - 1) (c.advance 1) val orng (count1 + 1)
termination_by fuel
decreasing_by all_goals omega

/-- The decimal loop of `xmlParseCharRef` (parser.c:1859-1878); the digit
branch is not gated by the counter. -/
def charRefDecLoop (fuel : Nat) (c : Ctxt) (val orng count : Nat) :
    Nat × Nat × Ctxt :=
  if fuel = 0 then (val, orng, { c with fuelOut := true })
  else
    if c.RAW == 0x3B then (val, orng, c)
    else
      let count1 := if count > 20 then 0 else count + 1
      let b := c.RAW
      if 0x30 ≤ b && b ≤ 0x39 then
        let val := (val * 10 + (b - 0x30)) % 2 ^ 32
        let orng := if val > 0x10FFFF then val else orng
        charRefDecLoop (fuel - 1) (c.advance 1) val orng (count1 + 1)
      else (0, orng, xmlFatalErr c .invalidDecCharRef)
termination_by fuel
decreasing_by all_goals omega

/-- `xmlParseCharRef` (parser.c:1813): parse `&#nnn;` / `&#xHHH;` from the
input, validate the resulting code point against the character grammar, and
return it, or `0` with the matching diagnostics. -/
def xmlParseCharRef (fuel : Nat) (c : Ctxt) : Nat × Ctxt :=
  let finish (val orng : Nat) (c : Ctxt) : Nat × Ctxt :=
    if isChar val && orng == 0 then (val, c)
    else (0, xmlFatalErrMsg c .invalidChar)
  if c.RAW == 0x26 && c.NXT 1 == 0x23 && c.NXT 2 == 0x78 then
    let (val, orng, c') := charRefHexLoop fuel (c.advance 3) 0 0 0
    let c' := if c'.RAW == 0x3B then c'.advance 1 else c'
    finish val orng c'
  else if c.RAW == 0x26 && c.NXT 1 == 0x23 then
    let (val, orng, c') := charRefDecLoop fuel (c.advance 2) 0 0 0
    let c' := if c'.RAW == 0x3B then c'.advance 1 else c'
    finish val orng c'
  else
    finish 0 0 (xmlFatalErr c .invalidCharRef)

/-- The ASCII start set of the inline name accelerator (parser.c:2882). -/
def nameAsciiStart (b : Nat) : Bool :=
  (0x61 ≤ b && b ≤ 0x7A) || (0x41 ≤ b && b ≤ 0x5A) || b == 0x5F || b == 0x3A

/-- The ASCII continuation set of the inline name accelerator
(parser.c:2884-2885). -/
def nameAsciiCont (b : Nat) : Bool :=
  (0x61 ≤ b && b ≤ 0x7A) || (0x41 ≤ b && b ≤ 0x5A) || (0x30 ≤ b && b ≤ 0x39) ||
  b == 0x5F || b == 0x2D || b == 0x3A || b == 0x2E

/-- The full-range name-start test of the current rule table
(parser.c:2772-2784). -/
def nameStart11 (ch : Nat) : Bool :=
  IsLetterASCII ch || ch == 0x5F || ch == 0x3A ||
  (0xC0 ≤ ch && ch ≤ 0xD6) || (0xD8 ≤ ch && ch ≤ 0xF6) ||
  (0xF8 ≤ ch && ch ≤ 0x2FF) || (0x370 ≤ ch && ch ≤ 0x37D) ||
  (0x37F ≤ ch && ch ≤ 0x1FFF) || (0x200C ≤ ch && ch ≤ 0x200D) ||
  (0x2070 ≤ ch && ch ≤ 0x218F) || (0x2C00 ≤ ch && ch ≤ 0x2FEF) ||
  (0x3001 ≤ ch && ch ≤ 0xD7FF) || (0xF900 ≤ ch && ch ≤ 0xFDCF) ||
  (0xFDF0 ≤ ch && ch ≤ 0xFFFD) || (0x10000 ≤ ch && ch ≤ 0xEFFFF)

/-- The scanning loop of `xmlParseNameComplex` under the current rule table
(parser.c:2790-2817), accumulating the consumed bytes (`len` is their count);
the periodic `GROW` bookkeeping of the original is the identity here. -/
def nameComplexLoop11 (fuel : Nat) (c : Ctxt) (acc : Str) : Str × Ctxt :=
  if fuel = 0 then (acc, { c with fuelOut := true })
  else
    let (ch, l) := curSchar c.input
    if ch != 0x20 && ch != 0x3E && ch != 0x2F && nameChar11 ch then
      nameComplexLoop11 (fuel - 1) (c.advance l) (acc ++ c.input.take l)
    else (acc, c)
termination_by fuel
decreasing_by all_goals omega

/-- The scanning loop of `xmlParseNameComplex` under the legacy rule table
(parser.c:2827-2845). -/
def nameComplexLoopOld (fuel : Nat) (c : Ctxt) (acc : Str) : Str × Ctxt :=
  if fuel = 0 then (acc, { c with fuelOut := true })
  else
    let (ch, l) := curSchar c.input
    if ch != 0x20 && ch != 0x3E && ch != 0x2F &&
        (IS_LETTER ch || IS_DIGIT ch || ch == 0x2E || ch == 0x2D || ch == 0x5F ||
         ch == 0x3A || IS_COMBINING ch || IS_EXTENDER ch) then
      nameComplexLoopOld (fuel - 1) (c.advance l) (acc ++ c.input.take l)
    else (acc, c)
termination_by fuel
decreasing_by all_goals omega

/-- `xmlParseNameComplex` (parser.c:2751): the full-range fallback of name
parsing.  The CR/LF dictionary re-slicing at parser.c:2851-2852 compensates the
CR/LF folding of `xmlCurrentChar`, which the spec-modelled `curSchar` does not
perform, so the parsed name is exactly the accumulated bytes. -/
def xmlParseNameComplex (fuel : Nat) (c : Ctxt) : Option Str × Ctxt :=
  let (ch, l) := curSchar c.input
  let finish (acc : Str) (c' : Ctxt) : Option Str × Ctxt :=
    if acc.length > XML_MAX_NAME_LENGTH && !c'.optHuge then
      (none, xmlFatalErr c' .nameTooLong)
    else (some acc, c')
  if !c.optOld10 then
    if ch == 0x20 || ch == 0x3E || ch == 0x2F || !nameStart11 ch then (none, c)
    else
      let (acc, c') := nameComplexLoop11 fuel (c.advance l) (c.input.take l)
      finish acc c'
  else
    if ch == 0x20 || ch == 0x3E || ch == 0x2F ||
        !(IS_LETTER ch || ch == 0x5F || ch == 0x3A) then (none, c)
    else
      let (acc, c') := nameComplexLoopOld fuel (c.advance l) (c.input.take l)
      finish acc c'

/-- `xmlParseName` (parser.c:2871): the inline ASCII accelerator, falling back
to `xmlParseNameComplex` when the first byte or the byte ending the ASCII run
is outside the fast range. -/
def xmlParseName (fuel : Nat) (c : Ctxt) : Option Str × Ctxt :=
  if nameAsciiStart (c.NXT 0) then
    let count := 1 + ((c.input.drop 1).takeWhile nameAsciiCont).length
    let term := c.NXT count
    if 0 < term && term < 0x80 then
      if count > XML_MAX_NAME_LENGTH && !c.optHuge then
        (none, xmlFatalErr c .nameTooLong)
      else (some (c.input.take count), c.advance count)
    else xmlParseNameComplex fuel c
  else xmlParseNameComplex fuel c

/-- The scanning loop of `xmlParseNCNameComplex` (parser.c:2926-2953): the
length ceiling is also tested each time the chunk counter overflows. -/
def ncnameComplexLoop (fuel : Nat) (c : Ctxt) (acc : Str) (count : Nat) :
    Option Str × Ctxt :=
  if fuel = 0 then (none, { c with fuelOut := true })
  else
    let (ch, l) := curSchar c.input
    if ch != 0x20 && ch != 0x3E && ch != 0x2F && xmlIsNameChar c ch && ch != 0x3A then
      if count > XML_PARSER_CHUNK_SIZE then
        if acc.length > XML_MAX_NAME_LENGTH && !c.optHuge then
          (none, xmlFatalErr c .nameTooLong)
        else ncnameComplexLoop (fuel - 1) (c.advance l) (acc ++ c.input.take l) 1
      else ncnameComplexLoop (fuel - 1) (c.advance l) (acc ++ c.input.take l) (count + 1)
    else (some acc, c)
termination_by fuel
decreasing_by all_goals omega

/-- `xmlParseNCNameComplex` (parser.c:2907). -/
def xmlParseNCNameComplex (fuel : Nat) (c : Ctxt) : Option Str × Ctxt :=
  let (ch, _) := curSchar c.input
  if ch == 0x20 || ch == 0x3E || ch == 0x2F || !xmlIsNameStartChar c ch ||
      ch == 0x3A then
    (none, c)
  else
    match ncnameComplexLoop fuel c [] 0 with
    | (none, c') => (none, c')
    | (some acc, c') =>
      if acc.length > XML_MAX_NAME_LENGTH && !c'.optHuge then
        (none, xmlFatalErr c' .nameTooLong)
      else (some acc, c')

/-- The ASCII start set of the NCName accelerator (parser.c:2988). -/
def ncnameAsciiStart (b : Nat) : Bool :=
  (0x61 ≤ b && b ≤ 0x7A) || (0x41 ≤ b && b ≤ 0x5A) || b == 0x5F

/-- The ASCII continuation set of the NCName accelerator (parser.c:2990). -/
def ncnameAsciiCont (b : Nat) : Bool :=
  (0x61 ≤ b && b ≤ 0x7A) || (0x41 ≤ b && b ≤ 0x5A) || (0x30 ≤ b && b ≤ 0x39) ||
  b == 0x5F || b == 0x2D || b == 0x2E

/-- `xmlParseNCName` (parser.c:2978): the ASCII accelerator for colon-free
names, falling back to `xmlParseNCNameComplex`. -/
def xmlParseNCName (fuel : Nat) (c : Ctxt) : Option Str × Ctxt :=
  if ncnameAsciiStart (c.NXT 0) then
    let count := 1 + ((c.input.drop 1).takeWhile ncnameAsciiCont).length
    let term := c.NXT count
    if 0 < term && term < 0x80 then
      if count > XML_MAX_NAME_LENGTH && !c.optHuge then
        (none, xmlFatalErr c .nameTooLong)
      else (some (c.input.take count), c.advance count)
    else xmlParseNCNameComplex fuel c
  else xmlParseNCNameComplex fuel c

/-- The big-token continuation of `xmlParseNmtoken` (parser.c:3179-3216),
tracking the allocation capacity `mx` whose growth points carry the length
ceiling test (against `mx` itself). -/
def nmtokenBigLoop (fuel : Nat) (c : Ctxt) (acc : Str) (mx : Nat) :
    Option Str × Ctxt :=
  if fuel = 0 then (none, { c with fuelOut := true })
  else
    let (ch, l) := curSchar c.input
    if xmlIsNameChar c ch then
      if acc.length + 10 > mx then
        if mx > XML_MAX_NAME_LENGTH && !c.optHuge then
          (none, xmlFatalErr c .nameTooLong)
        else nmtokenBigLoop (fuel - 1) (c.advance l) (copyBuf l acc ch) (mx * 2)
      else nmtokenBigLoop (fuel - 1) (c.advance l) (copyBuf l acc ch) mx
    else (some acc, c)
termination_by fuel
decreasing_by all_goals omega

/-- The first scanning loop of `xmlParseNmtoken` (parser.c:3159-3218); the
`Bool` of a successful result records whether the big-token path (which skips
the final checks) produced it. -/
def nmtokenSmallLoop (fuel : Nat) (c : Ctxt) (acc : Str) :
    Option (Str × Bool) × Ctxt :=
  if fuel = 0 then (none, { c with fuelOut := true })
  else
    let (ch, l) := curSchar c.input
    if xmlIsNameChar c ch then
      let acc' := copyBuf l acc ch
      let c' := c.advance l
      if acc'.length ≥ XML_MAX_NAMELEN then
        match nmtokenBigLoop (fuel - 1) c' acc' (acc'.length * 2) with
        | (some b, c2) => (some (b, true), c2)
        | (none, c2) => (none, c2)
      else nmtokenSmallLoop (fuel - 1) c' acc'
    else (some (acc, false), c)
termination_by fuel
decreasing_by all_goals omega

/-- `xmlParseNmtoken` (parser.c:3146). -/
def xmlParseNmtoken (fuel : Nat) (c : Ctxt) : Option Str × Ctxt :=
  match nmtokenSmallLoop fuel c [] with
  | (none, c') => (none, c')
  | (some (acc, fromBig), c') =>
    if fromBig then (some acc, c')
    else if acc.length == 0 then (none, c')
    else if acc.length > XML_MAX_NAME_LENGTH && !c'.optHuge then
      (none, xmlFatalErr c' .nameTooLong)
    else (some acc, c')

/-- `xmlBuildQName` (from tree.c, reconstructing `prefix:local`); used by the
degraded QName recovery paths. -/
def xmlBuildQName (lcl pfx : Str) : Str := pfx ++ [0x3A] ++ lcl

/-- `xmlParseQName` (parser.c:7675): split a qualified name on the first colon,
with the diagnosed, non-fatal recovery paths for a malformed local part. -/
def xmlParseQName (fuel : Nat) (c : Ctxt) : Option (Str × Option Str) × Ctxt :=
  match xmlParseNCName fuel c with
  | (none, c1) =>
    if c1.RAW == 0x3A then
      match xmlParseName fuel c1 with
      | (some l, c2) => (some (l, none), xmlNsErr c2 .nsQName)
      | (none, c2) => (none, c2)
    else (none, c1)
  | (some l, c1) =>
    if c1.RAW == 0x3A then
      let c2 := c1.advance 1
      let p := l
      match xmlParseNCName fuel c2 with
      | (none, c3) =>
        let c4 := xmlNsErr c3 .nsQName
        match xmlParseNmtoken fuel c4 with
        | (none, c5) => (some (xmlBuildQName [] p, none), c5)
        | (some tok, c5) => (some (xmlBuildQName tok p, none), c5)
      | (some l2, c3) =>
        if c3.RAW == 0x3A then
          let c4 := xmlNsErr c3 .nsQName
          let c5 := c4.advance 1
          match xmlParseName fuel c5 with
          | (some tmp, c6) => (some (xmlBuildQName tmp l2, some p), c6)
          | (none, c6) => (some (xmlBuildQName [] l2, some p), c6)
        else (some (l2, some p), c3)
    else (some (l, none), c1)

/-- Modelled from the spec: `xmlErrMemory` (parserInternals.c, not among the
sources): a fatal out-of-memory diagnostic; reachable here only through the
over-long-value bail-out of `xmlParseAttValueComplex`. -/
def xmlErrMemory (c : Ctxt) : Ctxt := xmlFatalErr c .noMemory

/-- `xmlParseEntityRef` (parser.c:6640): parse `&Name;` from the input, resolve
it (predefined entities first unless `XML_PARSE_OLDSAX`, then the document
entity table standing for `sax->getEntity`/`xmlSAX2GetEntity`), and apply the
undeclared-entity mode split and the unparsed/external/parameter checks. -/
def xmlParseEntityRef (fuel : Nat) (c : Ctxt) : Option EntRef × Ctxt :=
  if c.RAW != 0x26 then (none, c)
  else
    let c1 := c.advance 1
    match xmlParseName fuel c1 with
    | (none, c2) => (none, xmlFatalErrMsg c2 .nameRequired)
    | (some name, c2) =>
      if c2.RAW != 0x3B then (none, xmlFatalErr c2 .entityRefSemicolMissing)
      else
        let c3 := c2.advance 1
        let predef := if !c3.optOldSax then xmlGetPredefinedEntity name else none
        match predef with
        | some e => (some (.pre e), c3)
        | none =>
          let c4 := { c3 with nbentities := c3.nbentities + 1 }
          let entPair : Option (EntRef × Entity) :=
            match lookupEntity c4 name with
            | some e => some (.tbl name, e)
            | none =>
              if c4.wellFormed && c4.optOldSax then
                (xmlGetPredefinedEntity name).map (fun e => (.pre e, e))
              else none
          match entPair with
          | none =>
            let c5 :=
              if c4.standalone == 1 || (!c4.hasExternalSubset && !c4.hasPErefs) then
                xmlFatalErrMsg c4 .undeclaredEntity
              else
                let cw := xmlErrMsgStr c4 .warUndeclaredEntity
                if cw.inSubset == 0 then
                  { cw with events := cw.events ++ [.reference name] }
                else cw
            let (_, c6) := xmlParserEntityCheck fuel c5 0 none 0
            (none, { c6 with valid := false })
          | some (er, e) =>
            if e.etype == EntityType.externalUnparsed then
              (some er, xmlFatalErrMsg c4 .unparsedEntity)
            else if c4.instate == InState.attributeValue &&
                e.etype == EntityType.externalParsed then
              (some er, xmlFatalErrMsg c4 .entityIsExternal)
            else if c4.instate == InState.attributeValue &&
                e.etype != EntityType.internalPredefined then
              if (e.checked &&& 1 == 1 || e.checked == 0) && e.content.isSome &&
                  (e.content.getD []).contains 0x3C then
                (some er, xmlFatalErrMsg c4 .ltInAttribute)
              else (some er, c4)
            else if e.etype == EntityType.internalParameter ||
                e.etype == EntityType.externalParameter then
              (some er, xmlFatalErrMsg c4 .entityIsParameter)
            else (some er, c4)

/-- The substitution loop of `xmlParseAttValueComplex` (parser.c:3407-3551):
`inSpace` is the whitespace-run state of the normalization logic.  The buffer
growth of the original is pure allocation here (no guard consults the
capacity), so capacities are not tracked. -/
def attValueComplexLoop (fuel : Nat) (c : Ctxt) (buf : Str) (inSpace : Bool)
    (limit : Nat) (normalize : Bool) : Option Str × Bool × Ctxt :=
  if fuel = 0 then (none, inSpace, { c with fuelOut := true })
  else
    let (ch, l) := curSchar c.input
    if !(c.NXT 0 != limit && isChar ch && ch != 0x3C &&
         c.instate != InState.eof) then
      (some buf, inSpace, c)
    else if buf.length > XML_MAX_TEXT_LENGTH && !c.optHuge then
      (none, inSpace, xmlErrMemory (xmlFatalErrMsg c .attributeNotFinished))
    else if ch == 0 then (some buf, inSpace, c)
    else if ch == 0x26 then
      if c.NXT 1 == 0x23 then
        let (val, c') := xmlParseCharRef (fuel - 1) c
        let buf' :=
          if val == 0x26 then
            if c'.replaceEntities then buf ++ [0x26] else buf ++ bytes "&#38;"
          else if val != 0 then buf ++ utf8Encode val
          else buf
        attValueComplexLoop (fuel - 1) c' buf' false limit normalize
      else
        let (ent, c') := xmlParseEntityRef (fuel - 1) c
        let c2 :=
          { c' with nbentities :=
              c'.nbentities + 1 +
                (match ent.bind (fun er => er.deref c') with
                 | some e => e.owner
                 | none => 0) }
        match ent.bind (fun er => (er.deref c2).map (fun e => (er, e))) with
        | some (er, e) =>
          if e.etype == EntityType.internalPredefined then
            let b := (e.content.getD []).headD 0
            let buf' :=
              if !c2.replaceEntities && b == 0x26 then buf ++ bytes "&#38;"
              else buf ++ [b]
            attValueComplexLoop (fuel - 1) c2 buf' false limit normalize
          else if c2.replaceEntities then
            let (rep, c3) :=
              xmlStringDecodeEntities (fuel - 1) c2 e.content XML_SUBSTITUTE_REF 0 0 0
            let buf' :=
              buf ++ (rep.getD []).map (fun b =>
                if b == 0xD || b == 0xA || b == 0x9 then 0x20 else b)
            attValueComplexLoop (fuel - 1) c3 buf' false limit normalize
          else
            let c4 :=
              if e.etype != EntityType.internalPredefined && e.content.isSome &&
                  e.checked == 0 then
                let oldnb := c2.nbentities
                let (rep, cm) :=
                  xmlStringDecodeEntities (fuel - 1) c2 e.content XML_SUBSTITUTE_REF 0 0 0
                let chk := (cm.nbentities - oldnb + 1) * 2
                let chk :=
                  match rep with
                  | some r => if r.contains 0x3C then chk ||| 1 else chk
                  | none => chk
                setCheckedRef cm er chk
              else c2
            let buf' := buf ++ [0x26] ++ e.name ++ [0x3B]
            attValueComplexLoop (fuel - 1) c4 buf' false limit normalize
        | none => attValueComplexLoop (fuel - 1) c2 buf false limit normalize
    else if ch == 0x20 || ch == 0xD || ch == 0xA || ch == 0x9 then
      let buf' :=
        if buf.length != 0 || !normalize then
          if !normalize || !inSpace then copyBuf l buf 0x20 else buf
        else buf
      let inSpace' :=
        if buf.length != 0 || !normalize then true else inSpace
      attValueComplexLoop (fuel - 1) (c.advance l) buf' inSpace' limit normalize
    else
      attValueComplexLoop (fuel - 1) (c.advance l) (copyBuf l buf ch) false limit normalize
termination_by fuel
decreasing_by all_goals omega

/-- `xmlParseAttValueComplex` (parser.c:3372): the fallback attribute-value
parser performing reference substitution and, when `normalize` is set, the
in-scan non-CDATA whitespace normalization. -/
def xmlParseAttValueComplex (fuel : Nat) (c : Ctxt) (normalize : Bool) :
    Option Str × Ctxt :=
  let b0 := c.NXT 0
  if b0 != 0x22 && b0 != 0x27 then (none, xmlFatalErr c .attributeNotStarted)
  else
    let limit := b0
    let c0 := { c with instate := InState.attributeValue }.advance 1
    match attValueComplexLoop fuel c0 [] false limit normalize with
    | (none, _, c1) => (none, c1)
    | (some buf, inSpace, c1) =>
      if c1.instate == InState.eof then (none, c1)
      else
        let buf :=
          if inSpace && normalize then
            (buf.reverse.dropWhile (fun b => b == 0x20)).reverse
          else buf
        if c1.RAW == 0x3C then (some buf, xmlFatalErr c1 .ltInAttribute)
        else if c1.RAW != limit then
          let (ch, _) := curSchar c1.input
          if ch != 0 && !isChar ch then
            (some buf, xmlFatalErrMsg c1 .invalidChar)
          else (some buf, xmlFatalErrMsg c1 .attributeNotFinished)
        else (some buf, c1.advance 1)

/-- The normalized fast scan of `xmlParseAttValueInternal`
(parser.c:7880-7900): count the bytes the loop consumes; the loop consumes a
space and stops when another space follows it. -/
def attFastScanNorm (limit : Nat) : Str → Nat
  | [] => 0
  | b :: rest =>
    if b != limit && 0x20 ≤ b && b ≤ 0x7F && b != 0x26 && b != 0x3C then
      if b == 0x20 && rest.headD 0 == 0x20 then 1
      else 1 + attFastScanNorm limit rest
    else 0

/-- The plain fast scan of `xmlParseAttValueInternal` (parser.c:7941-7961). -/
def attFastCont (limit b : Nat) : Bool :=
  b != limit && 0x20 ≤ b && b ≤ 0x7F && b != 0x26 && b != 0x3C

/-- `xmlParseAttValueInternal` (parser.c:7815): the aliasing fast path for
pure-ASCII values needing no substitution, falling back to
`xmlParseAttValueComplex` otherwise.  Returns the value and the `alloc` flag.
The length-ceiling tests placed at the original's buffer refills collapse into
the final test here, since the single buffered frame never refills. -/
def xmlParseAttValueInternal (fuel : Nat) (c : Ctxt) (normalize : Bool) :
    Option (Str × Bool) × Ctxt :=
  let b0 := c.RAW
  if b0 != 0x22 && b0 != 0x27 then (none, xmlFatalErr c .attributeNotStarted)
  else
    let limit := b0
    let c0 := { c with instate := InState.attributeValue }
    let rest := c0.input.drop 1
    if normalize then
      let lead := (rest.takeWhile isBlankCh).length
      let s1 := rest.drop lead
      let n1 := attFastScanNorm limit s1
      let value := ((s1.take n1).reverse.dropWhile (fun b => b == 0x20)).reverse
      let n2 := n1 + ((s1.drop n1).takeWhile (fun b => b != limit && isBlankCh b)).length
      if n2 > XML_MAX_TEXT_LENGTH && !c0.optHuge then
        (none, xmlFatalErrMsg c0 .attributeNotFinished)
      else if s1.getD n2 0 != limit then xmlParseAttValueComplexAlloc fuel c0 normalize
      else (some (value, false), c0.advance (1 + lead + n2 + 1))
    else
      let n := (rest.takeWhile (attFastCont limit)).length
      if n > XML_MAX_TEXT_LENGTH && !c0.optHuge then
        (none, xmlFatalErrMsg c0 .attributeNotFinished)
      else if rest.getD n 0 != limit then xmlParseAttValueComplexAlloc fuel c0 normalize
      else (some (rest.take n, false), c0.advance (1 + n + 1))
where
  /-- The `need_complex` tail (parser.c:7984-7986): the fallback result is
  always a fresh allocation. -/
  xmlParseAttValueComplexAlloc (fuel : Nat) (c : Ctxt) (normalize : Bool) :
      Option (Str × Bool) × Ctxt :=
    match xmlParseAttValueComplex fuel c normalize with
    | (some v, c') => (some (v, true), c')
    | (none, c') => (none, c')

/-- Dropping a prefix by predicate does not lengthen a list. -/
theorem dropWhileLenLe (p : Nat → Bool) (l : List Nat) :
    (l.dropWhile p).length ≤ l.length := by
  induction l with
  | nil => simp
  | cons a t ih =>
    by_cases h : p a
    · simp only [List.dropWhile_cons, h, if_true]
      exact Nat.le_succ_of_le ih
    · simp [List.dropWhile_cons, h]

/-- `xmlAttrNormalizeSpace` (parser.c:812): discard leading and trailing
spaces (0x20 only) and collapse internal space runs; returns `none` when
nothing changed (the original signals this with a null return). -/
def xmlAttrNormalizeSpace (s : Str) : Option Str :=
  let out := attrNormAlg (s.dropWhile (fun b => b == 0x20))
  if out == s then none else some out
where
  attrNormAlg : Str → Str
    | [] => []
    | 0x20 :: rest =>
      let rest' := rest.dropWhile (fun b => b == 0x20)
      if rest'.isEmpty then [] else 0x20 :: attrNormAlg rest'
    | b :: rest => b :: attrNormAlg rest
  termination_by s => s.length
  decreasing_by
    all_goals simp only [List.length_cons]
    · exact Nat.lt_succ_of_le (dropWhileLenLe _ _)
    · omega

/-- `xmlAttrNormalizeSpace2` (parser.c:845): the allocation-avoiding front
end; `none` means no conversion was needed. -/
def xmlAttrNormalizeSpace2 (src : Str) : Option Str :=
  if src.length == 0 then none
  else
    let removeHead := (src.takeWhile (fun b => b == 0x20)).length
    let tl := src.drop removeHead
    if attrNorm2NeedsRealloc tl then
      some ((xmlAttrNormalizeSpace tl).getD tl)
    else if removeHead != 0 then some tl
    else none
where
  /-- The detection scan (parser.c:861-871): a space followed by a space or by
  the end of the string. -/
  attrNorm2NeedsRealloc : Str → Bool
    | [] => false
    | 0x20 :: rest => rest.headD 0 == 0x20 || rest.isEmpty || attrNorm2NeedsRealloc rest
    | _ :: rest => attrNorm2NeedsRealloc rest

/-- The `attsSpecial` lookup of `xmlParseAttribute2` (parser.c:8020,
`xmlHashQLookup2`): the DTD-declared attribute type, `0` when undeclared. -/
def lookupSpecial (c : Ctxt) (p1 : Option Str) (e : Str) (p2 : Option Str)
    (n : Str) : Nat :=
  match c.attsSpecial.find? (fun kv => kv.1 == (p1, e, p2, n)) with
  | some kv => kv.2
  | none => 0

/-- The `variant:` tail of `xmlCheckLanguageID` (parser.c:1193-1199): accept
at end of string or before a `-` (extensions and private use are unchecked),
refuse any other byte. -/
def langVariantTail (s : Str) : Bool :=
  if s.headD 0 == 0 then true
  else if s.headD 0 != 0x2D then false
  else true

/-- The `region:` tail of `xmlCheckLanguageID` (parser.c:1180-1192): after a
region only a 5-8 letter variant may follow. -/
def langRegionTail (s : Str) : Bool :=
  if s.headD 0 == 0 then true
  else if s.headD 0 != 0x2D then false
  else
    let s1 := s.drop 1
    let n := (s1.takeWhile IsLetterASCII).length
    if n < 5 ∨ n > 8 then false
    else langVariantTail (s1.drop n)

/-- The `region_m49:` tail of `xmlCheckLanguageID` (parser.c:1200-1205): the
first digit is already consumed by the caller's test; two more digits make a
UN M.49 region code. -/
def langRegionM49 (s : Str) : Bool :=
  if isdec (s.getD 1 0) && isdec (s.getD 2 0) then langRegionTail (s.drop 3)
  else false

/-- The `script:` tail of `xmlCheckLanguageID` (parser.c:1164-1179): region
(alphabetic or M.49) or variant may follow a script. -/
def langScriptTail (s : Str) : Bool :=
  if s.headD 0 == 0 then true
  else if s.headD 0 != 0x2D then false
  else
    let s1 := s.drop 1
    if isdec (s1.headD 0) then langRegionM49 s1
    else
      let n := (s1.takeWhile IsLetterASCII).length
      if 5 ≤ n ∧ n ≤ 8 then langVariantTail (s1.drop n)
      else if n != 2 then false
      else langRegionTail (s1.drop n)

/-- The stage of `xmlCheckLanguageID` after an extlang subtag
(parser.c:1146-1163): script, region or variant. -/
def langAfterExtlang (s : Str) : Bool :=
  if isdec (s.headD 0) then langRegionM49 s
  else
    let n := (s.takeWhile IsLetterASCII).length
    if n == 2 then langRegionTail (s.drop n)
    else if 5 ≤ n ∧ n ≤ 8 then langVariantTail (s.drop n)
    else if n != 4 then false
    else langScriptTail (s.drop n)

/-- The stage of `xmlCheckLanguageID` after the primary language subtag
(parser.c:1131-1145): extlang, script, region or variant. -/
def langAfterLang (s : Str) : Bool :=
  if isdec (s.headD 0) then langRegionM49 s
  else
    let n := (s.takeWhile IsLetterASCII).length
    if n == 4 then langScriptTail (s.drop n)
    else if n == 2 then langRegionTail (s.drop n)
    else if 5 ≤ n ∧ n ≤ 8 then langVariantTail (s.drop n)
    else if n != 3 then false
    else
      let s2 := s.drop n
      if s2.headD 0 == 0 then true
      else if s2.headD 0 != 0x2D then false
      else langAfterExtlang (s2.drop 1)

/-- `xmlCheckLanguageID` (parser.c:1095): validate an `xml:lang` value
against the RFC 5646 langtag shape (without extensions or private use),
still allowing the deprecated IANA `i-`/user `x-` codes.  The original's
null-pointer refusal has no counterpart for a parsed value; end of string
stands for the terminating NUL. -/
def xmlCheckLanguageID (s : Str) : Bool :=
  if (s.headD 0 == 0x69 || s.headD 0 == 0x49 || s.headD 0 == 0x78 ||
      s.headD 0 == 0x58) && s.getD 1 0 == 0x2D then
    ((s.drop 2).dropWhile IsLetterASCII).headD 0 == 0
  else
    let n := (s.takeWhile IsLetterASCII).length
    if n ≥ 4 then
      if n > 8 then false else ((s.drop n).headD 0 == 0)
    else if n < 2 then false
    else
      let s2 := s.drop n
      if s2.headD 0 == 0 then true
      else if s2.headD 0 != 0x2D then false
      else langAfterLang (s2.drop 1)

/-- Write through `ctxt->space` (the top of the `xml:space` stack). -/
def setSpaceTop (c : Ctxt) (v : Int) : Ctxt :=
  if c.space.isEmpty then c
  else { c with space := c.space.dropLast ++ [v] }

/-- `xmlParseAttribute2` (parser.c:8003): parse one `name = "value"` attribute,
normalizing per the DTD-declared type, with the `xml:lang`/`xml:space`
special cases.  Returns the (name, prefix) pair, the (value, alloc) pair, and
the context. -/
def xmlParseAttribute2 (fuel : Nat) (c : Ctxt) (pref : Option Str) (elem : Str) :
    Option (Str × Option Str) × Option (Str × Bool) × Ctxt :=
  match xmlParseQName fuel c with
  | (none, c1) => (none, none, xmlFatalErrMsg c1 .nameRequired)
  | (some (name, apfx), c1) =>
    let normalize := lookupSpecial c1 pref elem apfx name != 0
    let c2 := skipBlanks c1
    if c2.RAW == 0x3D then
      let c3 := skipBlanks (c2.advance 1)
      match xmlParseAttValueInternal fuel c3 normalize with
      | (none, c4) => (some (name, apfx), none, { c4 with instate := InState.content })
      | (some (val, alloc), c4) =>
        let val :=
          if normalize && alloc then (xmlAttrNormalizeSpace2 val).getD val
          else val
        let c5 := { c4 with instate := InState.content }
        let c6 :=
          if apfx == some strXml then
            let c5 :=
              if c5.pedantic && name == bytes "lang" && !xmlCheckLanguageID val then
                xmlWarningMsg c5 .warLangValue
              else c5
            if name == bytes "space" then
              if val == bytes "default" then setSpaceTop c5 0
              else if val == bytes "preserve" then setSpaceTop c5 1
              else xmlWarningMsg c5 .warSpaceValue
            else c5
          else c5
        (some (name, apfx), some (val, alloc), c6)
    else (none, none, xmlFatalErrMsg c2 .attributeWithoutValue)

/-- One accumulated attribute of `xmlParseStartTag2` (five `atts` slots of the
original: name, prefix, namespace URI once resolved, value). -/
structure Attr where
  name : Str
  pfx : Option Str
  uri : Option Str := none
  value : Str
  deriving DecidableEq, Repr

/-- The last `n` elements of a list (the bindings this start tag pushed). -/
def lastN (l : List (Option Str × Str)) (n : Nat) : List (Option Str × Str) :=
  l.drop (l.length - n)

/-- The `attsDefault` lookup of `xmlParseStartTag2` (parser.c:8354,
`xmlHashLookup2` keyed on the element's (localname, prefix)). -/
def lookupDefaults (c : Ctxt) (localname : Str) (pfx : Option Str) :
    Option (List (Str × Option Str × Str × Bool)) :=
  match c.attsDefault.find? (fun kv => kv.1 == (localname, pfx)) with
  | some kv => some kv.2
  | none => none

mutual

/-- The attribute loop of `xmlParseStartTag2` (parser.c:8166-8349): parse one
attribute, partition namespace declarations onto the namespace stack (with the
reserved-URI validations) and ordinary attributes into `atts`.  `nbNs` counts
the bindings pushed by this tag. -/
def startTag2AttLoop (fuel : Nat) (c : Ctxt) (pfx : Option Str) (localname : Str)
    (atts : List Attr) (nbNs : Nat) : List Attr × Nat × Ctxt :=
  if fuel = 0 then (atts, nbNs, { c with fuelOut := true })
  else
    if !(c.RAW != 0x3E && !(c.RAW == 0x2F && c.NXT 1 == 0x3E) && isByteChar c.RAW &&
         c.instate != InState.eof) then
      (atts, nbNs, c)
    else
      let q := c.input
      let (nameRes, valRes, c1) := xmlParseAttribute2 (fuel - 1) c pfx localname
      match nameRes, valRes with
      | some (attname, apfx), some (attvalue, _alloc) =>
        if attname == strXmlns && apfx == none then
          let URL := attvalue
          let c2 :=
            if URL != [] then
              if !c1.uriParseOk URL then xmlNsErr c1 .warNsUri
              else if !c1.uriHasScheme URL then xmlNsWarn c1 .warNsUriRelative
              else c1
            else c1
          if URL != [] && URL == strXmlNs then
            startTag2AttTail (fuel - 1) (xmlNsErr c2 .nsXmlNamespace) pfx localname atts nbNs
          else if URL != [] && URL == strXmlnsNs then
            startTag2AttTail (fuel - 1) (xmlNsErr c2 .nsXmlNamespace) pfx localname atts nbNs
          else if (lastN c2.nsTab nbNs).any (fun b => b.1 == none) then
            startTag2AttTail (fuel - 1) (xmlErrAttributeDup c2) pfx localname atts nbNs
          else
            let (r, c3) := nsPush c2 none URL
            startTag2AttTail (fuel - 1) c3 pfx localname atts (if r > 0 then nbNs + 1 else nbNs)
        else if apfx == some strXmlns then
          let URL := attvalue
          if attname == strXml then
            let c2 := if URL != strXmlNs then xmlNsErr c1 .nsXmlNamespace else c1
            startTag2AttTail (fuel - 1) c2 pfx localname atts nbNs
          else if URL == strXmlNs then
            startTag2AttTail (fuel - 1) (xmlNsErr c1 .nsXmlNamespace) pfx localname atts nbNs
          else if attname == strXmlns then
            startTag2AttTail (fuel - 1) (xmlNsErr c1 .nsXmlNamespace) pfx localname atts nbNs
          else if URL == strXmlnsNs then
            startTag2AttTail (fuel - 1) (xmlNsErr c1 .nsXmlNamespace) pfx localname atts nbNs
          else if URL == [] then
            startTag2AttTail (fuel - 1) (xmlNsErr c1 .nsXmlNamespace) pfx localname atts nbNs
          else
            let c2 :=
              if !c1.uriParseOk URL then xmlNsErr c1 .warNsUri
              else if c1.pedantic && !c1.uriHasScheme URL then
                xmlNsWarn c1 .warNsUriRelative
              else c1
            if (lastN c2.nsTab nbNs).any (fun b => b.1 == some attname) then
              startTag2AttTail (fuel - 1) (xmlErrAttributeDup c2) pfx localname atts nbNs
            else
              let (r, c3) := nsPush c2 (some attname) URL
              startTag2AttTail (fuel - 1) c3 pfx localname atts
                (if r > 0 then nbNs + 1 else nbNs)
        else
          startTag2OrdTail (fuel - 1) c1 q false pfx localname
            (atts ++ [{ name := attname, pfx := apfx, value := attvalue }]) nbNs
      | _, _ =>
        startTag2OrdTail (fuel - 1) c1 q (nameRes.isNone && valRes.isNone) pfx localname
          atts nbNs
termination_by fuel
decreasing_by all_goals omega

/-- The `skip_default_ns`/`skip_ns` tail of the attribute loop
(parser.c:8221-8231 and 8285-8297). -/
def startTag2AttTail (fuel : Nat) (c : Ctxt) (pfx : Option Str) (localname : Str)
    (atts : List Attr) (nbNs : Nat) : List Attr × Nat × Ctxt :=
  if fuel = 0 then (atts, nbNs, { c with fuelOut := true })
  else
    if c.RAW == 0x3E || (c.RAW == 0x2F && c.NXT 1 == 0x3E) then (atts, nbNs, c)
    else if !isBlankCh c.RAW then
      (atts, nbNs, xmlFatalErrMsg c .spaceRequired)
    else
      startTag2AttLoop (fuel - 1) (skipBlanks c) pfx localname atts nbNs
termination_by fuel
decreasing_by all_goals omega

/-- The `failed:` tail of the attribute loop (parser.c:8329-8348), with the
non-progress internal-error check. -/
def startTag2OrdTail (fuel : Nat) (c : Ctxt) (q : Str) (gotNull : Bool)
    (pfx : Option Str) (localname : Str) (atts : List Attr) (nbNs : Nat) :
    List Attr × Nat × Ctxt :=
  if fuel = 0 then (atts, nbNs, { c with fuelOut := true })
  else
    if c.instate == InState.eof then (atts, nbNs, c)
    else if c.RAW == 0x3E || (c.RAW == 0x2F && c.NXT 1 == 0x3E) then (atts, nbNs, c)
    else if !isBlankCh c.RAW then
      (atts, nbNs, xmlFatalErrMsg c .spaceRequired)
    else
      let c2 := skipBlanks c
      if c2.input == q && gotNull then
        (atts, nbNs, xmlFatalErr c2 .internalError)
      else startTag2AttLoop (fuel - 1) c2 pfx localname atts nbNs
termination_by fuel
decreasing_by all_goals omega

end

/-- The DTD-default-attribute merge of `xmlParseStartTag2`
(parser.c:8353-8421).  `firstVal` is `defaults->values[2]`, the value of the
first declared default, against which the original compares prefixed
namespace defaults. -/
def startTag2Defaults (c : Ctxt) (firstVal : Option Str)
    (defaults : List (Str × Option Str × Str × Bool)) (localname : Str)
    (atts : List Attr) (nbNs nbdef : Nat) : List Attr × Nat × Nat × Ctxt :=
  match defaults with
  | [] => (atts, nbNs, nbdef, c)
  | (attname, apfx, value, external) :: rest =>
    if attname == strXmlns && apfx == none then
      if (lastN c.nsTab nbNs).any (fun b => b.1 == none) then
        startTag2Defaults c firstVal rest localname atts nbNs nbdef
      else
        let nsname := xmlGetNamespace c none
        if nsname != some value then
          let (r, c') := nsPush c none value
          startTag2Defaults c' firstVal rest localname atts
            (if r > 0 then nbNs + 1 else nbNs) nbdef
        else startTag2Defaults c firstVal rest localname atts nbNs nbdef
    else if apfx == some strXmlns then
      if (lastN c.nsTab nbNs).any (fun b => b.1 == some attname) then
        startTag2Defaults c firstVal rest localname atts nbNs nbdef
      else
        let nsname := xmlGetNamespace c (some attname)
        if nsname != firstVal then
          let (r, c') := nsPush c (some attname) value
          startTag2Defaults c' firstVal rest localname atts
            (if r > 0 then nbNs + 1 else nbNs) nbdef
        else startTag2Defaults c firstVal rest localname atts nbNs nbdef
    else
      if atts.any (fun a => a.name == attname && a.pfx == apfx) then
        startTag2Defaults c firstVal rest localname atts nbNs nbdef
      else
        let uri := match apfx with
                   | some p => xmlGetNamespace c p
                   | none => none
        let c' :=
          if c.standalone == 1 && external then
            xmlValidityError c .dtdStandaloneDefaulted
          else c
        startTag2Defaults c' firstVal rest localname
          (atts ++ [{ name := attname, pfx := apfx, uri := uri, value := value }])
          nbNs (nbdef + 1)

/-- The inner duplicate scan of the attribute checks (parser.c:8445-8456):
find the first earlier attribute with the same name and either the same prefix
(fatal `XML_ERR_ATTRIBUTE_REDEFINED`) or the same resolved namespace
(recoverable `XML_NS_ERR_ATTRIBUTE_REDEFINED`). -/
def startTag2DupScan (c : Ctxt) (done : List Attr) (a : Attr)
    (nsname : Option Str) : Ctxt :=
  match done with
  | [] => c
  | b :: rest =>
    if a.name == b.name then
      if a.pfx == b.pfx then xmlErrAttributeDup c
      else if nsname != none && b.uri == nsname then
        xmlNsErr c .nsAttributeRedefined
      else startTag2DupScan c rest a nsname
    else startTag2DupScan c rest a nsname

/-- The attribute-checking loop of `xmlParseStartTag2` (parser.c:8426-8457):
resolve each prefixed attribute's namespace against the stack as it stands
after all declarations of this tag (the default namespace never applies to
attributes), and detect duplicates. -/
def startTag2AttsCheckLoop (c : Ctxt) (done : List Attr) (todo : List Attr) :
    List Attr × Ctxt :=
  match todo with
  | [] => (done, c)
  | a :: rest =>
    let nsname :=
      match a.pfx with
      | some p => xmlGetNamespace c p
      | none => none
    let c1 :=
      match a.pfx with
      | some _ => if nsname == none then xmlNsErr c .nsUndefinedNamespace else c
      | none => c
    let a' :=
      match a.pfx with
      | some _ => { a with uri := nsname }
      | none => a
    let c2 := startTag2DupScan c1 done a' nsname
    startTag2AttsCheckLoop c2 (done ++ [a']) rest

/-- `xmlParseStartTag2` (parser.c:8112): parse `<` QName, the attribute list
with namespace partitioning, merge DTD defaults, run the attribute checks,
resolve the element's namespace, and emit the `startElementNs` event.  Returns
the element's (localname, prefix, namespace URI).  The `base_changed` replay
of the original cannot trigger on the single buffered frame. -/
def xmlParseStartTag2 (fuel : Nat) (c : Ctxt) :
    Option (Str × Option Str × Option Str) × Ctxt :=
  if c.RAW != 0x3C then (none, c)
  else
    let c1 := c.advance 1
    match xmlParseQName fuel c1 with
    | (none, c2) => (none, xmlFatalErrMsg c2 .nameRequired)
    | (some (localname, pfx), c2) =>
      let c3 := skipBlanks c2
      let (atts, nbNs, c4) := startTag2AttLoop fuel c3 pfx localname [] 0
      let (atts, nbNs, nbdef, c5) :=
        match lookupDefaults c4 localname pfx with
        | some defaults =>
          startTag2Defaults c4 (defaults.head?.map (fun (d : Str × Option Str × Str × Bool) => d.2.2.1)) defaults
            localname atts nbNs 0
        | none => (atts, nbNs, 0, c4)
      let (atts', c6) := startTag2AttsCheckLoop c5 [] atts
      let nsname := xmlGetNamespace c6 pfx
      let c7 :=
        if pfx != none && nsname == none then
          xmlNsErr c6 .nsUndefinedNamespace
        else c6
      let c8 :=
        if !c7.disableSAX then
          { c7 with events := c7.events ++
              [Ev.startElementNs localname pfx nsname (lastN c7.nsTab nbNs)
                (atts'.length) nbdef
                (atts'.map (fun a => (a.name, a.pfx, a.uri, a.value)))] }
        else c7
      (some (localname, pfx, nsname), c8)


/-! ## Shared facts about the diagnostic raisers -/

/-- `xmlFatalErr` never moves the parser state. -/
theorem xmlFatalErr_instate (c : Ctxt) (e : XmlErr) :
    (xmlFatalErr c e).instate = c.instate := by
  rw [xmlFatalErr]; split <;> rfl

/-- Advancing the cursor leaves the parser state alone. -/
theorem advance_instate (c : Ctxt) (n : Nat) :
    (c.advance n).instate = c.instate := rfl

/-- Composition of cursor advances. -/
theorem advance_advance (c : Ctxt) (a b : Nat) :
    (c.advance a).advance b = c.advance (a + b) := by
  simp [Ctxt.advance, Nat.add_comm a b, Nat.add_assoc]

/-- With the parser state away from end-of-file, `xmlFatalErr` records the
fatal diagnostic unconditionally. -/
theorem xmlFatalErr_apply (c : Ctxt) (e : XmlErr) (h : c.instate ≠ InState.eof) :
    xmlFatalErr c e =
      { c with
          errNo := e,
          lastError := e,
          raised := c.raised ++ [(.fatal, e)],
          wellFormed := false,
          disableSAX := if c.recovery then c.disableSAX else true } := by
  rw [xmlFatalErr, if_neg]
  simp [h]

/-! ## C3: the recursion-depth ceiling of entity decoding -/

/-- C3: every call of `xmlStringLenDecodeEntities` made at a depth over 40
without the huge-documents option, or over the hard ceiling 1024 in any case,
decodes nothing and signals the fatal EntityLoop error, so entity references
cannot recurse without bound. -/
theorem claim_C3_decode_depth_guard (fuel : Nat) (c : Ctxt) (str : Str)
    (len what e1 e2 e3 : Nat) (hf : fuel ≠ 0)
    (hd : (40 < c.depth ∧ c.optHuge = false) ∨ 1024 < c.depth) :
    xmlStringLenDecodeEntities fuel c str len what e1 e2 e3 =
      (none, xmlFatalErr c .entityLoop) ∧
    (c.instate ≠ InState.eof →
      (xmlStringLenDecodeEntities fuel c str len what e1 e2 e3).2.lastError =
        XmlErr.entityLoop ∧
      (xmlStringLenDecodeEntities fuel c str len what e1 e2 e3).2.wellFormed = false ∧
      (xmlStringLenDecodeEntities fuel c str len what e1 e2 e3).2.raised =
        c.raised ++ [(Severity.fatal, XmlErr.entityLoop)]) := by
  have he : xmlStringLenDecodeEntities fuel c str len what e1 e2 e3 =
      (none, xmlFatalErr c .entityLoop) := by
    rw [xmlStringLenDecodeEntities, if_neg hf, if_pos]
    rcases hd with ⟨h1, h2⟩ | h3
    · simp [h1, h2]
    · simp [h3]
  refine ⟨he, fun hi => ?_⟩
  rw [he, xmlFatalErr_apply c _ hi]
  exact ⟨rfl, rfl, rfl⟩

/-- Closed instance of the C3 guard at depth 41. -/
theorem claim_C3_decode_depth_guard_witness :
    (xmlStringLenDecodeEntities 5 { depth := 41 } [] 0 0 0 0 0).1 = none ∧
    (xmlStringLenDecodeEntities 5 { depth := 41 } [] 0 0 0 0 0).2.lastError =
      XmlErr.entityLoop ∧
    (xmlStringLenDecodeEntities 5 { depth := 41 } [] 0 0 0 0 0).2.wellFormed = false := by
  have h := claim_C3_decode_depth_guard 5 { depth := 41 } [] 0 0 0 0 0 (by decide)
    (Or.inl ⟨by decide, rfl⟩)
  have h2 := h.2 (by decide)
  exact ⟨by rw [h.1], h2.1, h2.2.1⟩

/-! ## C6: innermost namespace lookup -/

/-- Modelled from the spec: the invariant of section 4.4, "lookup always
returns the innermost (most recently pushed) binding for a given prefix".
`nsPush` appends at the end of the stack, so the innermost binding is found by
giving the bindings nearer the end priority. -/
def specInnermostBinding (tab : List (Option Str × Str)) (pfx : Option Str) :
    Option Str :=
  match tab with
  | [] => none
  | b :: rest =>
    match specInnermostBinding rest pfx with
    | some u => some u
    | none => if b.1 == pfx then some b.2 else none

/-- The innermost-priority scan coincides with searching the reversed stack. -/
theorem specInnermostBinding_eq_findRev (tab : List (Option Str × Str))
    (pfx : Option Str) :
    specInnermostBinding tab pfx =
      (tab.reverse.find? (fun b => b.1 == pfx)).map Prod.snd := by
  induction tab with
  | nil => rfl
  | cons b rest ih =>
    rw [specInnermostBinding, ih, List.reverse_cons, List.find?_append]
    cases hr : (rest.reverse.find? (fun x => x.1 == pfx)) with
    | some u => simp [Option.orElse]
    | none =>
      cases hb : (b.1 == pfx) with
      | true => simp [List.find?_cons, hb, Option.orElse]
      | false => simp [List.find?_cons, hb, Option.orElse]

/-- The two-level shadowing stack of the C6 scenario:
`<a xmlns:p="U1"><b xmlns:p="U2">`. -/
def c6inner : Ctxt :=
  (nsPush (nsPush { } (some (bytes "p")) (bytes "U1")).2 (some (bytes "p"))
    (bytes "U2")).2

/-- C6: `xmlGetNamespace` returns the innermost binding of a prefix (stated
against the spec-side innermost-priority scan, for every prefix other than the
hard-bound `xml`), and in the shadowing scenario `p` resolves to `U2` inside
`<b xmlns:p="U2">` and back to `U1` once `xmlParseEndTag2` pops that
binding. -/
theorem claim_C6_ns_innermost (c : Ctxt) (p : Str) (hp : p ≠ strXml) :
    xmlGetNamespace c (some p) = specInnermostBinding c.nsTab (some p) ∧
    xmlGetNamespace c6inner (some (bytes "p")) = some (bytes "U2") ∧
    xmlGetNamespace (nsPop c6inner 2) (some (bytes "p")) = some (bytes "U1") := by
  refine ⟨?_, by decide, by decide⟩
  rw [xmlGetNamespace, specInnermostBinding_eq_findRev, if_neg]
  · cases hr : (c.nsTab.reverse.find? (fun b => b.1 == some p)) with
    | some b => simp [hr]
    | none => simp [hr]
  · simp [hp]

/-- Closed instance of C6 at the scenario stack and the prefix `p`. -/
theorem claim_C6_ns_innermost_witness :
    xmlGetNamespace c6inner (some (bytes "p")) =
      specInnermostBinding c6inner.nsTab (some (bytes "p")) ∧
    xmlGetNamespace c6inner (some (bytes "p")) = some (bytes "U2") ∧
    xmlGetNamespace (nsPop c6inner 2) (some (bytes "p")) = some (bytes "U1") :=
  claim_C6_ns_innermost c6inner (bytes "p") (by decide)


/-! ## C7: attribute-value whitespace normalization -/

/-- The C7 literal: an attribute value `"  a   b  "` followed by `/>`. -/
def c7doc : Ctxt := { input := bytes "\x22  a   b  \x22/>" }

set_option maxHeartbeats 2000000 in
/-- C7: parsing the attribute-value literal `"  a   b  "` with the
normalization flag set yields exactly `a b` (leading and trailing spaces
discarded, the internal run collapsed); with the flag clear it yields the
whitespace untouched. -/
theorem claim_C7_attvalue_normalization :
    (xmlParseAttValueInternal 60 c7doc true).1 = some (bytes "a b", true) ∧
    (xmlParseAttValueInternal 60 c7doc false).1 = some (bytes "  a   b  ", false) := by
  constructor
  · simp [c7doc, bytes, strXml, strXmlns, strXmlNs, strXmlnsNs, XML_PARSER_NON_LINEAR, XML_PARSER_BIG_ENTITY, XML_PARSER_BIG_BUFFER_SIZE, XML_PARSER_BUFFER_SIZE, XML_PARSER_CHUNK_SIZE, XML_MAX_TEXT_LENGTH, XML_MAX_NAME_LENGTH, XML_MAX_NAMELEN, Ctxt.RAW, Ctxt.NXT, Ctxt.advance, xmlFatalErr, xmlFatalErrMsg, xmlErrMsgStr, xmlWarningMsg, xmlNsErr, xmlNsWarn, xmlValidityError, xmlErrAttributeDup, isBlankCh, isChar, isByteChar, IsLetterASCII, isdec, IS_LETTER, IS_DIGIT, IS_COMBINING, IS_EXTENDER, xmlIsNameStartChar, nameChar11, xmlIsNameChar, nsPush, nsPop, xmlGetNamespace, xmlGetPredefinedEntity, lookupEntity, lookupPEntity, setChecked, curSchar, utf8Encode, copyBuf, skipBlanks, stringNameBigLoop, stringNameSmallLoop, xmlParseStringName, stringCharRefHexLoop, stringCharRefDecLoop, xmlParseStringCharRef, setCheckedRef, XML_SUBSTITUTE_REF, XML_SUBSTITUTE_PEREF, xmlParserEntityCheck, xmlParseStringEntityRef, xmlParseStringPEReference, xmlStringLenDecodeEntities, decodeLoop, appendRep, xmlStringDecodeEntities, charRefHexLoop, charRefDecLoop, xmlParseCharRef, nameAsciiStart, nameAsciiCont, nameStart11, nameComplexLoop11, nameComplexLoopOld, xmlParseNameComplex, xmlParseName, ncnameComplexLoop, xmlParseNCNameComplex, ncnameAsciiStart, ncnameAsciiCont, xmlParseNCName, nmtokenBigLoop, nmtokenSmallLoop, xmlParseNmtoken, xmlBuildQName, xmlParseQName, xmlErrMemory, xmlParseEntityRef, attValueComplexLoop, xmlParseAttValueComplex, attFastScanNorm, attFastCont, xmlParseAttValueInternal, xmlAttrNormalizeSpace, xmlAttrNormalizeSpace2, lookupSpecial, xmlCheckLanguageID, setSpaceTop, xmlParseAttribute2, lastN, lookupDefaults, startTag2AttLoop, startTag2AttTail, startTag2OrdTail, startTag2Defaults, startTag2DupScan, startTag2AttsCheckLoop, xmlParseStartTag2, EntRef.deref, xmlParseAttValueInternal.xmlParseAttValueComplexAlloc, xmlAttrNormalizeSpace.attrNormAlg, xmlAttrNormalizeSpace2.attrNorm2NeedsRealloc, List.takeWhile, List.dropWhile, List.find?, List.getD, List.headD, List.lookup]
  · simp [c7doc, bytes, strXml, strXmlns, strXmlNs, strXmlnsNs, XML_PARSER_NON_LINEAR, XML_PARSER_BIG_ENTITY, XML_PARSER_BIG_BUFFER_SIZE, XML_PARSER_BUFFER_SIZE, XML_PARSER_CHUNK_SIZE, XML_MAX_TEXT_LENGTH, XML_MAX_NAME_LENGTH, XML_MAX_NAMELEN, Ctxt.RAW, Ctxt.NXT, Ctxt.advance, xmlFatalErr, xmlFatalErrMsg, xmlErrMsgStr, xmlWarningMsg, xmlNsErr, xmlNsWarn, xmlValidityError, xmlErrAttributeDup, isBlankCh, isChar, isByteChar, IsLetterASCII, isdec, IS_LETTER, IS_DIGIT, IS_COMBINING, IS_EXTENDER, xmlIsNameStartChar, nameChar11, xmlIsNameChar, nsPush, nsPop, xmlGetNamespace, xmlGetPredefinedEntity, lookupEntity, lookupPEntity, setChecked, curSchar, utf8Encode, copyBuf, skipBlanks, stringNameBigLoop, stringNameSmallLoop, xmlParseStringName, stringCharRefHexLoop, stringCharRefDecLoop, xmlParseStringCharRef, setCheckedRef, XML_SUBSTITUTE_REF, XML_SUBSTITUTE_PEREF, xmlParserEntityCheck, xmlParseStringEntityRef, xmlParseStringPEReference, xmlStringLenDecodeEntities, decodeLoop, appendRep, xmlStringDecodeEntities, charRefHexLoop, charRefDecLoop, xmlParseCharRef, nameAsciiStart, nameAsciiCont, nameStart11, nameComplexLoop11, nameComplexLoopOld, xmlParseNameComplex, xmlParseName, ncnameComplexLoop, xmlParseNCNameComplex, ncnameAsciiStart, ncnameAsciiCont, xmlParseNCName, nmtokenBigLoop, nmtokenSmallLoop, xmlParseNmtoken, xmlBuildQName, xmlParseQName, xmlErrMemory, xmlParseEntityRef, attValueComplexLoop, xmlParseAttValueComplex, attFastScanNorm, attFastCont, xmlParseAttValueInternal, xmlAttrNormalizeSpace, xmlAttrNormalizeSpace2, lookupSpecial, xmlCheckLanguageID, setSpaceTop, xmlParseAttribute2, lastN, lookupDefaults, startTag2AttLoop, startTag2AttTail, startTag2OrdTail, startTag2Defaults, startTag2DupScan, startTag2AttsCheckLoop, xmlParseStartTag2, EntRef.deref, xmlParseAttValueInternal.xmlParseAttValueComplexAlloc, xmlAttrNormalizeSpace.attrNormAlg, xmlAttrNormalizeSpace2.attrNorm2NeedsRealloc, List.takeWhile, List.dropWhile, List.find?, List.getD, List.headD, List.lookup]

/-! ## C4 (amended): duplicate attributes by resolved namespace identity -/

/-- With the parser state away from end-of-file, `xmlNsErr` records the
recoverable namespace diagnostic, clearing only `nsWellFormed`. -/
theorem xmlNsErr_apply (c : Ctxt) (e : XmlErr) (h : c.instate ≠ InState.eof) :
    xmlNsErr c e =
      { c with
          errNo := e,
          lastError := e,
          raised := c.raised ++ [(.error, e)],
          nsWellFormed := false } := by
  rw [xmlNsErr, if_neg]
  simp [h]

/-- C4 (amended): in the attribute check of `xmlParseStartTag2`, two
attributes with the same local name, different prefixes and the same resolved
namespace URI are diagnosed with `nsAttributeRedefined` of severity error — a
recoverable namespace error that leaves `wellFormed` untouched (only the
lexical same-prefix duplicate goes through the fatal `xmlErrAttributeDup`). -/
theorem claim_C4_dup_attr_ns_recoverable (c : Ctxt) (ln v1 v2 p1 p2 uri : Str)
    (hne : p1 ≠ p2)
    (h1 : xmlGetNamespace c (some p1) = some uri)
    (h2 : xmlGetNamespace c (some p2) = some uri)
    (hins : c.instate ≠ InState.eof) :
    (startTag2AttsCheckLoop c []
        [{ name := ln, pfx := some p1, value := v1 },
         { name := ln, pfx := some p2, value := v2 }]).2.raised =
      c.raised ++ [(Severity.error, XmlErr.nsAttributeRedefined)] ∧
    (startTag2AttsCheckLoop c []
        [{ name := ln, pfx := some p1, value := v1 },
         { name := ln, pfx := some p2, value := v2 }]).2.wellFormed = c.wellFormed ∧
    (startTag2AttsCheckLoop c []
        [{ name := ln, pfx := some p1, value := v1 },
         { name := ln, pfx := some p2, value := v2 }]).2.nsWellFormed = false ∧
    (startTag2AttsCheckLoop c []
        [{ name := ln, pfx := some p1, value := v1 },
         { name := ln, pfx := some p2, value := v2 }]).1 =
      [{ name := ln, pfx := some p1, uri := some uri, value := v1 },
       { name := ln, pfx := some p2, uri := some uri, value := v2 }] := by
  have hpp : p2 ≠ p1 := Ne.symm hne
  simp [startTag2AttsCheckLoop, startTag2DupScan, h1, h2, hpp,
    xmlNsErr_apply _ _ hins]

/-- Closed instance of the amended C4 statement: two prefixes `p` and `q`
bound to the same URI `U`, the attribute `x` carried under both. -/
theorem claim_C4_dup_attr_ns_recoverable_witness :
    (startTag2AttsCheckLoop
        { nsTab := [(some (bytes "p"), bytes "U"), (some (bytes "q"), bytes "U")] } []
        [{ name := bytes "x", pfx := some (bytes "p"), value := bytes "1" },
         { name := bytes "x", pfx := some (bytes "q"), value := bytes "2" }]).2.raised =
      [(Severity.error, XmlErr.nsAttributeRedefined)] ∧
    (startTag2AttsCheckLoop
        { nsTab := [(some (bytes "p"), bytes "U"), (some (bytes "q"), bytes "U")] } []
        [{ name := bytes "x", pfx := some (bytes "p"), value := bytes "1" },
         { name := bytes "x", pfx := some (bytes "q"), value := bytes "2" }]).2.wellFormed
      = true ∧
    (startTag2AttsCheckLoop
        { nsTab := [(some (bytes "p"), bytes "U"), (some (bytes "q"), bytes "U")] } []
        [{ name := bytes "x", pfx := some (bytes "p"), value := bytes "1" },
         { name := bytes "x", pfx := some (bytes "q"), value := bytes "2" }]).2.nsWellFormed
      = false := by
  have h := claim_C4_dup_attr_ns_recoverable
    { nsTab := [(some (bytes "p"), bytes "U"), (some (bytes "q"), bytes "U")] }
    (bytes "x") (bytes "1") (bytes "2") (bytes "p") (bytes "q") (bytes "U")
    (by decide) (by decide) (by decide) (by decide)
  exact ⟨h.1, h.2.1, h.2.2.1⟩


/-! ## C9: character-reference validation -/

/-- The hexadecimal loop of `xmlParseCharRef` never moves the parser state. -/
theorem charRefHexLoop_instate (fuel : Nat) :
    ∀ (c : Ctxt) (v o k : Nat), (charRefHexLoop fuel c v o k).2.2.instate = c.instate := by
  induction fuel with
  | zero => intro c v o k; rw [charRefHexLoop]; simp
  | succ n ih =>
    intro c v o k
    rw [charRefHexLoop]
    simp only [Nat.succ_ne_zero, if_false, Nat.add_one_sub_one]
    split
    · rfl
    · split
      · simp [xmlFatalErr_instate]
      · rw [ih]; rfl

/-- The decimal loop of `xmlParseCharRef` never moves the parser state. -/
theorem charRefDecLoop_instate (fuel : Nat) :
    ∀ (c : Ctxt) (v o k : Nat), (charRefDecLoop fuel c v o k).2.2.instate = c.instate := by
  induction fuel with
  | zero => intro c v o k; rw [charRefDecLoop]; simp
  | succ n ih =>
    intro c v o k
    rw [charRefDecLoop]
    simp only [Nat.succ_ne_zero, if_false, Nat.add_one_sub_one]
    split
    · rfl
    · split
      · rw [ih]; rfl
      · simp [xmlFatalErr_instate]

/-- The validation tail shared by both branches of `xmlParseCharRef`: a
nonzero result passed the character-grammar test, a zero result carries the
illegal-character diagnostic. -/
theorem charRefFinish_guarded (val orng : Nat) (d : Ctxt)
    (hd : (d.disableSAX && d.instate == InState.eof) = false) :
    ((if isChar val && orng == 0 then ((val, d) : Nat × Ctxt)
        else (0, xmlFatalErrMsg d XmlErr.invalidChar)).1 ≠ 0 →
      isChar (if isChar val && orng == 0 then ((val, d) : Nat × Ctxt)
        else (0, xmlFatalErrMsg d XmlErr.invalidChar)).1 = true) ∧
    ((if isChar val && orng == 0 then ((val, d) : Nat × Ctxt)
        else (0, xmlFatalErrMsg d XmlErr.invalidChar)).1 = 0 →
      (if isChar val && orng == 0 then ((val, d) : Nat × Ctxt)
        else (0, xmlFatalErrMsg d XmlErr.invalidChar)).2.errNo = XmlErr.invalidChar) := by
  by_cases hv : (isChar val && orng == 0) = true
  · rw [if_pos hv]
    refine ⟨fun _ => ?_, fun h0 => ?_⟩
    · simp only [Bool.and_eq_true] at hv
      exact hv.1
    · have hv0 : val = 0 := h0
      rw [hv0] at hv
      simp [isChar] at hv
  · rw [if_neg hv]
    refine ⟨fun h => absurd rfl h, fun _ => ?_⟩
    show (xmlFatalErrMsg d XmlErr.invalidChar).errNo = XmlErr.invalidChar
    simp [xmlFatalErrMsg, xmlFatalErr, hd]

/-- C9 (amended): `xmlParseCharRef` only ever returns code points satisfying
the character grammar: a nonzero result is a legal character, and a zero
result always carries an error diagnostic (`errNo` ends as the
illegal-character code, with the malformed-reference codes preceding it in the
trail where applicable).  The claim's converse — every reference denoting a
legal code point is returned — fails on the hex loop's gated letter digits
(parser.c:1834-1837: `a`-`f`/`A`-`F` are accepted only while the twice-stepped
counter is below 20, while the numeric branch and the whole decimal loop are
ungated), see the counterexample. -/
theorem claim_C9_charref_codepoint_guarded (fuel : Nat) (c : Ctxt)
    (hi : c.instate ≠ InState.eof) :
    ((xmlParseCharRef fuel c).1 ≠ 0 → isChar (xmlParseCharRef fuel c).1 = true) ∧
    ((xmlParseCharRef fuel c).1 = 0 →
      (xmlParseCharRef fuel c).2.errNo = XmlErr.invalidChar) := by
  have hguard : ∀ (d : Ctxt), d.instate = c.instate →
      (d.disableSAX && d.instate == InState.eof) = false := by
    intro d hd
    have hb : (d.instate == InState.eof) = false := by
      rw [hd]; exact beq_eq_false_iff_ne.mpr hi
    simp [hb]
  rw [xmlParseCharRef]
  dsimp only
  by_cases h1 : (c.RAW == 0x26 && c.NXT 1 == 0x23 && c.NXT 2 == 0x78) = true
  · rw [if_pos h1]
    rcases hx : charRefHexLoop fuel (c.advance 3) 0 0 0 with ⟨val, orng, c1⟩
    have hc1 : c1.instate = c.instate := by
      have t := charRefHexLoop_instate fuel (c.advance 3) 0 0 0
      rw [hx] at t; exact t
    dsimp only
    refine charRefFinish_guarded val orng _ (hguard _ ?_)
    split
    · rw [advance_instate]; exact hc1
    · exact hc1
  · rw [if_neg h1]
    by_cases h2 : (c.RAW == 0x26 && c.NXT 1 == 0x23) = true
    · rw [if_pos h2]
      rcases hx : charRefDecLoop fuel (c.advance 2) 0 0 0 with ⟨val, orng, c1⟩
      have hc1 : c1.instate = c.instate := by
        have t := charRefDecLoop_instate fuel (c.advance 2) 0 0 0
        rw [hx] at t; exact t
      dsimp only
      refine charRefFinish_guarded val orng _ (hguard _ ?_)
      split
      · rw [advance_instate]; exact hc1
      · exact hc1
    · rw [if_neg h2]
      exact charRefFinish_guarded 0 0 _
        (hguard _ (xmlFatalErr_instate c XmlErr.invalidCharRef))

/-- The C9 counterexample input: a hexadecimal reference for U+000A padded to
thirteen digits, whose final digit `a` lands past the counter gate. -/
def c9doc : Ctxt := { input := bytes "&#x0000000000a;" }

set_option maxHeartbeats 2000000 in
/-- C9 (counterexample): `&#x0000000000a;` denotes U+000A, a legal character
(the sibling string-variant decoder reads exactly 10 from the same bytes), yet
`xmlParseCharRef` rejects it: the digit counter passes 20 (it is incremented
at the top and the bottom of each iteration) and the gated `a`-`f` branch
refuses the final digit, so the parse returns 0 with InvalidHexCharRef and
IllegalCharacterValue diagnostics. -/
theorem claim_C9_counterexample :
    isChar 0xA = true ∧
    (xmlParseStringCharRef 30 { } (bytes "&#x0000000000a;")).1 = 0xA ∧
    (xmlParseCharRef 30 c9doc).1 = 0 ∧
    (xmlParseCharRef 30 c9doc).2.raised =
      [(Severity.fatal, XmlErr.invalidHexCharRef),
       (Severity.fatal, XmlErr.invalidChar)] := by
  refine ⟨by decide, ?_, ?_, ?_⟩
  · simp [c9doc, bytes, strXml, strXmlns, strXmlNs, strXmlnsNs, XML_PARSER_NON_LINEAR, XML_PARSER_BIG_ENTITY, XML_PARSER_BIG_BUFFER_SIZE, XML_PARSER_BUFFER_SIZE, XML_PARSER_CHUNK_SIZE, XML_MAX_TEXT_LENGTH, XML_MAX_NAME_LENGTH, XML_MAX_NAMELEN, Ctxt.RAW, Ctxt.NXT, Ctxt.advance, xmlFatalErr, xmlFatalErrMsg, xmlErrMsgStr, xmlWarningMsg, xmlNsErr, xmlNsWarn, xmlValidityError, xmlErrAttributeDup, isBlankCh, isChar, isByteChar, IsLetterASCII, isdec, IS_LETTER, IS_DIGIT, IS_COMBINING, IS_EXTENDER, xmlIsNameStartChar, nameChar11, xmlIsNameChar, nsPush, nsPop, xmlGetNamespace, xmlGetPredefinedEntity, lookupEntity, lookupPEntity, setChecked, curSchar, utf8Encode, copyBuf, skipBlanks, stringNameBigLoop, stringNameSmallLoop, xmlParseStringName, stringCharRefHexLoop, stringCharRefDecLoop, xmlParseStringCharRef, setCheckedRef, XML_SUBSTITUTE_REF, XML_SUBSTITUTE_PEREF, xmlParserEntityCheck, xmlParseStringEntityRef, xmlParseStringPEReference, xmlStringLenDecodeEntities, decodeLoop, appendRep, xmlStringDecodeEntities, charRefHexLoop, charRefDecLoop, xmlParseCharRef, nameAsciiStart, nameAsciiCont, nameStart11, nameComplexLoop11, nameComplexLoopOld, xmlParseNameComplex, xmlParseName, ncnameComplexLoop, xmlParseNCNameComplex, ncnameAsciiStart, ncnameAsciiCont, xmlParseNCName, nmtokenBigLoop, nmtokenSmallLoop, xmlParseNmtoken, xmlBuildQName, xmlParseQName, xmlErrMemory, xmlParseEntityRef, attValueComplexLoop, xmlParseAttValueComplex, attFastScanNorm, attFastCont, xmlParseAttValueInternal, xmlAttrNormalizeSpace, xmlAttrNormalizeSpace2, lookupSpecial, xmlCheckLanguageID, setSpaceTop, xmlParseAttribute2, lastN, lookupDefaults, startTag2AttLoop, startTag2AttTail, startTag2OrdTail, startTag2Defaults, startTag2DupScan, startTag2AttsCheckLoop, xmlParseStartTag2, EntRef.deref, xmlParseAttValueInternal.xmlParseAttValueComplexAlloc, xmlAttrNormalizeSpace.attrNormAlg, xmlAttrNormalizeSpace2.attrNorm2NeedsRealloc, List.takeWhile, List.dropWhile, List.find?, List.getD, List.headD, List.lookup]
  · simp [c9doc, bytes, strXml, strXmlns, strXmlNs, strXmlnsNs, XML_PARSER_NON_LINEAR, XML_PARSER_BIG_ENTITY, XML_PARSER_BIG_BUFFER_SIZE, XML_PARSER_BUFFER_SIZE, XML_PARSER_CHUNK_SIZE, XML_MAX_TEXT_LENGTH, XML_MAX_NAME_LENGTH, XML_MAX_NAMELEN, Ctxt.RAW, Ctxt.NXT, Ctxt.advance, xmlFatalErr, xmlFatalErrMsg, xmlErrMsgStr, xmlWarningMsg, xmlNsErr, xmlNsWarn, xmlValidityError, xmlErrAttributeDup, isBlankCh, isChar, isByteChar, IsLetterASCII, isdec, IS_LETTER, IS_DIGIT, IS_COMBINING, IS_EXTENDER, xmlIsNameStartChar, nameChar11, xmlIsNameChar, nsPush, nsPop, xmlGetNamespace, xmlGetPredefinedEntity, lookupEntity, lookupPEntity, setChecked, curSchar, utf8Encode, copyBuf, skipBlanks, stringNameBigLoop, stringNameSmallLoop, xmlParseStringName, stringCharRefHexLoop, stringCharRefDecLoop, xmlParseStringCharRef, setCheckedRef, XML_SUBSTITUTE_REF, XML_SUBSTITUTE_PEREF, xmlParserEntityCheck, xmlParseStringEntityRef, xmlParseStringPEReference, xmlStringLenDecodeEntities, decodeLoop, appendRep, xmlStringDecodeEntities, charRefHexLoop, charRefDecLoop, xmlParseCharRef, nameAsciiStart, nameAsciiCont, nameStart11, nameComplexLoop11, nameComplexLoopOld, xmlParseNameComplex, xmlParseName, ncnameComplexLoop, xmlParseNCNameComplex, ncnameAsciiStart, ncnameAsciiCont, xmlParseNCName, nmtokenBigLoop, nmtokenSmallLoop, xmlParseNmtoken, xmlBuildQName, xmlParseQName, xmlErrMemory, xmlParseEntityRef, attValueComplexLoop, xmlParseAttValueComplex, attFastScanNorm, attFastCont, xmlParseAttValueInternal, xmlAttrNormalizeSpace, xmlAttrNormalizeSpace2, lookupSpecial, xmlCheckLanguageID, setSpaceTop, xmlParseAttribute2, lastN, lookupDefaults, startTag2AttLoop, startTag2AttTail, startTag2OrdTail, startTag2Defaults, startTag2DupScan, startTag2AttsCheckLoop, xmlParseStartTag2, EntRef.deref, xmlParseAttValueInternal.xmlParseAttValueComplexAlloc, xmlAttrNormalizeSpace.attrNormAlg, xmlAttrNormalizeSpace2.attrNorm2NeedsRealloc, List.takeWhile, List.dropWhile, List.find?, List.getD, List.headD, List.lookup]
  · simp [c9doc, bytes, strXml, strXmlns, strXmlNs, strXmlnsNs, XML_PARSER_NON_LINEAR, XML_PARSER_BIG_ENTITY, XML_PARSER_BIG_BUFFER_SIZE, XML_PARSER_BUFFER_SIZE, XML_PARSER_CHUNK_SIZE, XML_MAX_TEXT_LENGTH, XML_MAX_NAME_LENGTH, XML_MAX_NAMELEN, Ctxt.RAW, Ctxt.NXT, Ctxt.advance, xmlFatalErr, xmlFatalErrMsg, xmlErrMsgStr, xmlWarningMsg, xmlNsErr, xmlNsWarn, xmlValidityError, xmlErrAttributeDup, isBlankCh, isChar, isByteChar, IsLetterASCII, isdec, IS_LETTER, IS_DIGIT, IS_COMBINING, IS_EXTENDER, xmlIsNameStartChar, nameChar11, xmlIsNameChar, nsPush, nsPop, xmlGetNamespace, xmlGetPredefinedEntity, lookupEntity, lookupPEntity, setChecked, curSchar, utf8Encode, copyBuf, skipBlanks, stringNameBigLoop, stringNameSmallLoop, xmlParseStringName, stringCharRefHexLoop, stringCharRefDecLoop, xmlParseStringCharRef, setCheckedRef, XML_SUBSTITUTE_REF, XML_SUBSTITUTE_PEREF, xmlParserEntityCheck, xmlParseStringEntityRef, xmlParseStringPEReference, xmlStringLenDecodeEntities, decodeLoop, appendRep, xmlStringDecodeEntities, charRefHexLoop, charRefDecLoop, xmlParseCharRef, nameAsciiStart, nameAsciiCont, nameStart11, nameComplexLoop11, nameComplexLoopOld, xmlParseNameComplex, xmlParseName, ncnameComplexLoop, xmlParseNCNameComplex, ncnameAsciiStart, ncnameAsciiCont, xmlParseNCName, nmtokenBigLoop, nmtokenSmallLoop, xmlParseNmtoken, xmlBuildQName, xmlParseQName, xmlErrMemory, xmlParseEntityRef, attValueComplexLoop, xmlParseAttValueComplex, attFastScanNorm, attFastCont, xmlParseAttValueInternal, xmlAttrNormalizeSpace, xmlAttrNormalizeSpace2, lookupSpecial, xmlCheckLanguageID, setSpaceTop, xmlParseAttribute2, lastN, lookupDefaults, startTag2AttLoop, startTag2AttTail, startTag2OrdTail, startTag2Defaults, startTag2DupScan, startTag2AttsCheckLoop, xmlParseStartTag2, EntRef.deref, xmlParseAttValueInternal.xmlParseAttValueComplexAlloc, xmlAttrNormalizeSpace.attrNormAlg, xmlAttrNormalizeSpace2.attrNorm2NeedsRealloc, List.takeWhile, List.dropWhile, List.find?, List.getD, List.headD, List.lookup]

set_option maxHeartbeats 2000000 in
/-- Closed instance of the amended C9 statement: the surrogate reference
`&#xD800;` is parsed to 0 with the illegal-character diagnostic. -/
theorem claim_C9_charref_codepoint_guarded_witness :
    (xmlParseCharRef 20 { input := bytes "&#xD800;" }).1 = 0 ∧
    (xmlParseCharRef 20 { input := bytes "&#xD800;" }).2.errNo =
      XmlErr.invalidChar := by
  have h := claim_C9_charref_codepoint_guarded 20 { input := bytes "&#xD800;" }
    (by decide)
  have h0 : (xmlParseCharRef 20 { input := bytes "&#xD800;" } : Nat × Ctxt).1 = 0 := by
    simp [bytes, strXml, strXmlns, strXmlNs, strXmlnsNs, XML_PARSER_NON_LINEAR, XML_PARSER_BIG_ENTITY, XML_PARSER_BIG_BUFFER_SIZE, XML_PARSER_BUFFER_SIZE, XML_PARSER_CHUNK_SIZE, XML_MAX_TEXT_LENGTH, XML_MAX_NAME_LENGTH, XML_MAX_NAMELEN, Ctxt.RAW, Ctxt.NXT, Ctxt.advance, xmlFatalErr, xmlFatalErrMsg, xmlErrMsgStr, xmlWarningMsg, xmlNsErr, xmlNsWarn, xmlValidityError, xmlErrAttributeDup, isBlankCh, isChar, isByteChar, IsLetterASCII, isdec, IS_LETTER, IS_DIGIT, IS_COMBINING, IS_EXTENDER, xmlIsNameStartChar, nameChar11, xmlIsNameChar, nsPush, nsPop, xmlGetNamespace, xmlGetPredefinedEntity, lookupEntity, lookupPEntity, setChecked, curSchar, utf8Encode, copyBuf, skipBlanks, stringNameBigLoop, stringNameSmallLoop, xmlParseStringName, stringCharRefHexLoop, stringCharRefDecLoop, xmlParseStringCharRef, setCheckedRef, XML_SUBSTITUTE_REF, XML_SUBSTITUTE_PEREF, xmlParserEntityCheck, xmlParseStringEntityRef, xmlParseStringPEReference, xmlStringLenDecodeEntities, decodeLoop, appendRep, xmlStringDecodeEntities, charRefHexLoop, charRefDecLoop, xmlParseCharRef, nameAsciiStart, nameAsciiCont, nameStart11, nameComplexLoop11, nameComplexLoopOld, xmlParseNameComplex, xmlParseName, ncnameComplexLoop, xmlParseNCNameComplex, ncnameAsciiStart, ncnameAsciiCont, xmlParseNCName, nmtokenBigLoop, nmtokenSmallLoop, xmlParseNmtoken, xmlBuildQName, xmlParseQName, xmlErrMemory, xmlParseEntityRef, attValueComplexLoop, xmlParseAttValueComplex, attFastScanNorm, attFastCont, xmlParseAttValueInternal, xmlAttrNormalizeSpace, xmlAttrNormalizeSpace2, lookupSpecial, xmlCheckLanguageID, setSpaceTop, xmlParseAttribute2, lastN, lookupDefaults, startTag2AttLoop, startTag2AttTail, startTag2OrdTail, startTag2Defaults, startTag2DupScan, startTag2AttsCheckLoop, xmlParseStartTag2, EntRef.deref, xmlParseAttValueInternal.xmlParseAttValueComplexAlloc, xmlAttrNormalizeSpace.attrNormAlg, xmlAttrNormalizeSpace2.attrNorm2NeedsRealloc, List.takeWhile, List.dropWhile, List.find?, List.getD, List.headD, List.lookup]
  exact ⟨h0, h.2 h0⟩


/-! ## C5: undeclared general entities -/

/-- The amplification guard right after an undeclared-entity diagnostic is a
no-op: there is no entity, no sizes are supplied, and the reference count is
still small. -/
theorem xmlParserEntityCheck_undeclared (fuel : Nat) (d : Ctxt) (hf : fuel ≠ 0)
    (hhuge : d.optHuge = false)
    (hlast : d.lastError = XmlErr.undeclaredEntity ∨
      d.lastError = XmlErr.warUndeclaredEntity)
    (hnb : d.nbentities ≤ 10000) :
    xmlParserEntityCheck fuel d 0 none 0 = (0, d) := by
  rw [xmlParserEntityCheck, if_neg hf]
  rcases hlast with h | h <;> simp [hhuge, h, hnb]

/-- C5 (amended): when a general entity reference resolves to no predefined
and no declared entity, `xmlParseEntityRef` raises the fatal undeclared-entity
error exactly when the document is declared standalone OR has neither an
external subset nor any parameter-entity reference; otherwise it raises only
the recoverable warning diagnostic and `wellFormed` is untouched (the claim
omits the standalone disjunct, see the counterexample).  In both cases
`valid` is cleared and no entity is returned. -/
theorem claim_C5_undeclared_entity_split (fuel : Nat) (c c2 : Ctxt) (name : Str)
    (hf : fuel ≠ 0)
    (hraw : c.RAW = 0x26)
    (hname : xmlParseName fuel (c.advance 1) = (some name, c2))
    (hpre : xmlGetPredefinedEntity name = none)
    (hsemi : c2.RAW = 0x3B)
    (hlook : c2.entities.find? (fun e => e.name == name) = none)
    (hsax : c2.optOldSax = false)
    (hins : c2.instate ≠ InState.eof)
    (hhuge : c2.optHuge = false)
    (hnb : c2.nbentities + 1 ≤ 10000) :
    (xmlParseEntityRef fuel c).1 = none ∧
    (xmlParseEntityRef fuel c).2.valid = false ∧
    ((c2.standalone = 1 ∨ (c2.hasExternalSubset = false ∧ c2.hasPErefs = false)) →
      (xmlParseEntityRef fuel c).2.errNo = XmlErr.undeclaredEntity ∧
      (xmlParseEntityRef fuel c).2.wellFormed = false ∧
      (xmlParseEntityRef fuel c).2.raised =
        c2.raised ++ [(Severity.fatal, XmlErr.undeclaredEntity)]) ∧
    (¬(c2.standalone = 1 ∨ (c2.hasExternalSubset = false ∧ c2.hasPErefs = false)) →
      (xmlParseEntityRef fuel c).2.errNo = XmlErr.warUndeclaredEntity ∧
      (xmlParseEntityRef fuel c).2.wellFormed = c2.wellFormed ∧
      (xmlParseEntityRef fuel c).2.raised =
        c2.raised ++ [(Severity.error, XmlErr.warUndeclaredEntity)]) := by
  have hbeq : (c2.instate == InState.eof) = false := beq_eq_false_iff_ne.mpr hins
  rw [xmlParseEntityRef, hraw]
  simp only [bne_self_eq_false, Bool.false_eq_true, if_false, hname]
  dsimp only
  simp only [hsemi, bne_self_eq_false, Bool.false_eq_true, if_false,
    Ctxt.advance, hsax, Bool.not_false, if_true, hpre, lookupEntity, hlook,
    Bool.and_false, Bool.false_eq_true, if_false]
  by_cases hc : (c2.standalone == 1 || (!c2.hasExternalSubset && !c2.hasPErefs)) = true
  · have hstand : c2.standalone = 1 ∨
        (c2.hasExternalSubset = false ∧ c2.hasPErefs = false) := by
      simpa only [Bool.or_eq_true, Bool.and_eq_true, beq_iff_eq,
        Bool.not_eq_true, Bool.not_eq_true'] using hc
    simp only [hc, if_true, xmlFatalErrMsg, xmlFatalErr, hbeq, Bool.and_false,
      Bool.false_eq_true, if_false]
    rw [xmlParserEntityCheck_undeclared fuel _ hf (by exact hhuge)
      (by exact Or.inl rfl) (by exact hnb)]
    exact ⟨trivial, trivial, fun _ => ⟨rfl, rfl, rfl⟩, fun hn => absurd hstand hn⟩
  · have hstand : ¬(c2.standalone = 1 ∨
        (c2.hasExternalSubset = false ∧ c2.hasPErefs = false)) := by
      intro hcontra
      apply hc
      simpa only [Bool.or_eq_true, Bool.and_eq_true, beq_iff_eq,
        Bool.not_eq_true, Bool.not_eq_true'] using hcontra
    simp only [hc, if_false, xmlErrMsgStr, hbeq, Bool.and_false,
      Bool.false_eq_true, if_false]
    split
    · rw [xmlParserEntityCheck_undeclared fuel _ hf (by exact hhuge)
        (by exact Or.inr rfl) (by exact hnb)]
      exact ⟨trivial, trivial, fun hp => absurd hp hstand, fun _ => ⟨rfl, rfl, rfl⟩⟩
    · rw [xmlParserEntityCheck_undeclared fuel _ hf (by exact hhuge)
        (by exact Or.inr rfl) (by exact hnb)]
      exact ⟨trivial, trivial, fun hp => absurd hp hstand, fun _ => ⟨rfl, rfl, rfl⟩⟩

/-- The C5 counterexample document state: a standalone document that does have
an external subset, referencing the undeclared entity `&und;`. -/
def c5doc : Ctxt :=
  { input := bytes "&und;", standalone := 1, hasExternalSubset := true }

set_option maxHeartbeats 2000000 in
/-- C5 (counterexample): the claim predicts a mere recoverable warning
whenever an external subset exists, but with `standalone="yes"` the reference
to the undeclared `&und;` is diagnosed fatally and well-formedness is lost. -/
theorem claim_C5_counterexample :
    c5doc.hasExternalSubset = true ∧
    (xmlParseEntityRef 50 c5doc).2.wellFormed = false ∧
    (xmlParseEntityRef 50 c5doc).2.raised =
      [(Severity.fatal, XmlErr.undeclaredEntity)] := by
  refine ⟨rfl, ?_, ?_⟩
  · simp [c5doc, bytes, strXml, strXmlns, strXmlNs, strXmlnsNs, XML_PARSER_NON_LINEAR, XML_PARSER_BIG_ENTITY, XML_PARSER_BIG_BUFFER_SIZE, XML_PARSER_BUFFER_SIZE, XML_PARSER_CHUNK_SIZE, XML_MAX_TEXT_LENGTH, XML_MAX_NAME_LENGTH, XML_MAX_NAMELEN, Ctxt.RAW, Ctxt.NXT, Ctxt.advance, xmlFatalErr, xmlFatalErrMsg, xmlErrMsgStr, xmlWarningMsg, xmlNsErr, xmlNsWarn, xmlValidityError, xmlErrAttributeDup, isBlankCh, isChar, isByteChar, IsLetterASCII, isdec, IS_LETTER, IS_DIGIT, IS_COMBINING, IS_EXTENDER, xmlIsNameStartChar, nameChar11, xmlIsNameChar, nsPush, nsPop, xmlGetNamespace, xmlGetPredefinedEntity, lookupEntity, lookupPEntity, setChecked, curSchar, utf8Encode, copyBuf, skipBlanks, stringNameBigLoop, stringNameSmallLoop, xmlParseStringName, stringCharRefHexLoop, stringCharRefDecLoop, xmlParseStringCharRef, setCheckedRef, XML_SUBSTITUTE_REF, XML_SUBSTITUTE_PEREF, xmlParserEntityCheck, xmlParseStringEntityRef, xmlParseStringPEReference, xmlStringLenDecodeEntities, decodeLoop, appendRep, xmlStringDecodeEntities, charRefHexLoop, charRefDecLoop, xmlParseCharRef, nameAsciiStart, nameAsciiCont, nameStart11, nameComplexLoop11, nameComplexLoopOld, xmlParseNameComplex, xmlParseName, ncnameComplexLoop, xmlParseNCNameComplex, ncnameAsciiStart, ncnameAsciiCont, xmlParseNCName, nmtokenBigLoop, nmtokenSmallLoop, xmlParseNmtoken, xmlBuildQName, xmlParseQName, xmlErrMemory, xmlParseEntityRef, attValueComplexLoop, xmlParseAttValueComplex, attFastScanNorm, attFastCont, xmlParseAttValueInternal, xmlAttrNormalizeSpace, xmlAttrNormalizeSpace2, lookupSpecial, xmlCheckLanguageID, setSpaceTop, xmlParseAttribute2, lastN, lookupDefaults, startTag2AttLoop, startTag2AttTail, startTag2OrdTail, startTag2Defaults, startTag2DupScan, startTag2AttsCheckLoop, xmlParseStartTag2, EntRef.deref, xmlParseAttValueInternal.xmlParseAttValueComplexAlloc, xmlAttrNormalizeSpace.attrNormAlg, xmlAttrNormalizeSpace2.attrNorm2NeedsRealloc, List.takeWhile, List.dropWhile, List.find?, List.getD, List.headD, List.lookup]
  · simp [c5doc, bytes, strXml, strXmlns, strXmlNs, strXmlnsNs, XML_PARSER_NON_LINEAR, XML_PARSER_BIG_ENTITY, XML_PARSER_BIG_BUFFER_SIZE, XML_PARSER_BUFFER_SIZE, XML_PARSER_CHUNK_SIZE, XML_MAX_TEXT_LENGTH, XML_MAX_NAME_LENGTH, XML_MAX_NAMELEN, Ctxt.RAW, Ctxt.NXT, Ctxt.advance, xmlFatalErr, xmlFatalErrMsg, xmlErrMsgStr, xmlWarningMsg, xmlNsErr, xmlNsWarn, xmlValidityError, xmlErrAttributeDup, isBlankCh, isChar, isByteChar, IsLetterASCII, isdec, IS_LETTER, IS_DIGIT, IS_COMBINING, IS_EXTENDER, xmlIsNameStartChar, nameChar11, xmlIsNameChar, nsPush, nsPop, xmlGetNamespace, xmlGetPredefinedEntity, lookupEntity, lookupPEntity, setChecked, curSchar, utf8Encode, copyBuf, skipBlanks, stringNameBigLoop, stringNameSmallLoop, xmlParseStringName, stringCharRefHexLoop, stringCharRefDecLoop, xmlParseStringCharRef, setCheckedRef, XML_SUBSTITUTE_REF, XML_SUBSTITUTE_PEREF, xmlParserEntityCheck, xmlParseStringEntityRef, xmlParseStringPEReference, xmlStringLenDecodeEntities, decodeLoop, appendRep, xmlStringDecodeEntities, charRefHexLoop, charRefDecLoop, xmlParseCharRef, nameAsciiStart, nameAsciiCont, nameStart11, nameComplexLoop11, nameComplexLoopOld, xmlParseNameComplex, xmlParseName, ncnameComplexLoop, xmlParseNCNameComplex, ncnameAsciiStart, ncnameAsciiCont, xmlParseNCName, nmtokenBigLoop, nmtokenSmallLoop, xmlParseNmtoken, xmlBuildQName, xmlParseQName, xmlErrMemory, xmlParseEntityRef, attValueComplexLoop, xmlParseAttValueComplex, attFastScanNorm, attFastCont, xmlParseAttValueInternal, xmlAttrNormalizeSpace, xmlAttrNormalizeSpace2, lookupSpecial, xmlCheckLanguageID, setSpaceTop, xmlParseAttribute2, lastN, lookupDefaults, startTag2AttLoop, startTag2AttTail, startTag2OrdTail, startTag2Defaults, startTag2DupScan, startTag2AttsCheckLoop, xmlParseStartTag2, EntRef.deref, xmlParseAttValueInternal.xmlParseAttValueComplexAlloc, xmlAttrNormalizeSpace.attrNormAlg, xmlAttrNormalizeSpace2.attrNorm2NeedsRealloc, List.takeWhile, List.dropWhile, List.find?, List.getD, List.headD, List.lookup]

/-- The non-standalone variant of the C5 document, and the state after its
entity name is read. -/
def c5warnDoc : Ctxt := { input := bytes "&und;", hasExternalSubset := true }

/-- The context of `c5warnDoc` once `&und` is consumed. -/
def c5warnMid : Ctxt :=
  { input := bytes ";", consumedTotal := 4, hasExternalSubset := true }

set_option maxHeartbeats 2000000 in
/-- Closed instance of the amended C5 statement at the warning side. -/
theorem claim_C5_undeclared_entity_split_witness :
    (xmlParseEntityRef 50 c5warnDoc).1 = none ∧
    (xmlParseEntityRef 50 c5warnDoc).2.valid = false ∧
    (xmlParseEntityRef 50 c5warnDoc).2.errNo = XmlErr.warUndeclaredEntity ∧
    (xmlParseEntityRef 50 c5warnDoc).2.wellFormed = true ∧
    (xmlParseEntityRef 50 c5warnDoc).2.raised =
      [(Severity.error, XmlErr.warUndeclaredEntity)] := by
  have h := claim_C5_undeclared_entity_split 50 c5warnDoc c5warnMid (bytes "und")
    (by decide) (by decide)
    (by simp [c5warnDoc, c5warnMid, bytes, strXml, strXmlns, strXmlNs, strXmlnsNs, XML_PARSER_NON_LINEAR, XML_PARSER_BIG_ENTITY, XML_PARSER_BIG_BUFFER_SIZE, XML_PARSER_BUFFER_SIZE, XML_PARSER_CHUNK_SIZE, XML_MAX_TEXT_LENGTH, XML_MAX_NAME_LENGTH, XML_MAX_NAMELEN, Ctxt.RAW, Ctxt.NXT, Ctxt.advance, xmlFatalErr, xmlFatalErrMsg, xmlErrMsgStr, xmlWarningMsg, xmlNsErr, xmlNsWarn, xmlValidityError, xmlErrAttributeDup, isBlankCh, isChar, isByteChar, IsLetterASCII, isdec, IS_LETTER, IS_DIGIT, IS_COMBINING, IS_EXTENDER, xmlIsNameStartChar, nameChar11, xmlIsNameChar, nsPush, nsPop, xmlGetNamespace, xmlGetPredefinedEntity, lookupEntity, lookupPEntity, setChecked, curSchar, utf8Encode, copyBuf, skipBlanks, stringNameBigLoop, stringNameSmallLoop, xmlParseStringName, stringCharRefHexLoop, stringCharRefDecLoop, xmlParseStringCharRef, setCheckedRef, XML_SUBSTITUTE_REF, XML_SUBSTITUTE_PEREF, xmlParserEntityCheck, xmlParseStringEntityRef, xmlParseStringPEReference, xmlStringLenDecodeEntities, decodeLoop, appendRep, xmlStringDecodeEntities, charRefHexLoop, charRefDecLoop, xmlParseCharRef, nameAsciiStart, nameAsciiCont, nameStart11, nameComplexLoop11, nameComplexLoopOld, xmlParseNameComplex, xmlParseName, ncnameComplexLoop, xmlParseNCNameComplex, ncnameAsciiStart, ncnameAsciiCont, xmlParseNCName, nmtokenBigLoop, nmtokenSmallLoop, xmlParseNmtoken, xmlBuildQName, xmlParseQName, xmlErrMemory, xmlParseEntityRef, attValueComplexLoop, xmlParseAttValueComplex, attFastScanNorm, attFastCont, xmlParseAttValueInternal, xmlAttrNormalizeSpace, xmlAttrNormalizeSpace2, lookupSpecial, xmlCheckLanguageID, setSpaceTop, xmlParseAttribute2, lastN, lookupDefaults, startTag2AttLoop, startTag2AttTail, startTag2OrdTail, startTag2Defaults, startTag2DupScan, startTag2AttsCheckLoop, xmlParseStartTag2, EntRef.deref, xmlParseAttValueInternal.xmlParseAttValueComplexAlloc, xmlAttrNormalizeSpace.attrNormAlg, xmlAttrNormalizeSpace2.attrNorm2NeedsRealloc, List.takeWhile, List.dropWhile, List.find?, List.getD, List.headD, List.lookup])
    (by decide) (by decide) (by decide) (by decide) (by decide) (by decide)
    (by decide)
  have h4 := h.2.2.2 (by decide)
  exact ⟨h.1, h.2.1, h4.1, h4.2.1, h4.2.2⟩


/-! ## C10: the maximum name length -/

/-- Advancing by zero is the identity. -/
theorem advance_zero (c : Ctxt) : c.advance 0 = c := rfl

/-- The all-ASCII name family of the C10 statement: `m + 1` letters `a`
terminated by `>`. -/
def asciiNameInput (m : Nat) : Str := 97 :: (List.replicate m 97 ++ [0x3E])

/-- The ASCII accelerator consumes the whole letter run. -/
theorem takeWhile_rep_name (m : Nat) :
    (List.replicate m 97 ++ [0x3E]).takeWhile nameAsciiCont = List.replicate m 97 := by
  induction m with
  | zero => simp [List.takeWhile_cons, nameAsciiCont]
  | succ n ih =>
    rw [List.replicate_succ, List.cons_append, List.takeWhile_cons]
    simp only [show nameAsciiCont 97 = true by decide, if_true]
    rw [ih]

/-- The NCName accelerator consumes the whole letter run. -/
theorem takeWhile_rep_ncname (m : Nat) :
    (List.replicate m 97 ++ [0x3E]).takeWhile ncnameAsciiCont = List.replicate m 97 := by
  induction m with
  | zero => simp [List.takeWhile_cons, ncnameAsciiCont]
  | succ n ih =>
    rw [List.replicate_succ, List.cons_append, List.takeWhile_cons]
    simp only [show ncnameAsciiCont 97 = true by decide, if_true]
    rw [ih]

/-- Lookup just past the replicated run hits the terminator. -/
theorem getD_rep_end (m : Nat) (x : Nat) :
    (List.replicate m 97 ++ [x]).getD m 0 = x := by
  induction m with
  | zero => rfl
  | succ n ih => rw [List.replicate_succ, List.cons_append, List.getD_cons_succ]; exact ih

/-- Taking the length of the replicated run yields the run. -/
theorem take_rep (m : Nat) (l : Str) :
    (List.replicate m 97 ++ l).take m = List.replicate m 97 := by
  induction m with
  | zero => rfl
  | succ n ih =>
    rw [List.replicate_succ, List.cons_append, List.take_succ_cons, ih]

/-- Dropping the length of the replicated run leaves the tail. -/
theorem drop_rep (m : Nat) (l : Str) :
    (List.replicate m 97 ++ l).drop m = l := by
  induction m with
  | zero => rfl
  | succ n ih =>
    rw [List.replicate_succ, List.cons_append, List.drop_succ_cons, ih]

/-- The ASCII fast path of `xmlParseName` on the letter family: over-long
names are rejected fatally without the huge option and accepted whole with
it. -/
theorem xmlParseName_fastAscii (m : Nat) (fuel : Nat) (hm : XML_MAX_NAME_LENGTH < m + 1) :
    xmlParseName fuel { input := asciiNameInput m } =
      (none, xmlFatalErr { input := asciiNameInput m } XmlErr.nameTooLong) ∧
    xmlParseName fuel { input := asciiNameInput m, optHuge := true } =
      (some (List.replicate (m + 1) 97),
        ({ input := asciiNameInput m, optHuge := true } : Ctxt).advance (m + 1)) := by
  constructor
  · rw [xmlParseName]
    rw [if_pos (show nameAsciiStart
      (({ input := asciiNameInput m } : Ctxt).NXT 0) = true from rfl)]
    dsimp only [asciiNameInput, Ctxt.NXT, List.drop_succ_cons, List.drop_zero]
    rw [takeWhile_rep_name, List.length_replicate, Nat.add_comm 1 m,
      List.getD_cons_succ, getD_rep_end]
    rw [if_pos (show ((0 : Nat) < 0x3E && (0x3E : Nat) < 0x80) = true from by decide)]
    rw [if_pos]
    simp only [XML_MAX_NAME_LENGTH, gt_iff_lt, Bool.and_eq_true, decide_eq_true_eq,
      Bool.not_eq_true']
    exact ⟨hm, trivial⟩
  · rw [xmlParseName]
    rw [if_pos (show nameAsciiStart
      (({ input := asciiNameInput m, optHuge := true } : Ctxt).NXT 0) = true from rfl)]
    dsimp only [asciiNameInput, Ctxt.NXT, List.drop_succ_cons, List.drop_zero]
    rw [takeWhile_rep_name, List.length_replicate, Nat.add_comm 1 m,
      List.getD_cons_succ, getD_rep_end]
    rw [if_pos (show ((0 : Nat) < 0x3E && (0x3E : Nat) < 0x80) = true from by decide)]
    rw [if_neg]
    · rw [List.take_succ_cons, take_rep, List.replicate_succ]
    · simp

/-- The ASCII fast path of `xmlParseNCName` on the letter family. -/
theorem xmlParseNCName_fastAscii (m : Nat) (fuel : Nat) (hm : XML_MAX_NAME_LENGTH < m + 1) :
    xmlParseNCName fuel { input := asciiNameInput m } =
      (none, xmlFatalErr { input := asciiNameInput m } XmlErr.nameTooLong) ∧
    xmlParseNCName fuel { input := asciiNameInput m, optHuge := true } =
      (some (List.replicate (m + 1) 97),
        ({ input := asciiNameInput m, optHuge := true } : Ctxt).advance (m + 1)) := by
  constructor
  · rw [xmlParseNCName]
    rw [if_pos (show ncnameAsciiStart
      (({ input := asciiNameInput m } : Ctxt).NXT 0) = true from rfl)]
    dsimp only [asciiNameInput, Ctxt.NXT, List.drop_succ_cons, List.drop_zero]
    rw [takeWhile_rep_ncname, List.length_replicate, Nat.add_comm 1 m,
      List.getD_cons_succ, getD_rep_end]
    rw [if_pos (show ((0 : Nat) < 0x3E && (0x3E : Nat) < 0x80) = true from by decide)]
    rw [if_pos]
    simp only [XML_MAX_NAME_LENGTH, gt_iff_lt, Bool.and_eq_true, decide_eq_true_eq,
      Bool.not_eq_true']
    exact ⟨hm, trivial⟩
  · rw [xmlParseNCName]
    rw [if_pos (show ncnameAsciiStart
      (({ input := asciiNameInput m, optHuge := true } : Ctxt).NXT 0) = true from rfl)]
    dsimp only [asciiNameInput, Ctxt.NXT, List.drop_succ_cons, List.drop_zero]
    rw [takeWhile_rep_ncname, List.length_replicate, Nat.add_comm 1 m,
      List.getD_cons_succ, getD_rep_end]
    rw [if_pos (show ((0 : Nat) < 0x3E && (0x3E : Nat) < 0x80) = true from by decide)]
    rw [if_neg]
    · rw [List.take_succ_cons, take_rep, List.replicate_succ]
    · simp

/-- The full-range name family of the C10 statement: `m` repetitions of the
two-byte UTF-8 character U+00E9. -/
def eeName : Nat → Str
  | 0 => []
  | m + 1 => 0xC3 :: 0xA9 :: eeName m

/-- Byte length of the full-range family. -/
theorem eeName_length (m : Nat) : (eeName m).length = 2 * m := by
  induction m with
  | zero => rfl
  | succ n ih =>
    rw [eeName, List.length_cons, List.length_cons, ih]
    omega

/-- The current-rules scanning loop consumes the whole U+00E9 run and stops
at the terminating `>`. -/
theorem nameComplexLoop11_eeName (m : Nat) :
    ∀ (fuel : Nat) (c : Ctxt) (acc : Str), m < fuel →
    c.input = eeName m ++ [0x3E] →
    nameComplexLoop11 fuel c acc = (acc ++ eeName m, c.advance (2 * m)) := by
  induction m with
  | zero =>
    intro fuel c acc hf hin
    rw [nameComplexLoop11, if_neg (by omega : ¬fuel = 0), hin]
    simp only [eeName, List.nil_append]
    rw [show curSchar [0x3E] = (0x3E, 1) from rfl]
    dsimp only
    rw [if_neg (show ¬((0x3E : Nat) != 0x20 && (0x3E : Nat) != 0x3E &&
      (0x3E : Nat) != 0x2F && nameChar11 0x3E) = true from by decide)]
    rw [List.append_nil, advance_zero]
  | succ n ih =>
    intro fuel c acc hf hin
    rw [nameComplexLoop11, if_neg (by omega : ¬fuel = 0), hin]
    simp only [eeName, List.cons_append]
    rw [show curSchar (0xC3 :: 0xA9 :: (eeName n ++ [0x3E])) = (0xE9, 2) from rfl]
    dsimp only
    rw [if_pos (show ((0xE9 : Nat) != 0x20 && (0xE9 : Nat) != 0x3E &&
      (0xE9 : Nat) != 0x2F && nameChar11 0xE9) = true from by decide)]
    have hadv : (c.advance 2).input = eeName n ++ [0x3E] := by
      simp [Ctxt.advance, hin, eeName]
    rw [ih (fuel - 1) (c.advance 2) (acc ++ (0xC3 :: 0xA9 :: (eeName n ++ [0x3E])).take 2)
      (by omega) hadv]
    rw [advance_advance, show (2 + 2 * n) = 2 * (n + 1) from by omega,
      show (0xC3 :: 0xA9 :: (eeName n ++ [0x3E])).take 2 = [0xC3, 0xA9] from rfl,
      List.append_assoc]
    rfl

/-- The full-range fallback of `xmlParseName` on the U+00E9 family: over-long
names are rejected fatally without the huge option and accepted whole with
it. -/
theorem xmlParseName_eeFamily (m fuel : Nat) (hm : XML_MAX_NAME_LENGTH < m + 1)
    (hfuel : m < fuel) :
    xmlParseName fuel { input := eeName (m + 1) ++ [0x3E] } =
      (none, xmlFatalErr
        (({ input := eeName (m + 1) ++ [0x3E] } : Ctxt).advance (2 * (m + 1)))
        XmlErr.nameTooLong) ∧
    xmlParseName fuel { input := eeName (m + 1) ++ [0x3E], optHuge := true } =
      (some (eeName (m + 1)),
        ({ input := eeName (m + 1) ++ [0x3E], optHuge := true } : Ctxt).advance
          (2 * (m + 1))) := by
  have hcur : curSchar (0xC3 :: 0xA9 :: (eeName m ++ [0x3E])) = (0xE9, 2) := rfl
  have hlen : ((0xC3 :: 0xA9 :: (eeName m ++ [0x3E])).take 2 ++ eeName m).length =
      2 * (m + 1) := by
    rw [show (0xC3 :: 0xA9 :: (eeName m ++ [0x3E])).take 2 = [0xC3, 0xA9] from rfl]
    simp [eeName_length]
    omega
  have hgt : 2 * (m + 1) > XML_MAX_NAME_LENGTH := by
    simp only [XML_MAX_NAME_LENGTH] at hm ⊢
    omega
  constructor
  · rw [xmlParseName]
    rw [show nameAsciiStart (({ input := eeName (m + 1) ++ [0x3E] } : Ctxt).NXT 0) =
      false from by rw [show (({ input := eeName (m + 1) ++ [0x3E] } : Ctxt)).NXT 0 =
        0xC3 from by rw [Ctxt.NXT]; simp [eeName]]; decide]
    simp only [Bool.false_eq_true, if_false]
    rw [xmlParseNameComplex]
    dsimp only
    simp only [eeName, List.cons_append]
    simp only [hcur]
    rw [if_pos (show (!false) = true from rfl)]
    rw [if_neg (show ¬((0xE9 : Nat) == 0x20 || (0xE9 : Nat) == 0x3E ||
      (0xE9 : Nat) == 0x2F || !nameStart11 0xE9) = true from by decide)]
    rw [nameComplexLoop11_eeName m fuel _ _ hfuel
      (by simp [Ctxt.advance])]
    rw [advance_advance, show (2 + 2 * m) = 2 * (m + 1) from by omega]
    dsimp only [Ctxt.advance]
    rw [hlen]
    rw [if_pos (show ((2 * (m + 1) > XML_MAX_NAME_LENGTH) && !false) = true from by
      simp only [Bool.and_true, Bool.not_false, decide_eq_true_eq]
      exact hgt)]
  · rw [xmlParseName]
    rw [show nameAsciiStart (({ input := eeName (m + 1) ++ [0x3E], optHuge := true } : Ctxt).NXT 0) = false from by
      rw [show (({ input := eeName (m + 1) ++ [0x3E], optHuge := true } : Ctxt)).NXT 0 = 0xC3 from by
        rw [Ctxt.NXT]; simp [eeName]]
      decide]
    simp only [Bool.false_eq_true, if_false]
    rw [xmlParseNameComplex]
    dsimp only
    simp only [eeName, List.cons_append]
    simp only [hcur]
    rw [if_pos (show (!false) = true from rfl)]
    rw [if_neg (show ¬((0xE9 : Nat) == 0x20 || (0xE9 : Nat) == 0x3E ||
      (0xE9 : Nat) == 0x2F || !nameStart11 0xE9) = true from by decide)]
    rw [nameComplexLoop11_eeName m fuel _ _ hfuel
      (by simp [Ctxt.advance])]
    rw [advance_advance, show (2 + 2 * m) = 2 * (m + 1) from by omega]
    dsimp only [Ctxt.advance]
    rw [hlen]
    rw [if_neg (show ¬((2 * (m + 1) > XML_MAX_NAME_LENGTH) && !true) = true from by
      simp)]
    rfl

/-- `xmlFatalErr` never flips the huge-documents option. -/
theorem xmlFatalErr_optHuge (c : Ctxt) (e : XmlErr) :
    (xmlFatalErr c e).optHuge = c.optHuge := by
  rw [xmlFatalErr]; split <;> rfl

/-- The current-rules name loop never flips the huge-documents option. -/
theorem nameComplexLoop11_optHuge (fuel : Nat) :
    ∀ (c : Ctxt) (acc : Str),
      (nameComplexLoop11 fuel c acc).2.optHuge = c.optHuge := by
  induction fuel with
  | zero => intro c acc; rw [nameComplexLoop11]; simp
  | succ n ih =>
    intro c acc
    rw [nameComplexLoop11]
    simp only [Nat.succ_ne_zero, if_false, Nat.add_one_sub_one]
    split
    · rw [ih]; rfl
    · rfl

/-- The legacy name loop never flips the huge-documents option. -/
theorem nameComplexLoopOld_optHuge (fuel : Nat) :
    ∀ (c : Ctxt) (acc : Str),
      (nameComplexLoopOld fuel c acc).2.optHuge = c.optHuge := by
  induction fuel with
  | zero => intro c acc; rw [nameComplexLoopOld]; simp
  | succ n ih =>
    intro c acc
    rw [nameComplexLoopOld]
    simp only [Nat.succ_ne_zero, if_false, Nat.add_one_sub_one]
    split
    · rw [ih]; rfl
    · rfl

/-- The NCName loop never flips the huge-documents option. -/
theorem ncnameComplexLoop_optHuge (fuel : Nat) :
    ∀ (c : Ctxt) (acc : Str) (k : Nat),
      (ncnameComplexLoop fuel c acc k).2.optHuge = c.optHuge := by
  induction fuel with
  | zero => intro c acc k; rw [ncnameComplexLoop]; simp
  | succ n ih =>
    intro c acc k
    rw [ncnameComplexLoop]
    simp only [Nat.succ_ne_zero, if_false, Nat.add_one_sub_one]
    split
    · split
      · split
        · simp [xmlFatalErr_optHuge]
        · rw [ih]; rfl
      · rw [ih]; rfl
    · rfl

/-- Without the huge option, `xmlParseNameComplex` never delivers a name over
the fixed maximum length. -/
theorem xmlParseNameComplex_cap (fuel : Nat) (c : Ctxt) (nm : Str)
    (hhuge : c.optHuge = false)
    (hres : (xmlParseNameComplex fuel c).1 = some nm) :
    nm.length ≤ XML_MAX_NAME_LENGTH := by
  rw [xmlParseNameComplex] at hres
  dsimp only at hres
  split at hres
  · split at hres
    · simp at hres
    · split at hres
      · simp at hres
      · next hn =>
        obtain rfl : nm = _ := (Option.some.inj hres.symm)
        simp only [Bool.and_eq_true, not_and, Bool.not_eq_true',
          nameComplexLoop11_optHuge] at hn
        by_cases hgt : (nameComplexLoop11 fuel (c.advance (curSchar c.input).2)
            (c.input.take (curSchar c.input).2)).1.length > XML_MAX_NAME_LENGTH
        · exfalso
          have := hn (by simpa using hgt)
          rw [show ∀ (d : Ctxt) (n : Nat), (d.advance n).optHuge = d.optHuge
            from fun d n => rfl] at this
          rw [hhuge] at this
          simp at this
        · omega
  · split at hres
    · simp at hres
    · split at hres
      · simp at hres
      · next hn =>
        obtain rfl : nm = _ := (Option.some.inj hres.symm)
        simp only [Bool.and_eq_true, not_and, Bool.not_eq_true',
          nameComplexLoopOld_optHuge] at hn
        by_cases hgt : (nameComplexLoopOld fuel (c.advance (curSchar c.input).2)
            (c.input.take (curSchar c.input).2)).1.length > XML_MAX_NAME_LENGTH
        · exfalso
          have := hn (by simpa using hgt)
          rw [show ∀ (d : Ctxt) (n : Nat), (d.advance n).optHuge = d.optHuge
            from fun d n => rfl] at this
          rw [hhuge] at this
          simp at this
        · omega

/-- Without the huge option, `xmlParseName` never delivers a name over the
fixed maximum length, on either path. -/
theorem xmlParseName_cap (fuel : Nat) (c : Ctxt) (nm : Str)
    (hhuge : c.optHuge = false)
    (hres : (xmlParseName fuel c).1 = some nm) :
    nm.length ≤ XML_MAX_NAME_LENGTH := by
  rw [xmlParseName] at hres
  split at hres
  · dsimp only at hres
    split at hres
    · split at hres
      · simp at hres
      · next hn =>
        obtain rfl : nm = _ := (Option.some.inj hres.symm)
        simp only [Bool.and_eq_true, not_and, Bool.not_eq_true', hhuge,
          gt_iff_lt, decide_eq_true_eq] at hn
        have hle := List.length_take_le
          (1 + (List.takeWhile nameAsciiCont (c.input.drop 1)).length) c.input
        by_cases hgt : XML_MAX_NAME_LENGTH <
            1 + (List.takeWhile nameAsciiCont (c.input.drop 1)).length
        · exact absurd trivial (hn hgt)
        · omega
    · exact xmlParseNameComplex_cap fuel c nm hhuge hres
  · exact xmlParseNameComplex_cap fuel c nm hhuge hres

/-- Without the huge option, `xmlParseNCNameComplex` never delivers a name
over the fixed maximum length. -/
theorem xmlParseNCNameComplex_cap (fuel : Nat) (c : Ctxt) (nm : Str)
    (hhuge : c.optHuge = false)
    (hres : (xmlParseNCNameComplex fuel c).1 = some nm) :
    nm.length ≤ XML_MAX_NAME_LENGTH := by
  rw [xmlParseNCNameComplex] at hres
  dsimp only at hres
  split at hres
  · simp at hres
  · split at hres
    · simp at hres
    · rename_i v c2 hloop
      split at hres
      · simp at hres
      · next hn =>
        obtain rfl : v = nm := Option.some.inj hres
        simp only [Bool.and_eq_true, not_and, Bool.not_eq_true', gt_iff_lt,
          decide_eq_true_eq] at hn
        by_cases hgt : XML_MAX_NAME_LENGTH < v.length
        · exfalso
          have hfo := ncnameComplexLoop_optHuge fuel c [] 0
          rw [hloop] at hfo
          exact (hn hgt) (hfo.trans hhuge)
        · omega

/-- Without the huge option, `xmlParseNCName` never delivers a name over the
fixed maximum length, on either path. -/
theorem xmlParseNCName_cap (fuel : Nat) (c : Ctxt) (nm : Str)
    (hhuge : c.optHuge = false)
    (hres : (xmlParseNCName fuel c).1 = some nm) :
    nm.length ≤ XML_MAX_NAME_LENGTH := by
  rw [xmlParseNCName] at hres
  split at hres
  · dsimp only at hres
    split at hres
    · split at hres
      · simp at hres
      · next hn =>
        obtain rfl : nm = _ := (Option.some.inj hres.symm)
        simp only [Bool.and_eq_true, not_and, Bool.not_eq_true', hhuge,
          gt_iff_lt, decide_eq_true_eq] at hn
        have hle := List.length_take_le
          (1 + (List.takeWhile ncnameAsciiCont (c.input.drop 1)).length) c.input
        by_cases hgt : XML_MAX_NAME_LENGTH <
            1 + (List.takeWhile ncnameAsciiCont (c.input.drop 1)).length
        · exact absurd trivial (hn hgt)
        · omega
    · exact xmlParseNCNameComplex_cap fuel c nm hhuge hres
  · exact xmlParseNCNameComplex_cap fuel c nm hhuge hres

/-- C10: names beyond the fixed maximum length are rejected with a fatal
NameTooLong diagnostic and no name, on the ASCII fast path of `xmlParseName`
and `xmlParseNCName` (letter family) and on the full-range fallback (U+00E9
family); with the huge-documents option the very same inputs are accepted
whole.  In general, without that option neither parser ever delivers a name
over the maximum length. -/
theorem claim_C10_name_length_cap (m fuel : Nat) (c : Ctxt)
    (hm : XML_MAX_NAME_LENGTH < m + 1) (hfuel : m < fuel) :
    (xmlParseName fuel { input := asciiNameInput m } =
      (none, xmlFatalErr { input := asciiNameInput m } XmlErr.nameTooLong)) ∧
    (xmlParseName fuel { input := asciiNameInput m, optHuge := true } =
      (some (List.replicate (m + 1) 97),
        ({ input := asciiNameInput m, optHuge := true } : Ctxt).advance (m + 1))) ∧
    (xmlParseNCName fuel { input := asciiNameInput m } =
      (none, xmlFatalErr { input := asciiNameInput m } XmlErr.nameTooLong)) ∧
    (xmlParseNCName fuel { input := asciiNameInput m, optHuge := true } =
      (some (List.replicate (m + 1) 97),
        ({ input := asciiNameInput m, optHuge := true } : Ctxt).advance (m + 1))) ∧
    (xmlParseName fuel { input := eeName (m + 1) ++ [0x3E] } =
      (none, xmlFatalErr
        (({ input := eeName (m + 1) ++ [0x3E] } : Ctxt).advance (2 * (m + 1)))
        XmlErr.nameTooLong)) ∧
    (xmlParseName fuel { input := eeName (m + 1) ++ [0x3E], optHuge := true } =
      (some (eeName (m + 1)),
        ({ input := eeName (m + 1) ++ [0x3E], optHuge := true } : Ctxt).advance
          (2 * (m + 1)))) ∧
    (∀ nm, c.optHuge = false → (xmlParseName fuel c).1 = some nm →
      nm.length ≤ XML_MAX_NAME_LENGTH) ∧
    (∀ nm, c.optHuge = false → (xmlParseNCName fuel c).1 = some nm →
      nm.length ≤ XML_MAX_NAME_LENGTH) := by
  have h1 := xmlParseName_fastAscii m fuel hm
  have h2 := xmlParseNCName_fastAscii m fuel hm
  have h3 := xmlParseName_eeFamily m fuel hm hfuel
  exact ⟨h1.1, h1.2, h2.1, h2.2, h3.1, h3.2,
    fun nm hh hr => xmlParseName_cap fuel c nm hh hr,
    fun nm hh hr => xmlParseNCName_cap fuel c nm hh hr⟩

/-- Closed instance of C10 at a name of 50001 letters: fatal rejection
without the huge option, and whole acceptance (both families) with it. -/
theorem claim_C10_name_length_cap_witness :
    (xmlParseName 50001 { input := asciiNameInput 50000 } =
      (none, xmlFatalErr { input := asciiNameInput 50000 } XmlErr.nameTooLong)) ∧
    (xmlParseName 50001 { input := asciiNameInput 50000, optHuge := true } =
      (some (List.replicate 50001 97),
        ({ input := asciiNameInput 50000, optHuge := true } : Ctxt).advance 50001)) ∧
    (xmlParseName 50001 { input := eeName 50001 ++ [0x3E] } =
      (none, xmlFatalErr
        (({ input := eeName 50001 ++ [0x3E] } : Ctxt).advance 100002)
        XmlErr.nameTooLong)) := by
  have h := claim_C10_name_length_cap 50000 50001 { } (by decide) (by decide)
  exact ⟨h.1, h.2.1, h.2.2.2.2.1⟩


/-! ## C8: the ASCII name accelerator -/

/-- The ASCII continuation set is confined to ASCII. -/
theorem asciiContLt (b : Nat) (h : nameAsciiCont b = true) : b < 128 := by
  simp only [nameAsciiCont, Bool.or_eq_true, Bool.and_eq_true,
    decide_eq_true_eq, beq_iff_eq] at h
  omega

/-- The ASCII start set is confined to ASCII. -/
theorem asciiStartLt (b : Nat) (h : nameAsciiStart b = true) : b < 128 := by
  simp only [nameAsciiStart, Bool.or_eq_true, Bool.and_eq_true,
    decide_eq_true_eq, beq_iff_eq] at h
  omega

/-- Every byte of the ASCII continuation set passes the full-range loop
test. -/
theorem asciiContGo : ∀ b : Nat, b < 128 → nameAsciiCont b = true →
    (b != 0x20 && b != 0x3E && b != 0x2F && nameChar11 b) = true := by decide

/-- Every byte of the ASCII start set passes the full-range start test. -/
theorem asciiStartGo : ∀ b : Nat, b < 128 → nameAsciiStart b = true →
    (b == 0x20 || b == 0x3E || b == 0x2F || !nameStart11 b) = false := by decide

/-- An ASCII byte outside the continuation set stops the full-range loop. -/
theorem asciiStop : ∀ t : Nat, t < 128 → nameAsciiCont t = false →
    (t != 0x20 && t != 0x3E && t != 0x2F && nameChar11 t) = false := by decide

/-- Taking a prefix by predicate does not lengthen a list. -/
theorem takeWhileLenLe (p : Nat → Bool) (l : Str) :
    (l.takeWhile p).length ≤ l.length := by
  induction l with
  | nil => simp
  | cons a t ih =>
    rw [List.takeWhile_cons]
    split
    · simpa using Nat.succ_le_succ ih
    · simp

/-- Lookup at the length of the left part hits the right part. -/
theorem getD_at_len (l1 l2 : Str) : (l1 ++ l2).getD l1.length 0 = l2.headD 0 := by
  induction l1 with
  | nil => cases l2 <;> rfl
  | cons a t ih => simp only [List.cons_append, List.length_cons,
      List.getD_cons_succ]; exact ih

/-- Taking the length of the left part yields the left part. -/
theorem take_at_len (l1 l2 : Str) : (l1 ++ l2).take l1.length = l1 := by
  induction l1 with
  | nil => rfl
  | cons a t ih =>
    simp only [List.cons_append, List.length_cons, List.take_succ_cons, ih]

/-- The head of the dropped suffix fails the predicate. -/
theorem headDropWhileFalse (p : Nat → Bool) :
    ∀ (l : Str) (b : Nat) (l2 : Str), l.dropWhile p = b :: l2 → p b = false := by
  intro l
  induction l with
  | nil => intro b l2 h; simp at h
  | cons a t ih =>
    intro b l2 h
    rw [List.dropWhile_cons] at h
    by_cases hp : p a = true
    · rw [if_pos hp] at h; exact ih b l2 h
    · rw [if_neg hp] at h
      obtain ⟨rfl, _⟩ := List.cons.inj h
      exact Bool.not_eq_true _ ▸ hp

/-- On a run of ASCII continuation bytes ended by a stopping ASCII byte, the
full-range scanning loop consumes exactly the run. -/
theorem nameComplexLoop11_asciiRun (run : Str) :
    ∀ (fuel : Nat) (c : Ctxt) (acc : Str) (t : Nat) (rest : Str),
      run.length < fuel →
      c.input = run ++ t :: rest →
      (∀ b ∈ run, nameAsciiCont b = true) →
      0 < t → t < 0x80 → nameAsciiCont t = false →
      nameComplexLoop11 fuel c acc = (acc ++ run, c.advance run.length) := by
  induction run with
  | nil =>
    intro fuel c acc t rest hf hin hrun ht0 ht1 htn
    rw [nameComplexLoop11, if_neg (by omega : ¬fuel = 0), hin]
    rw [show curSchar ([] ++ t :: rest) = (t, 1) from by
      simp only [List.nil_append, curSchar, ht1, if_pos]]
    dsimp only
    rw [if_neg (by simp [asciiStop t ht1 htn])]
    rw [List.append_nil]
    rw [show ([] : Str).length = 0 from rfl, advance_zero]
  | cons b run' ih =>
    intro fuel c acc t rest hf hin hrun ht0 ht1 htn
    have hb : nameAsciiCont b = true := hrun b (List.mem_cons_self b run')
    have hblt : b < 128 := asciiContLt b hb
    rw [nameComplexLoop11, if_neg (by omega : ¬fuel = 0), hin]
    rw [show curSchar ((b :: run') ++ t :: rest) = (b, 1) from by
      simp [curSchar, hblt]]
    dsimp only
    rw [if_pos (by rw [asciiContGo b hblt hb])]
    rw [show ((b :: run') ++ t :: rest).take 1 = [b] from rfl]
    rw [ih (fuel - 1) (c.advance 1) (acc ++ [b]) t rest (by
        simp only [List.length_cons] at hf; omega)
      (by simp [Ctxt.advance, hin])
      (fun x hx => hrun x (List.mem_cons_of_mem b hx)) ht0 ht1 htn]
    rw [advance_advance, List.append_assoc, Nat.add_comm 1 run'.length]
    rfl

/-- C8: whenever `xmlParseName` is run under the current rule table (with
enough fuel for the input), the inline ASCII accelerator and the full-range
fallback `xmlParseNameComplex` agree: the same accept/reject decision, and on
acceptance the same name (first components equal) and the same bytes consumed
(remaining input and consumed count equal). -/
theorem claim_C8_name_fastpath_agreement (fuel : Nat) (c : Ctxt)
    (hold : c.optOld10 = false) (hfuel : c.input.length < fuel) :
    ((xmlParseName fuel c).1 = (xmlParseNameComplex fuel c).1) ∧
    ((xmlParseName fuel c).1 ≠ none →
      (xmlParseName fuel c).2.input = (xmlParseNameComplex fuel c).2.input ∧
      (xmlParseName fuel c).2.consumedTotal =
        (xmlParseNameComplex fuel c).2.consumedTotal) := by
  rw [xmlParseName]
  by_cases hstart : nameAsciiStart (c.NXT 0) = true
  case neg =>
    rw [if_neg hstart]
    exact ⟨rfl, fun _ => ⟨rfl, rfl⟩⟩
  case pos =>
    rw [if_pos hstart]
    dsimp only
    by_cases hterm : (decide (0 < c.NXT (1 + (List.takeWhile nameAsciiCont
        (c.input.drop 1)).length)) && decide (c.NXT (1 + (List.takeWhile nameAsciiCont
        (c.input.drop 1)).length) < 128)) = true
    case neg =>
      rw [if_neg hterm]
      exact ⟨rfl, fun _ => ⟨rfl, rfl⟩⟩
    case pos =>
      rw [if_pos hterm]
      obtain ⟨b0, rest, hin⟩ : ∃ b0 rest, c.input = b0 :: rest := by
        cases hc : c.input with
        | nil =>
          exfalso
          rw [Ctxt.NXT, hc] at hstart
          simp [nameAsciiStart] at hstart
        | cons x xs => exact ⟨x, xs, rfl⟩
      have hb0 : nameAsciiStart b0 = true := by
        rw [Ctxt.NXT, hin] at hstart
        exact hstart
      have hb0lt : b0 < 128 := asciiStartLt b0 hb0
      have hdrop : c.input.drop 1 = rest := by rw [hin]; rfl
      set tw := rest.takeWhile nameAsciiCont with htw
      set dw := rest.dropWhile nameAsciiCont with hdw
      have hsplit : rest = tw ++ dw := (List.takeWhile_append_dropWhile _ _).symm
      have hterml : c.NXT (1 + tw.length) = dw.headD 0 := by
        rw [Ctxt.NXT, hin, Nat.add_comm 1 tw.length, List.getD_cons_succ]
        rw [hsplit]
        exact getD_at_len tw dw
      simp only [hdrop, ← htw] at hterm
      rw [hterml] at hterm
      simp only [Bool.and_eq_true, decide_eq_true_eq] at hterm
      obtain ⟨t, dw2, hdwc⟩ : ∃ t dw2, dw = t :: dw2 := by
        cases hd : dw with
        | nil => exfalso; rw [hd] at hterm; simp at hterm
        | cons x xs => exact ⟨x, xs, rfl⟩
      have ht0 : 0 < t := by rw [hdwc] at hterm; exact hterm.1
      have ht1 : t < 128 := by rw [hdwc] at hterm; exact hterm.2
      have htn : nameAsciiCont t = false := headDropWhileFalse _ rest t dw2 (hdw ▸ hdwc)
      rw [xmlParseNameComplex]
      dsimp only
      rw [show curSchar c.input = (b0, 1) from by rw [hin]; simp [curSchar, hb0lt]]
      dsimp only
      rw [if_pos (show (!c.optOld10) = true from by rw [hold]; rfl)]
      rw [if_neg (show ¬(b0 == 0x20 || b0 == 0x3E || b0 == 0x2F ||
        !nameStart11 b0) = true from by rw [asciiStartGo b0 hb0lt hb0]; simp)]
      rw [show c.input.take 1 = [b0] from by rw [hin]; rfl]
      rw [nameComplexLoop11_asciiRun tw fuel (c.advance 1) [b0] t dw2
        (by
          have h1 : tw.length ≤ rest.length := htw ▸ takeWhileLenLe nameAsciiCont rest
          rw [hin] at hfuel
          simp only [List.length_cons] at hfuel
          omega)
        (by simp [Ctxt.advance, hin, hsplit, hdwc])
        (fun x hx => List.mem_takeWhile_imp hx) ht0 ht1 htn]
      rw [advance_advance]
      dsimp only
      simp only [hdrop, ← htw]
      by_cases hlong : (decide (1 + tw.length > XML_MAX_NAME_LENGTH) &&
          !c.optHuge) = true
      case pos =>
        rw [if_pos hlong]
        rw [if_pos (show (decide (([b0] ++ tw).length > XML_MAX_NAME_LENGTH) &&
          !(c.advance (1 + tw.length)).optHuge) = true from by
            simpa [List.length_append, Nat.add_comm] using hlong)]
        exact ⟨rfl, fun h => absurd rfl h⟩
      case neg =>
        rw [if_neg hlong]
        rw [if_neg (show ¬(decide (([b0] ++ tw).length > XML_MAX_NAME_LENGTH) &&
          !(c.advance (1 + tw.length)).optHuge) = true from by
            simpa [List.length_append, Nat.add_comm] using hlong)]
        rw [show c.input.take (1 + tw.length) = [b0] ++ tw from by
          rw [hin, Nat.add_comm 1 tw.length, List.take_succ_cons,
            show rest.take tw.length = (tw ++ dw).take tw.length from by
              rw [← hsplit],
            take_at_len]
          rfl]
        exact ⟨rfl, fun _ => ⟨rfl, rfl⟩⟩

set_option maxHeartbeats 1000000 in
/-- Closed instance of C8 at the input `abc>`. -/
theorem claim_C8_name_fastpath_agreement_witness :
    (xmlParseName 10 { input := bytes "abc>" }).1 =
      (xmlParseNameComplex 10 { input := bytes "abc>" }).1 ∧
    (xmlParseName 10 { input := bytes "abc>" }).2.input =
      (xmlParseNameComplex 10 { input := bytes "abc>" }).2.input := by
  have h := claim_C8_name_fastpath_agreement 10 { input := bytes "abc>" }
    (by decide) (by decide)
  refine ⟨h.1, (h.2 ?_).1⟩
  simp [bytes, strXml, strXmlns, strXmlNs, strXmlnsNs, XML_PARSER_NON_LINEAR, XML_PARSER_BIG_ENTITY, XML_PARSER_BIG_BUFFER_SIZE, XML_PARSER_BUFFER_SIZE, XML_PARSER_CHUNK_SIZE, XML_MAX_TEXT_LENGTH, XML_MAX_NAME_LENGTH, XML_MAX_NAMELEN, Ctxt.RAW, Ctxt.NXT, Ctxt.advance, xmlFatalErr, xmlFatalErrMsg, xmlErrMsgStr, xmlWarningMsg, xmlNsErr, xmlNsWarn, xmlValidityError, xmlErrAttributeDup, isBlankCh, isChar, isByteChar, IsLetterASCII, isdec, IS_LETTER, IS_DIGIT, IS_COMBINING, IS_EXTENDER, xmlIsNameStartChar, nameChar11, xmlIsNameChar, nsPush, nsPop, xmlGetNamespace, xmlGetPredefinedEntity, lookupEntity, lookupPEntity, setChecked, curSchar, utf8Encode, copyBuf, skipBlanks, stringNameBigLoop, stringNameSmallLoop, xmlParseStringName, stringCharRefHexLoop, stringCharRefDecLoop, xmlParseStringCharRef, setCheckedRef, XML_SUBSTITUTE_REF, XML_SUBSTITUTE_PEREF, xmlParserEntityCheck, xmlParseStringEntityRef, xmlParseStringPEReference, xmlStringLenDecodeEntities, decodeLoop, appendRep, xmlStringDecodeEntities, charRefHexLoop, charRefDecLoop, xmlParseCharRef, nameAsciiStart, nameAsciiCont, nameStart11, nameComplexLoop11, nameComplexLoopOld, xmlParseNameComplex, xmlParseName, ncnameComplexLoop, xmlParseNCNameComplex, ncnameAsciiStart, ncnameAsciiCont, xmlParseNCName, nmtokenBigLoop, nmtokenSmallLoop, xmlParseNmtoken, xmlBuildQName, xmlParseQName, xmlErrMemory, xmlParseEntityRef, attValueComplexLoop, xmlParseAttValueComplex, attFastScanNorm, attFastCont, xmlParseAttValueInternal, xmlAttrNormalizeSpace, xmlAttrNormalizeSpace2, lookupSpecial, xmlCheckLanguageID, setSpaceTop, xmlParseAttribute2, lastN, lookupDefaults, startTag2AttLoop, startTag2AttTail, startTag2OrdTail, startTag2Defaults, startTag2DupScan, startTag2AttsCheckLoop, xmlParseStartTag2, EntRef.deref, xmlParseAttValueInternal.xmlParseAttValueComplexAlloc, xmlAttrNormalizeSpace.attrNormAlg, xmlAttrNormalizeSpace2.attrNorm2NeedsRealloc, List.takeWhile, List.dropWhile, List.find?, List.getD, List.headD, List.lookup]


/-! ## C1: the amplification guard's policy

`keepsGauge` records that a computation leaves the guard's gauge (total bytes
consumed, accumulated entity size, parser state) untouched; the mutual
induction `mutualGauge` proves it for the whole entity-decoding family, so
the "total bytes consumed so far" read by the guard after its cache prepass
is the caller's. -/

def keepsGauge (a b : Ctxt) : Prop :=
  b.consumedTotal = a.consumedTotal ∧ b.sizeentities = a.sizeentities ∧
    b.instate = a.instate

theorem keepsGauge_refl (a : Ctxt) : keepsGauge a a := ⟨rfl, rfl, rfl⟩

theorem keepsGauge_trans {a b c : Ctxt} (h1 : keepsGauge a b)
    (h2 : keepsGauge b c) : keepsGauge a c :=
  ⟨h2.1.trans h1.1, h2.2.1.trans h1.2.1, h2.2.2.trans h1.2.2⟩

theorem xmlFatalErr_gauge (c : Ctxt) (e : XmlErr) :
    keepsGauge c (xmlFatalErr c e) := by
  rw [xmlFatalErr]; split <;> exact ⟨rfl, rfl, rfl⟩

theorem xmlErrMsgStr_gauge (c : Ctxt) (e : XmlErr) :
    keepsGauge c (xmlErrMsgStr c e) := by
  rw [xmlErrMsgStr]; split <;> exact ⟨rfl, rfl, rfl⟩

theorem xmlWarningMsg_gauge (c : Ctxt) (e : XmlErr) :
    keepsGauge c (xmlWarningMsg c e) := by
  rw [xmlWarningMsg]; split <;> exact ⟨rfl, rfl, rfl⟩

theorem setChecked_gauge (c : Ctxt) (n : Str) (v : Nat) :
    keepsGauge c (setChecked c n v) := ⟨rfl, rfl, rfl⟩

theorem setCheckedRef_gauge (c : Ctxt) (er : EntRef) (v : Nat) :
    keepsGauge c (setCheckedRef c er v) := by
  cases er <;> exact ⟨rfl, rfl, rfl⟩

theorem stringNameBigLoop_gauge (fuel : Nat) :
    ∀ (c : Ctxt) (cur buf : Str) (mx : Nat),
      keepsGauge c (stringNameBigLoop fuel c cur buf mx).2.2 := by
  induction fuel with
  | zero => intro c cur buf mx; rw [stringNameBigLoop]; exact ⟨rfl, rfl, rfl⟩
  | succ n ih =>
    intro c cur buf mx
    rw [stringNameBigLoop]
    simp only [Nat.succ_ne_zero, if_false, Nat.add_one_sub_one]
    split
    · split
      · split
        · exact xmlFatalErr_gauge c _
        · exact ih c _ _ _
      · exact ih c _ _ _
    · exact ⟨rfl, rfl, rfl⟩

theorem stringNameSmallLoop_gauge (fuel : Nat) :
    ∀ (c : Ctxt) (cur buf : Str),
      keepsGauge c (stringNameSmallLoop fuel c cur buf).2.2 := by
  induction fuel with
  | zero => intro c cur buf; rw [stringNameSmallLoop]; exact ⟨rfl, rfl, rfl⟩
  | succ n ih =>
    intro c cur buf
    rw [stringNameSmallLoop]
    simp only [Nat.succ_ne_zero, if_false, Nat.add_one_sub_one]
    split
    · split
      · split
        · next heq =>
          have hb := stringNameBigLoop_gauge n c (cur.drop (curSchar cur).2)
            (copyBuf (curSchar cur).2 buf (curSchar cur).1)
            ((copyBuf (curSchar cur).2 buf (curSchar cur).1).length * 2)
          rw [heq] at hb
          exact hb
        · next heq =>
          have hb := stringNameBigLoop_gauge n c (cur.drop (curSchar cur).2)
            (copyBuf (curSchar cur).2 buf (curSchar cur).1)
            ((copyBuf (curSchar cur).2 buf (curSchar cur).1).length * 2)
          rw [heq] at hb
          exact hb
      · exact ih c _ _
    · exact ⟨rfl, rfl, rfl⟩

theorem xmlParseStringName_gauge (fuel : Nat) (c : Ctxt) (s : Str) :
    keepsGauge c (xmlParseStringName fuel c s).2.2 := by
  rw [xmlParseStringName]
  dsimp only
  split
  · exact ⟨rfl, rfl, rfl⟩
  · split
    · next heq =>
      have hs := stringNameSmallLoop_gauge (fuel - 1) c (s.drop (curSchar s).2)
        (copyBuf (curSchar s).2 [] (curSchar s).1)
      rw [heq] at hs
      split
      · exact hs
      · split
        · exact keepsGauge_trans hs (xmlFatalErr_gauge _ _)
        · exact hs
    · next heq =>
      have hs := stringNameSmallLoop_gauge (fuel - 1) c (s.drop (curSchar s).2)
        (copyBuf (curSchar s).2 [] (curSchar s).1)
      rw [heq] at hs
      exact hs

theorem stringCharRefHexLoop_gauge (fuel : Nat) :
    ∀ (c : Ctxt) (s : Str) (val orng : Nat),
      keepsGauge c (stringCharRefHexLoop fuel c s val orng).2.2.2 := by
  induction fuel with
  | zero => intro c s v o; rw [stringCharRefHexLoop]; exact ⟨rfl, rfl, rfl⟩
  | succ n ih =>
    intro c s v o
    rw [stringCharRefHexLoop]
    simp only [Nat.succ_ne_zero, if_false, Nat.add_one_sub_one]
    split
    · exact ⟨rfl, rfl, rfl⟩
    · split
      · exact xmlFatalErr_gauge c _
      · exact ih c _ _ _

theorem stringCharRefDecLoop_gauge (fuel : Nat) :
    ∀ (c : Ctxt) (s : Str) (val orng : Nat),
      keepsGauge c (stringCharRefDecLoop fuel c s val orng).2.2.2 := by
  induction fuel with
  | zero => intro c s v o; rw [stringCharRefDecLoop]; exact ⟨rfl, rfl, rfl⟩
  | succ n ih =>
    intro c s v o
    rw [stringCharRefDecLoop]
    simp only [Nat.succ_ne_zero, if_false, Nat.add_one_sub_one]
    split
    · exact ⟨rfl, rfl, rfl⟩
    · split
      · exact ih c _ _ _
      · exact xmlFatalErr_gauge c _

theorem xmlParseStringCharRef_gauge (fuel : Nat) (c : Ctxt) (s : Str) :
    keepsGauge c (xmlParseStringCharRef fuel c s).2.2 := by
  rw [xmlParseStringCharRef]
  dsimp only
  split
  · next heq =>
    rcases hx : stringCharRefHexLoop (fuel - 1) c (s.drop 3) 0 0 with ⟨v, o, s2, c2⟩
    have hg := stringCharRefHexLoop_gauge (fuel - 1) c (s.drop 3) 0 0
    rw [hx] at hg
    dsimp only
    split
    · exact hg
    · exact keepsGauge_trans hg (xmlFatalErr_gauge _ _)
  · split
    · rcases hx : stringCharRefDecLoop (fuel - 1) c (s.drop 2) 0 0 with ⟨v, o, s2, c2⟩
      have hg := stringCharRefDecLoop_gauge (fuel - 1) c (s.drop 2) 0 0
      rw [hx] at hg
      dsimp only
      split
      · exact hg
      · exact keepsGauge_trans hg (xmlFatalErr_gauge _ _)
    · exact xmlFatalErr_gauge c _

set_option maxHeartbeats 2000000 in
theorem mutualGauge :
    ∀ fuel : Nat,
      (∀ (c : Ctxt) (size : Nat) (ent : Option EntRef) (repl : Nat),
        keepsGauge c (xmlParserEntityCheck fuel c size ent repl).2) ∧
      (∀ (c : Ctxt) (s : Str),
        keepsGauge c (xmlParseStringEntityRef fuel c s).2.2) ∧
      (∀ (c : Ctxt) (s : Str),
        keepsGauge c (xmlParseStringPEReference fuel c s).2.2) ∧
      (∀ (c : Ctxt) (str : Str) (len w e1 e2 e3 : Nat),
        keepsGauge c (xmlStringLenDecodeEntities fuel c str len w e1 e2 e3).2) ∧
      (∀ (c : Ctxt) (s buf : Str) (bs w e1 e2 e3 : Nat),
        keepsGauge c (decodeLoop fuel c s buf bs w e1 e2 e3).2) ∧
      (∀ (c : Ctxt) (er : EntRef) (rep buf : Str) (bs : Nat),
        keepsGauge c (appendRep fuel c er rep buf bs).2) := by
  intro fuel
  induction fuel using Nat.strong_induction_on with
  | _ fuel ih =>
  by_cases hf : fuel = 0
  · subst hf
    refine ⟨?_, ?_, ?_, ?_, ?_, ?_⟩
    · intro c size ent repl
      rw [xmlParserEntityCheck.eq_def]
      exact ⟨rfl, rfl, rfl⟩
    · intro c s
      rw [xmlParseStringEntityRef]
      exact ⟨rfl, rfl, rfl⟩
    · intro c s
      rw [xmlParseStringPEReference]
      exact ⟨rfl, rfl, rfl⟩
    · intro c str len w e1 e2 e3
      rw [xmlStringLenDecodeEntities]
      exact ⟨rfl, rfl, rfl⟩
    · intro c s buf bs w e1 e2 e3
      rw [decodeLoop]
      exact ⟨rfl, rfl, rfl⟩
    · intro c er rep buf bs
      rw [appendRep.eq_def]
      exact ⟨rfl, rfl, rfl⟩
  · have hlt : fuel - 1 < fuel := Nat.sub_lt (Nat.pos_of_ne_zero hf) Nat.one_pos
    refine ⟨?_, ?_, ?_, ?_, ?_, ?_⟩
    · intro c size ent repl
      rw [xmlParserEntityCheck.eq_def, if_neg hf]
      split
      · exact keepsGauge_refl c
      · split
        · exact keepsGauge_refl c
        · repeat
            first
            | exact keepsGauge_refl c
            | exact xmlFatalErr_gauge c _
            | exact keepsGauge_trans (keepsGauge_trans (keepsGauge_trans
                (setCheckedRef_gauge c _ 1)
                ((ih (fuel - 1) hlt).2.2.2.1 _ _ _ _ _ _ _))
                (setCheckedRef_gauge _ _ _)) (xmlFatalErr_gauge _ _)
            | exact keepsGauge_trans (keepsGauge_trans (setCheckedRef_gauge c _ 1)
                ((ih (fuel - 1) hlt).2.2.2.1 _ _ _ _ _ _ _)) (setCheckedRef_gauge _ _ _)
            | split
            | dsimp only
    · intro c s
      rw [xmlParseStringEntityRef.eq_def, if_neg hf]
      split
      · exact keepsGauge_refl c
      · dsimp only
        rcases hsn : xmlParseStringName (fuel - 1) c (s.drop 1) with ⟨r, p2, c2⟩
        have hg : keepsGauge c c2 := by
          have h := xmlParseStringName_gauge (fuel - 1) c (s.drop 1)
          rw [hsn] at h
          exact h
        rcases r with _ | name
        · exact keepsGauge_trans hg (xmlFatalErr_gauge _ _)
        · have hg1 : keepsGauge c { c2 with nbentities := c2.nbentities + 1 } := hg
          repeat
            first
            | exact hg
            | exact keepsGauge_trans hg (xmlFatalErr_gauge _ _)
            | exact keepsGauge_trans hg1 (xmlFatalErr_gauge _ _)
            | exact keepsGauge_trans (keepsGauge_trans hg1 (xmlFatalErr_gauge _ _))
                ((ih (fuel - 1) hlt).1 _ _ _ _)
            | exact keepsGauge_trans (keepsGauge_trans hg1 (xmlErrMsgStr_gauge _ _))
                ((ih (fuel - 1) hlt).1 _ _ _ _)
            | dsimp only
            | split
    · intro c s
      rw [xmlParseStringPEReference.eq_def, if_neg hf]
      split
      · exact keepsGauge_refl c
      · dsimp only
        rcases hsn : xmlParseStringName (fuel - 1) c (s.drop 1) with ⟨r, p2, c2⟩
        have hg : keepsGauge c c2 := by
          have h := xmlParseStringName_gauge (fuel - 1) c (s.drop 1)
          rw [hsn] at h
          exact h
        rcases r with _ | name
        · exact keepsGauge_trans hg (xmlFatalErr_gauge _ _)
        · have hg1 : keepsGauge c { c2 with nbentities := c2.nbentities + 1 } := hg
          have hgw := keepsGauge_trans hg1
            (xmlWarningMsg_gauge { c2 with nbentities := c2.nbentities + 1 }
              XmlErr.warUndeclaredEntity)
          have hgv : keepsGauge c
              { xmlWarningMsg { c2 with nbentities := c2.nbentities + 1 }
                  XmlErr.warUndeclaredEntity with valid := false } := hgw
          repeat
            first
            | exact hg
            | exact keepsGauge_trans hg (xmlFatalErr_gauge _ _)
            | exact hgw
            | exact keepsGauge_trans hg1 (xmlWarningMsg_gauge _ _)
            | exact keepsGauge_trans hgv ((ih (fuel - 1) hlt).1 _ _ _ _)
            | exact keepsGauge_trans (keepsGauge_trans hg1 (xmlFatalErr_gauge _ _))
                ((ih (fuel - 1) hlt).1 _ _ _ _)
            | dsimp only
            | split
    · intro c str len w e1 e2 e3
      rw [xmlStringLenDecodeEntities, if_neg hf]
      split
      · exact xmlFatalErr_gauge c _
      · exact (ih (fuel - 1) hlt).2.2.2.2.1 c _ _ _ _ _ _ _
    · intro c s buf bs w e1 e2 e3
      rw [decodeLoop.eq_def, if_neg hf]
      split
      rename_i ch l hcl
      split
      · exact keepsGauge_refl c
      · split
        · rcases hcr : xmlParseStringCharRef (fuel - 1) c s with ⟨v, s2, c2⟩
          have hg : keepsGauge c c2 := by
            have h := xmlParseStringCharRef_gauge (fuel - 1) c s
            rw [hcr] at h
            exact h
          dsimp only
          exact keepsGauge_trans hg ((ih (fuel - 1) hlt).2.2.2.2.1 _ _ _ _ _ _ _ _)
        · split
          · rcases her : xmlParseStringEntityRef (fuel - 1) c s with ⟨ent, s2, c2⟩
            have hg2 : keepsGauge c c2 := by
              have h := (ih (fuel - 1) hlt).2.1 c s
              rw [her] at h
              exact h
            dsimp only
            split
            · exact hg2
            · rcases hec : xmlParserEntityCheck (fuel - 1) c2 0 ent 0 with ⟨r2, c3⟩
              have hg3 : keepsGauge c c3 := by
                have h := keepsGauge_trans hg2 ((ih (fuel - 1) hlt).1 c2 0 ent 0)
                rw [hec] at h
                exact h
              dsimp only
              rcases ent with _ | er
              · dsimp only
                exact keepsGauge_trans hg3 ((ih (fuel - 1) hlt).2.2.2.2.1 _ _ _ _ _ _ _ _)
              · dsimp only
                rcases hd : EntRef.deref c3 er with _ | ed
                · generalize hnb : c3.nbentities + 0 / 2 = nbv
                  set m3 : Ctxt := { c3 with nbentities := nbv } with hm3
                  have hg3m : keepsGauge c m3 := hg3
                  dsimp only [Option.bind]
                  rcases hbind : (EntRef.deref m3 er).map (fun e => (er, e)) with _ | ⟨er2, ev⟩
                  · exact keepsGauge_trans hg3m ((ih (fuel - 1) hlt).2.2.2.2.1 _ _ _ _ _ _ _ _)
                  · dsimp only
                    split
                    · rcases hct : ev.content with _ | content
                      · refine keepsGauge_trans ?_ ((ih (fuel - 1) hlt).2.2.2.2.1 _ _ _ _ _ _ _ _)
                        refine keepsGauge_trans ?_ (xmlFatalErr_gauge _ _)
                        exact hg3m
                      · exact keepsGauge_trans hg3m ((ih (fuel - 1) hlt).2.2.2.2.1 _ _ _ _ _ _ _ _)
                    · rcases hct : ev.content with _ | content
                      · exact keepsGauge_trans hg3m ((ih (fuel - 1) hlt).2.2.2.2.1 _ _ _ _ _ _ _ _)
                      · dsimp only
                        rcases hdec : xmlStringLenDecodeEntities (fuel - 1)
                            { c3 with nbentities := nbv, depth := c3.depth + 1 } content content.length w 0 0 0
                          with ⟨rep, c5⟩
                        have hg5 : keepsGauge c c5 := by
                          have h := keepsGauge_trans
                            (show keepsGauge c { c3 with nbentities := nbv, depth := c3.depth + 1 } from hg3)
                            ((ih (fuel - 1) hlt).2.2.2.1 { c3 with nbentities := nbv, depth := c3.depth + 1 }
                              content content.length w 0 0 0)
                          rw [hdec] at h
                          exact h
                        dsimp only
                        rcases rep with _ | r
                        · refine keepsGauge_trans ?_ ((ih (fuel - 1) hlt).2.2.2.2.1 _ _ _ _ _ _ _ _)
                          exact hg5
                        · dsimp only
                          rcases hap : appendRep (fuel - 1) { c5 with depth := c5.depth - 1 }
                              er2 r buf bs with ⟨ares, c7⟩
                          have hg7 : keepsGauge c c7 := by
                            have h := keepsGauge_trans
                              (show keepsGauge c { c5 with depth := c5.depth - 1 } from hg5)
                              ((ih (fuel - 1) hlt).2.2.2.2.2 { c5 with depth := c5.depth - 1 }
                                er2 r buf bs)
                            rw [hap] at h
                            exact h
                          rcases ares with _ | ⟨buf2, bs2⟩
                          · exact hg7
                          · dsimp only
                            exact keepsGauge_trans hg7 ((ih (fuel - 1) hlt).2.2.2.2.1 _ _ _ _ _ _ _ _)
                · generalize hnb : c3.nbentities + ed.checked / 2 = nbv
                  set m3 : Ctxt := { c3 with nbentities := nbv } with hm3
                  have hg3m : keepsGauge c m3 := hg3
                  dsimp only [Option.bind]
                  rcases hbind : (EntRef.deref m3 er).map (fun e => (er, e)) with _ | ⟨er2, ev⟩
                  · exact keepsGauge_trans hg3m ((ih (fuel - 1) hlt).2.2.2.2.1 _ _ _ _ _ _ _ _)
                  · dsimp only
                    split
                    · rcases hct : ev.content with _ | content
                      · refine keepsGauge_trans ?_ ((ih (fuel - 1) hlt).2.2.2.2.1 _ _ _ _ _ _ _ _)
                        refine keepsGauge_trans ?_ (xmlFatalErr_gauge _ _)
                        exact hg3m
                      · exact keepsGauge_trans hg3m ((ih (fuel - 1) hlt).2.2.2.2.1 _ _ _ _ _ _ _ _)
                    · rcases hct : ev.content with _ | content
                      · exact keepsGauge_trans hg3m ((ih (fuel - 1) hlt).2.2.2.2.1 _ _ _ _ _ _ _ _)
                      · dsimp only
                        rcases hdec : xmlStringLenDecodeEntities (fuel - 1)
                            { c3 with nbentities := nbv, depth := c3.depth + 1 } content content.length w 0 0 0
                          with ⟨rep, c5⟩
                        have hg5 : keepsGauge c c5 := by
                          have h := keepsGauge_trans
                            (show keepsGauge c { c3 with nbentities := nbv, depth := c3.depth + 1 } from hg3)
                            ((ih (fuel - 1) hlt).2.2.2.1 { c3 with nbentities := nbv, depth := c3.depth + 1 }
                              content content.length w 0 0 0)
                          rw [hdec] at h
                          exact h
                        dsimp only
                        rcases rep with _ | r
                        · refine keepsGauge_trans ?_ ((ih (fuel - 1) hlt).2.2.2.2.1 _ _ _ _ _ _ _ _)
                          exact hg5
                        · dsimp only
                          rcases hap : appendRep (fuel - 1) { c5 with depth := c5.depth - 1 }
                              er2 r buf bs with ⟨ares, c7⟩
                          have hg7 : keepsGauge c c7 := by
                            have h := keepsGauge_trans
                              (show keepsGauge c { c5 with depth := c5.depth - 1 } from hg5)
                              ((ih (fuel - 1) hlt).2.2.2.2.2 { c5 with depth := c5.depth - 1 }
                                er2 r buf bs)
                            rw [hap] at h
                            exact h
                          rcases ares with _ | ⟨buf2, bs2⟩
                          · exact hg7
                          · dsimp only
                            exact keepsGauge_trans hg7 ((ih (fuel - 1) hlt).2.2.2.2.1 _ _ _ _ _ _ _ _)
          · split
            · rcases hpr : xmlParseStringPEReference (fuel - 1) c s with ⟨ent, s2, c2⟩
              have hg2 : keepsGauge c c2 := by
                have h := (ih (fuel - 1) hlt).2.2.1 c s
                rw [hpr] at h
                exact h
              dsimp only
              split
              · exact hg2
              · rcases hec : xmlParserEntityCheck (fuel - 1) c2 0 ent 0 with ⟨r2, c3⟩
                have hg3 : keepsGauge c c3 := by
                  have h := keepsGauge_trans hg2 ((ih (fuel - 1) hlt).1 c2 0 ent 0)
                  rw [hec] at h
                  exact h
                dsimp only
                rcases ent with _ | er
                · dsimp only
                  exact keepsGauge_trans hg3 ((ih (fuel - 1) hlt).2.2.2.2.1 _ _ _ _ _ _ _ _)
                · dsimp only
                  rcases hd : EntRef.deref c3 er with _ | ed
                  · generalize hnb : c3.nbentities + 0 / 2 = nbv
                    set m3 : Ctxt := { c3 with nbentities := nbv } with hm3
                    have hg3m : keepsGauge c m3 := hg3
                    dsimp only [Option.bind]
                    rcases hbind : (EntRef.deref m3 er).map (fun e => (er, e)) with _ | ⟨er2, ev⟩
                    · exact keepsGauge_trans hg3m ((ih (fuel - 1) hlt).2.2.2.2.1 _ _ _ _ _ _ _ _)
                    · dsimp only
                      rcases hct : ev.content with _ | content
                      · dsimp only
                        refine keepsGauge_trans ?_ ((ih (fuel - 1) hlt).2.2.2.2.1 _ _ _ _ _ _ _ _)
                        exact hg3m
                      · dsimp only
                        rcases hdec : xmlStringLenDecodeEntities (fuel - 1)
                            { c3 with nbentities := nbv, depth := c3.depth + 1 } content content.length w 0 0 0
                          with ⟨rep, c5⟩
                        have hg5 : keepsGauge c c5 := by
                          have h := keepsGauge_trans
                            (show keepsGauge c { c3 with nbentities := nbv, depth := c3.depth + 1 } from hg3)
                            ((ih (fuel - 1) hlt).2.2.2.1 { c3 with nbentities := nbv, depth := c3.depth + 1 }
                              content content.length w 0 0 0)
                          rw [hdec] at h
                          exact h
                        dsimp only
                        rcases rep with _ | r
                        · dsimp only
                          refine keepsGauge_trans ?_ ((ih (fuel - 1) hlt).2.2.2.2.1 _ _ _ _ _ _ _ _)
                          exact hg5
                        · dsimp only
                          rcases hap : appendRep (fuel - 1) { c5 with depth := c5.depth - 1 }
                              er2 r buf bs with ⟨ares, c7⟩
                          have hg7 : keepsGauge c c7 := by
                            have h := keepsGauge_trans
                              (show keepsGauge c { c5 with depth := c5.depth - 1 } from hg5)
                              ((ih (fuel - 1) hlt).2.2.2.2.2 { c5 with depth := c5.depth - 1 }
                                er2 r buf bs)
                            rw [hap] at h
                            exact h
                          rcases ares with _ | ⟨buf2, bs2⟩
                          · exact hg7
                          · dsimp only
                            exact keepsGauge_trans hg7 ((ih (fuel - 1) hlt).2.2.2.2.1 _ _ _ _ _ _ _ _)
                  · generalize hnb : c3.nbentities + ed.checked / 2 = nbv
                    set m3 : Ctxt := { c3 with nbentities := nbv } with hm3
                    have hg3m : keepsGauge c m3 := hg3
                    dsimp only [Option.bind]
                    rcases hbind : (EntRef.deref m3 er).map (fun e => (er, e)) with _ | ⟨er2, ev⟩
                    · exact keepsGauge_trans hg3m ((ih (fuel - 1) hlt).2.2.2.2.1 _ _ _ _ _ _ _ _)
                    · dsimp only
                      rcases hct : ev.content with _ | content
                      · dsimp only
                        refine keepsGauge_trans ?_ ((ih (fuel - 1) hlt).2.2.2.2.1 _ _ _ _ _ _ _ _)
                        exact hg3m
                      · dsimp only
                        rcases hdec : xmlStringLenDecodeEntities (fuel - 1)
                            { c3 with nbentities := nbv, depth := c3.depth + 1 } content content.length w 0 0 0
                          with ⟨rep, c5⟩
                        have hg5 : keepsGauge c c5 := by
                          have h := keepsGauge_trans
                            (show keepsGauge c { c3 with nbentities := nbv, depth := c3.depth + 1 } from hg3)
                            ((ih (fuel - 1) hlt).2.2.2.1 { c3 with nbentities := nbv, depth := c3.depth + 1 }
                              content content.length w 0 0 0)
                          rw [hdec] at h
                          exact h
                        dsimp only
                        rcases rep with _ | r
                        · dsimp only
                          refine keepsGauge_trans ?_ ((ih (fuel - 1) hlt).2.2.2.2.1 _ _ _ _ _ _ _ _)
                          exact hg5
                        · dsimp only
                          rcases hap : appendRep (fuel - 1) { c5 with depth := c5.depth - 1 }
                              er2 r buf bs with ⟨ares, c7⟩
                          have hg7 : keepsGauge c c7 := by
                            have h := keepsGauge_trans
                              (show keepsGauge c { c5 with depth := c5.depth - 1 } from hg5)
                              ((ih (fuel - 1) hlt).2.2.2.2.2 { c5 with depth := c5.depth - 1 }
                                er2 r buf bs)
                            rw [hap] at h
                            exact h
                          rcases ares with _ | ⟨buf2, bs2⟩
                          · exact hg7
                          · dsimp only
                            exact keepsGauge_trans hg7 ((ih (fuel - 1) hlt).2.2.2.2.1 _ _ _ _ _ _ _ _)
            · dsimp only
              exact (ih (fuel - 1) hlt).2.2.2.2.1 _ _ _ _ _ _ _ _
    · intro c er rep buf bs
      rw [appendRep.eq_def, if_neg hf]
      split
      · exact ⟨rfl, rfl, rfl⟩
      · next b rest =>
        dsimp only
        split
        · rcases hx : xmlParserEntityCheck (fuel - 1) c (buf ++ [b]).length (some er) 0
            with ⟨r, c2⟩
          have hg := (ih (fuel - 1) hlt).1 c (buf ++ [b]).length (some er) 0
          rw [hx] at hg
          dsimp only
          split
          · exact hg
          · exact keepsGauge_trans hg ((ih (fuel - 1) hlt).2.2.2.2.2 c2 er rest _ _)
        · exact (ih (fuel - 1) hlt).2.2.2.2.2 c er rest _ _

set_option maxHeartbeats 1000000 in
/-- **C1**: policy of the amplification guard `xmlParserEntityCheck`
(parser.c:64-164).  With the "permit huge documents" option set the check is
skipped entirely and the expansion is allowed with the context untouched;
otherwise a context that already recorded an entity-loop error fails
immediately; and when a proposed replacement size is supplied, the expansion
is allowed exactly when that size is below the large-text threshold or below
`XML_PARSER_NON_LINEAR` (10) times the total bytes consumed so far, and in
the remaining case the call fails fatally with `EntityLoop`. -/
theorem claim_C1_entity_check_policy (fuel : Nat) (c : Ctxt) (size : Nat)
    (ent : Option EntRef) (repl : Nat) (hf : fuel ≠ 0) :
    (c.optHuge = true → xmlParserEntityCheck fuel c size ent repl = (0, c)) ∧
    (c.optHuge = false → c.lastError = XmlErr.entityLoop →
      xmlParserEntityCheck fuel c size ent repl = (1, c)) ∧
    (c.optHuge = false → c.lastError ≠ XmlErr.entityLoop → repl ≠ 0 →
      ((xmlParserEntityCheck fuel c size ent repl).1 = 0 ↔
        repl < XML_MAX_TEXT_LENGTH ∨
          repl < XML_PARSER_NON_LINEAR * (c.consumedTotal + c.sizeentities)) ∧
      (XML_MAX_TEXT_LENGTH ≤ repl →
        XML_PARSER_NON_LINEAR * (c.consumedTotal + c.sizeentities) ≤ repl →
        (xmlParserEntityCheck fuel c size ent repl).1 = 1 ∧
        (c.instate ≠ InState.eof →
          (xmlParserEntityCheck fuel c size ent repl).2.lastError = XmlErr.entityLoop ∧
          (xmlParserEntityCheck fuel c size ent repl).2.errNo = XmlErr.entityLoop ∧
          (xmlParserEntityCheck fuel c size ent repl).2.wellFormed = false))) := by
  refine ⟨?_, ?_, ?_⟩
  · intro hH
    rw [xmlParserEntityCheck.eq_def, if_neg hf, if_pos hH]
  · intro hH hL
    rw [xmlParserEntityCheck.eq_def, if_neg hf, if_neg (by simp [hH]),
      if_pos (show (c.lastError == XmlErr.entityLoop) = true by simp [hL])]
  · intro hH hL hR
    have hmain : xmlParserEntityCheck fuel c size ent repl =
        xmlParserEntityCheck fuel c size ent repl := rfl
    conv at hmain =>
      rhs
      rw [xmlParserEntityCheck.eq_def, if_neg hf, if_neg (by simp [hH]),
        if_neg (by simp [hL])]
    lift_lets at hmain
    extract_lets onb P cns at hmain
    have hP1 : xmlParserEntityCheck fuel c size ent 1 = (0, P) := by
      rw [xmlParserEntityCheck.eq_def, if_neg hf, if_neg (by simp [hH]),
        if_neg (by simp [hL])]
      rfl
    have hg : keepsGauge c P := by
      have h1 := (mutualGauge fuel).1 c size ent 1
      rw [hP1] at h1
      exact h1
    have hcns : cns = c.consumedTotal + c.sizeentities := by
      show P.consumedTotal + P.sizeentities = _
      rw [hg.1, hg.2.1]
    rw [if_pos (show (repl != 0) = true by simpa using hR)] at hmain
    by_cases hA : repl < XML_MAX_TEXT_LENGTH
    · rw [if_pos hA] at hmain
      rw [hmain]
      exact ⟨by simp [hA], fun h1le _ => absurd hA (Nat.not_lt.mpr h1le)⟩
    · rw [if_neg hA] at hmain
      by_cases hB : repl < XML_PARSER_NON_LINEAR * (c.consumedTotal + c.sizeentities)
      · rw [if_pos (by rw [hcns]; exact hB)] at hmain
        rw [hmain]
        exact ⟨by simp [hB], fun _ h2le => absurd hB (Nat.not_lt.mpr h2le)⟩
      · rw [if_neg (by rw [hcns]; exact hB)] at hmain
        rw [hmain]
        refine ⟨by simp [hA, hB], fun _ _ => ⟨rfl, fun hin => ?_⟩⟩
        have hPin : P.instate ≠ InState.eof := by rw [hg.2.2]; exact hin
        rw [xmlFatalErr, if_neg (by simp [hPin])]
        exact ⟨rfl, rfl, rfl⟩

/-- Witness for **C1**: with the huge option the check is skipped for a
50-megabyte replacement, and without it the same replacement is denied on a
fresh context. -/
theorem claim_C1_entity_check_policy_witness :
    xmlParserEntityCheck 1 { optHuge := true } 0 none 50000000 =
      (0, { optHuge := true }) ∧
    (xmlParserEntityCheck 1 ({} : Ctxt) 0 none 50000000).1 = 1 :=
  ⟨(claim_C1_entity_check_policy 1 { optHuge := true } 0 none 50000000
      (by decide)).1 rfl,
   (((claim_C1_entity_check_policy 1 ({} : Ctxt) 0 none 50000000
      (by decide)).2.2 rfl (by decide) (by decide)).2 (by decide) (by decide)).1⟩

/-- The document of the C4 test sentence: two attributes `x` with distinct
prefixes bound to the same URI. -/
def c4doc : Ctxt :=
  { input := bytes "<a xmlns:p=\x22U\x22 p:x=\x221\x22 q:x=\x222\x22 xmlns:q=\x22U\x22/>" }

set_option maxHeartbeats 4000000 in
/-- C4 (counterexample): on `<a xmlns:p="U" p:x="1" q:x="2" xmlns:q="U"/>`
the duplicate by resolved identity raises only the recoverable namespace
diagnostic `XML_NS_ERR_ATTRIBUTE_REDEFINED`: the document stays well-formed
(no fatal `XML_ERR_ATTRIBUTE_REDEFINED`), only namespace-well-formedness is
lost, and the start tag still parses to element `a`. -/
theorem claim_C4_counterexample :
    (xmlParseStartTag2 200 c4doc).2.raised =
      [(Severity.error, XmlErr.nsAttributeRedefined)] ∧
    (xmlParseStartTag2 200 c4doc).2.wellFormed = true ∧
    (xmlParseStartTag2 200 c4doc).2.nsWellFormed = false ∧
    (xmlParseStartTag2 200 c4doc).1 = some (bytes "a", none, none) := by
  refine ⟨?_, ?_, ?_, ?_⟩
  · simp [c4doc, bytes, strXml, strXmlns, strXmlNs, strXmlnsNs, XML_PARSER_NON_LINEAR, XML_PARSER_BIG_ENTITY, XML_PARSER_BIG_BUFFER_SIZE, XML_PARSER_BUFFER_SIZE, XML_PARSER_CHUNK_SIZE, XML_MAX_TEXT_LENGTH, XML_MAX_NAME_LENGTH, XML_MAX_NAMELEN, Ctxt.RAW, Ctxt.NXT, Ctxt.advance, xmlFatalErr, xmlFatalErrMsg, xmlErrMsgStr, xmlWarningMsg, xmlNsErr, xmlNsWarn, xmlValidityError, xmlErrAttributeDup, isBlankCh, isChar, isByteChar, IsLetterASCII, isdec, IS_LETTER, IS_DIGIT, IS_COMBINING, IS_EXTENDER, xmlIsNameStartChar, nameChar11, xmlIsNameChar, nsPush, nsPop, xmlGetNamespace, xmlGetPredefinedEntity, lookupEntity, lookupPEntity, setChecked, curSchar, utf8Encode, copyBuf, skipBlanks, stringNameBigLoop, stringNameSmallLoop, xmlParseStringName, stringCharRefHexLoop, stringCharRefDecLoop, xmlParseStringCharRef, setCheckedRef, XML_SUBSTITUTE_REF, XML_SUBSTITUTE_PEREF, xmlParserEntityCheck, xmlParseStringEntityRef, xmlParseStringPEReference, xmlStringLenDecodeEntities, decodeLoop, appendRep, xmlStringDecodeEntities, charRefHexLoop, charRefDecLoop, xmlParseCharRef, nameAsciiStart, nameAsciiCont, nameStart11, nameComplexLoop11, nameComplexLoopOld, xmlParseNameComplex, xmlParseName, ncnameComplexLoop, xmlParseNCNameComplex, ncnameAsciiStart, ncnameAsciiCont, xmlParseNCName, nmtokenBigLoop, nmtokenSmallLoop, xmlParseNmtoken, xmlBuildQName, xmlParseQName, xmlErrMemory, xmlParseEntityRef, attValueComplexLoop, xmlParseAttValueComplex, attFastScanNorm, attFastCont, xmlParseAttValueInternal, xmlAttrNormalizeSpace, xmlAttrNormalizeSpace2, lookupSpecial, xmlCheckLanguageID, setSpaceTop, xmlParseAttribute2, lastN, lookupDefaults, startTag2AttLoop, startTag2AttTail, startTag2OrdTail, startTag2Defaults, startTag2DupScan, startTag2AttsCheckLoop, xmlParseStartTag2, EntRef.deref, xmlParseAttValueInternal.xmlParseAttValueComplexAlloc, xmlAttrNormalizeSpace.attrNormAlg, xmlAttrNormalizeSpace2.attrNorm2NeedsRealloc, List.takeWhile, List.dropWhile, List.find?, List.getD, List.headD, List.lookup]
  · simp [c4doc, bytes, strXml, strXmlns, strXmlNs, strXmlnsNs, XML_PARSER_NON_LINEAR, XML_PARSER_BIG_ENTITY, XML_PARSER_BIG_BUFFER_SIZE, XML_PARSER_BUFFER_SIZE, XML_PARSER_CHUNK_SIZE, XML_MAX_TEXT_LENGTH, XML_MAX_NAME_LENGTH, XML_MAX_NAMELEN, Ctxt.RAW, Ctxt.NXT, Ctxt.advance, xmlFatalErr, xmlFatalErrMsg, xmlErrMsgStr, xmlWarningMsg, xmlNsErr, xmlNsWarn, xmlValidityError, xmlErrAttributeDup, isBlankCh, isChar, isByteChar, IsLetterASCII, isdec, IS_LETTER, IS_DIGIT, IS_COMBINING, IS_EXTENDER, xmlIsNameStartChar, nameChar11, xmlIsNameChar, nsPush, nsPop, xmlGetNamespace, xmlGetPredefinedEntity, lookupEntity, lookupPEntity, setChecked, curSchar, utf8Encode, copyBuf, skipBlanks, stringNameBigLoop, stringNameSmallLoop, xmlParseStringName, stringCharRefHexLoop, stringCharRefDecLoop, xmlParseStringCharRef, setCheckedRef, XML_SUBSTITUTE_REF, XML_SUBSTITUTE_PEREF, xmlParserEntityCheck, xmlParseStringEntityRef, xmlParseStringPEReference, xmlStringLenDecodeEntities, decodeLoop, appendRep, xmlStringDecodeEntities, charRefHexLoop, charRefDecLoop, xmlParseCharRef, nameAsciiStart, nameAsciiCont, nameStart11, nameComplexLoop11, nameComplexLoopOld, xmlParseNameComplex, xmlParseName, ncnameComplexLoop, xmlParseNCNameComplex, ncnameAsciiStart, ncnameAsciiCont, xmlParseNCName, nmtokenBigLoop, nmtokenSmallLoop, xmlParseNmtoken, xmlBuildQName, xmlParseQName, xmlErrMemory, xmlParseEntityRef, attValueComplexLoop, xmlParseAttValueComplex, attFastScanNorm, attFastCont, xmlParseAttValueInternal, xmlAttrNormalizeSpace, xmlAttrNormalizeSpace2, lookupSpecial, xmlCheckLanguageID, setSpaceTop, xmlParseAttribute2, lastN, lookupDefaults, startTag2AttLoop, startTag2AttTail, startTag2OrdTail, startTag2Defaults, startTag2DupScan, startTag2AttsCheckLoop, xmlParseStartTag2, EntRef.deref, xmlParseAttValueInternal.xmlParseAttValueComplexAlloc, xmlAttrNormalizeSpace.attrNormAlg, xmlAttrNormalizeSpace2.attrNorm2NeedsRealloc, List.takeWhile, List.dropWhile, List.find?, List.getD, List.headD, List.lookup]
  · simp [c4doc, bytes, strXml, strXmlns, strXmlNs, strXmlnsNs, XML_PARSER_NON_LINEAR, XML_PARSER_BIG_ENTITY, XML_PARSER_BIG_BUFFER_SIZE, XML_PARSER_BUFFER_SIZE, XML_PARSER_CHUNK_SIZE, XML_MAX_TEXT_LENGTH, XML_MAX_NAME_LENGTH, XML_MAX_NAMELEN, Ctxt.RAW, Ctxt.NXT, Ctxt.advance, xmlFatalErr, xmlFatalErrMsg, xmlErrMsgStr, xmlWarningMsg, xmlNsErr, xmlNsWarn, xmlValidityError, xmlErrAttributeDup, isBlankCh, isChar, isByteChar, IsLetterASCII, isdec, IS_LETTER, IS_DIGIT, IS_COMBINING, IS_EXTENDER, xmlIsNameStartChar, nameChar11, xmlIsNameChar, nsPush, nsPop, xmlGetNamespace, xmlGetPredefinedEntity, lookupEntity, lookupPEntity, setChecked, curSchar, utf8Encode, copyBuf, skipBlanks, stringNameBigLoop, stringNameSmallLoop, xmlParseStringName, stringCharRefHexLoop, stringCharRefDecLoop, xmlParseStringCharRef, setCheckedRef, XML_SUBSTITUTE_REF, XML_SUBSTITUTE_PEREF, xmlParserEntityCheck, xmlParseStringEntityRef, xmlParseStringPEReference, xmlStringLenDecodeEntities, decodeLoop, appendRep, xmlStringDecodeEntities, charRefHexLoop, charRefDecLoop, xmlParseCharRef, nameAsciiStart, nameAsciiCont, nameStart11, nameComplexLoop11, nameComplexLoopOld, xmlParseNameComplex, xmlParseName, ncnameComplexLoop, xmlParseNCNameComplex, ncnameAsciiStart, ncnameAsciiCont, xmlParseNCName, nmtokenBigLoop, nmtokenSmallLoop, xmlParseNmtoken, xmlBuildQName, xmlParseQName, xmlErrMemory, xmlParseEntityRef, attValueComplexLoop, xmlParseAttValueComplex, attFastScanNorm, attFastCont, xmlParseAttValueInternal, xmlAttrNormalizeSpace, xmlAttrNormalizeSpace2, lookupSpecial, xmlCheckLanguageID, setSpaceTop, xmlParseAttribute2, lastN, lookupDefaults, startTag2AttLoop, startTag2AttTail, startTag2OrdTail, startTag2Defaults, startTag2DupScan, startTag2AttsCheckLoop, xmlParseStartTag2, EntRef.deref, xmlParseAttValueInternal.xmlParseAttValueComplexAlloc, xmlAttrNormalizeSpace.attrNormAlg, xmlAttrNormalizeSpace2.attrNorm2NeedsRealloc, List.takeWhile, List.dropWhile, List.find?, List.getD, List.headD, List.lookup]
  · simp [c4doc, bytes, strXml, strXmlns, strXmlNs, strXmlnsNs, XML_PARSER_NON_LINEAR, XML_PARSER_BIG_ENTITY, XML_PARSER_BIG_BUFFER_SIZE, XML_PARSER_BUFFER_SIZE, XML_PARSER_CHUNK_SIZE, XML_MAX_TEXT_LENGTH, XML_MAX_NAME_LENGTH, XML_MAX_NAMELEN, Ctxt.RAW, Ctxt.NXT, Ctxt.advance, xmlFatalErr, xmlFatalErrMsg, xmlErrMsgStr, xmlWarningMsg, xmlNsErr, xmlNsWarn, xmlValidityError, xmlErrAttributeDup, isBlankCh, isChar, isByteChar, IsLetterASCII, isdec, IS_LETTER, IS_DIGIT, IS_COMBINING, IS_EXTENDER, xmlIsNameStartChar, nameChar11, xmlIsNameChar, nsPush, nsPop, xmlGetNamespace, xmlGetPredefinedEntity, lookupEntity, lookupPEntity, setChecked, curSchar, utf8Encode, copyBuf, skipBlanks, stringNameBigLoop, stringNameSmallLoop, xmlParseStringName, stringCharRefHexLoop, stringCharRefDecLoop, xmlParseStringCharRef, setCheckedRef, XML_SUBSTITUTE_REF, XML_SUBSTITUTE_PEREF, xmlParserEntityCheck, xmlParseStringEntityRef, xmlParseStringPEReference, xmlStringLenDecodeEntities, decodeLoop, appendRep, xmlStringDecodeEntities, charRefHexLoop, charRefDecLoop, xmlParseCharRef, nameAsciiStart, nameAsciiCont, nameStart11, nameComplexLoop11, nameComplexLoopOld, xmlParseNameComplex, xmlParseName, ncnameComplexLoop, xmlParseNCNameComplex, ncnameAsciiStart, ncnameAsciiCont, xmlParseNCName, nmtokenBigLoop, nmtokenSmallLoop, xmlParseNmtoken, xmlBuildQName, xmlParseQName, xmlErrMemory, xmlParseEntityRef, attValueComplexLoop, xmlParseAttValueComplex, attFastScanNorm, attFastCont, xmlParseAttValueInternal, xmlAttrNormalizeSpace, xmlAttrNormalizeSpace2, lookupSpecial, xmlCheckLanguageID, setSpaceTop, xmlParseAttribute2, lastN, lookupDefaults, startTag2AttLoop, startTag2AttTail, startTag2OrdTail, startTag2Defaults, startTag2DupScan, startTag2AttsCheckLoop, xmlParseStartTag2, EntRef.deref, xmlParseAttValueInternal.xmlParseAttValueComplexAlloc, xmlAttrNormalizeSpace.attrNormAlg, xmlAttrNormalizeSpace2.attrNorm2NeedsRealloc, List.takeWhile, List.dropWhile, List.find?, List.getD, List.headD, List.lookup]

end LibXML
